import Mathlib

/-!
# button_control (ESP32): shallow embedding and verification

Embedding of `src/ESP32/button_control.c` / `button_control.h`.

* The button record `button_ctx` is passed explicitly; the caller's `bool *flag`
  is a separate `Bool` that is threaded through the flag classifiers.
* The `async_await` library (`my_libs/async_await`) is a separate library whose
  code is not part of the sources.  Every classifier is therefore parametric in
  an interface `await_ops` giving the four operations the source calls
  (`async_await`, `end_await`, `reboot_await`, the `end_flag` field) together with
  the default context.  The hardware clock read by the library is the explicit
  argument `now` (microseconds) of a poll.
* Callback pointers are `Option Nat` (`none` is `NULL`); invoking one appends an
  `event.call` to the trace of the poll.  Callbacks are assumed not to write to the
  button record.  Timer operations are recorded in the same trace.
* `unsigned int` is `Nat` reduced modulo `2 ^ 32` where the source can overflow
  (`presses_counter += 1`); `uint8_t` arguments are naturals below `256`.
* A right shift of a 32-bit register by a count outside `0..31` is undefined in C; its
  value is a parameter of the input registers (`shift_undefined`), so that every
  statement holds whatever the platform delivers for it.
-/

namespace ButtonControl

/-! ## Constants -/

/-- `#define LOOP_PERFORMANCE ((unsigned int)-1)`. -/
def LOOP_PERFORMANCE : Nat := 2 ^ 32 - 1

/-- `#define TOTAL_PINS 35`. -/
def TOTAL_PINS : Int := 35

/-- Value of `GPIO_NUM_NC` in the ESP-IDF header `driver/gpio.h` that the source includes. -/
def GPIO_NUM_NC : Int := -1

/-- Value of `GPIO_PULLUP_ONLY` in the ESP-IDF enum `gpio_pull_mode_t`. -/
def GPIO_PULLUP_ONLY : Int := 0

/-- Value of `GPIO_PULLDOWN_ONLY` in the ESP-IDF enum `gpio_pull_mode_t`. -/
def GPIO_PULLDOWN_ONLY : Int := 1

/-- Value of `GPIO_PULLUP_PULLDOWN` in the ESP-IDF enum `gpio_pull_mode_t`. -/
def GPIO_PULLUP_PULLDOWN : Int := 2

/-- Value of `GPIO_FLOATING` in the ESP-IDF enum `gpio_pull_mode_t`. -/
def GPIO_FLOATING : Int := 3

/-- First enumerator of `button_type`: button without fixation. -/
def NO_FIX : Int := 0

/-- Second enumerator of `button_type`: button with fixation. -/
def FIX : Int := 1

/-! ## Data model -/

/-- Time units of the `async_await` library that the source uses. -/
inductive time_unit where
  | TIME_UNIT_US
  | TIME_UNIT_MS
  | TIME_UNIT_S
deriving DecidableEq, Repr

/-- The three await contexts owned by a button. -/
inductive timer_id where
  | DEBOUNCE
  | MULTIPRESS
  | LONG_TIME_PRESS
deriving DecidableEq, Repr

/-- Observable effects of one classifier call, in program order. -/
inductive event where
  | call (f : Nat)
  | async_await (t : timer_id)
  | end_await (t : timer_id)
  | reboot_await (t : timer_id)
deriving DecidableEq, Repr

/-- Operations of the `async_await` library used by the source, over an arbitrary
context type `τ`.  `async_await ctx now duration unit auto` returns the report and
the updated context; `reboot_await ctx now duration unit` and `end_await ctx` return
the updated context; `end_flag ctx` reads the field `ctx.end_flag`. -/
structure await_ops (τ : Type) where
  async_await_ctx_default : τ
  async_await : τ → Nat → Nat → time_unit → Bool → Bool × τ
  end_await : τ → τ
  reboot_await : τ → Nat → Nat → time_unit → τ
  end_flag : τ → Bool

/-- The struct `button_ctx` of `button_control.h`. -/
structure button_ctx (τ : Type) where
  PIN : Int
  pull_mode : Int
  type : Int
  but_pressed : Bool
  but_long_pressed : Bool
  but_snapshot : Bool
  one_time_block : Bool
  mt_permission : Bool
  long_time_await_end : Bool
  presses_counter : Nat
  max_presses_quantity : Nat
  onetime_press_callback : Option Nat
  multiple_press_callback : Option Nat
  long_time_press_callback : Option Nat
  long_time_press_permission : Bool
  infinite_press_callback : Option Nat
  infinite_press_permission : Bool
  DEBOUNCE_AWAIT : τ
  MULTIPRESS_AWAIT : τ
  LONG_TIME_PRESS_AWAIT : τ
deriving DecidableEq, Repr

/-- The input registers `GPIO.in` (32 bits) and `GPIO.in1.val` read by a poll.  C leaves
a right shift of a 32-bit word by a count outside `0..31` undefined;
`shift_undefined x n` is the value the platform delivers for `x >> n` there, a
parameter of the hardware that the embedding does not fix. -/
structure gpio_dev_t where
  in_val : Nat
  in1_val : Nat
  shift_undefined : Nat → Int → Nat

/-- The C expression `x >> n` on a 32-bit word `x`: the shift for a count in `0..31`,
the reading of the platform (`shift_undefined`) for a count outside that range. -/
def shift_right_32 (gpio : gpio_dev_t) (x : Nat) (n : Int) : Nat :=
  if 0 ≤ n ∧ n < 32 then x >>> n.toNat else gpio.shift_undefined x n

/-- Result of a flag classifier: the button record, the caller's flag and the
effects of the call. -/
structure flag_result (τ : Type) where
  button : button_ctx τ
  flag : Bool
  trace : List event
deriving DecidableEq, Repr

/-- Result of a callback classifier: the button record and the effects of the call. -/
structure callback_result (τ : Type) where
  button : button_ctx τ
  trace : List event
deriving DecidableEq, Repr

/-! ## Helper function -/

/-- The function `fast_but_gpio_read`: the register is shifted by the pin number and
masked with `0x1`, then normalised by pull mode.  Both registers are 32-bit words; the
source shifts `GPIO.in` by `PIN` for every pin below `TOTAL_PINS`, which for the pins
`32..34` (and for a negative pin) is a shift C leaves undefined, see
`shift_right_32`. -/
def fast_but_gpio_read {τ : Type} (button : button_ctx τ) (gpio : gpio_dev_t) : Int :=
  let raw_level : Int :=
    if button.PIN < TOTAL_PINS then
      ((shift_right_32 gpio (gpio.in_val % 2 ^ 32) button.PIN) % 2 : Nat)
    else
      ((shift_right_32 gpio (gpio.in1_val % 2 ^ 32) (button.PIN - 32)) % 2 : Nat)
  if button.pull_mode = GPIO_PULLUP_ONLY then (if raw_level = 0 then 1 else 0)
  else if button.pull_mode = GPIO_PULLDOWN_ONLY then (if raw_level = 1 then 1 else 0)
  else raw_level

/-! ## Constructor -/

/-- The function `button_initialization`; `none` is the abort by `assert(0)`.  The
calls `gpio_set_direction` / `gpio_set_pull_mode` configure the pin hardware and do
not touch the record. -/
def button_initialization {τ : Type} (ops : await_ops τ) (PIN pull_mode type : Int) :
    Option (button_ctx τ) :=
  if PIN < 0 ∨ PIN > TOTAL_PINS then none
  else if pull_mode ≠ GPIO_PULLUP_ONLY ∧ pull_mode ≠ GPIO_PULLDOWN_ONLY ∧
      pull_mode ≠ GPIO_PULLUP_PULLDOWN ∧ pull_mode ≠ GPIO_FLOATING then none
  else if type ≠ NO_FIX ∧ type ≠ FIX then none
  else some
    { PIN := PIN
      pull_mode := pull_mode
      type := type
      but_pressed := false
      but_long_pressed := false
      but_snapshot := false
      one_time_block := false
      mt_permission := true
      long_time_await_end := true
      presses_counter := 0
      max_presses_quantity := 1
      onetime_press_callback := none
      multiple_press_callback := none
      long_time_press_callback := none
      long_time_press_permission := false
      infinite_press_callback := none
      infinite_press_permission := false
      DEBOUNCE_AWAIT := ops.async_await_ctx_default
      MULTIPRESS_AWAIT := ops.async_await_ctx_default
      LONG_TIME_PRESS_AWAIT := ops.async_await_ctx_default }

/-! ## Flag classifiers -/

/-- The function `flag_control_by_but_onetime_press`. -/
def flag_control_by_but_onetime_press {τ : Type} (ops : await_ops τ)
    (button : button_ctx τ) (flag : Bool) (gpio : gpio_dev_t) (now : Nat) :
    flag_result τ :=
  if button.PIN = GPIO_NUM_NC then ⟨button, flag, []⟩
  else if button.type = FIX then ⟨button, flag, []⟩
  else
    let but_level := fast_but_gpio_read button gpio
    if button.but_pressed = false ∧ but_level ≠ 0 then
      let button := { button with one_time_block := false }
      let r := ops.async_await button.DEBOUNCE_AWAIT now 3 time_unit.TIME_UNIT_MS false
      let button := { button with DEBOUNCE_AWAIT := r.2 }
      if r.1 = true then
        ⟨{ button with but_pressed := true, mt_permission := true }, flag,
          [event.async_await timer_id.DEBOUNCE]⟩
      else ⟨button, flag, [event.async_await timer_id.DEBOUNCE]⟩
    else if button.but_pressed = true ∧ button.mt_permission = true ∧
        button.one_time_block = false ∧ but_level = 0 then
      ⟨{ button with
          DEBOUNCE_AWAIT := ops.end_await button.DEBOUNCE_AWAIT
          LONG_TIME_PRESS_AWAIT := ops.end_await button.LONG_TIME_PRESS_AWAIT
          but_pressed := false
          one_time_block := true },
        !flag,
        [event.end_await timer_id.DEBOUNCE, event.end_await timer_id.LONG_TIME_PRESS]⟩
    else ⟨button, flag, []⟩

/-- The function `flag_control_by_but_multiple_press_inside`.  The four consecutive
`if` statements of the source are the four stages `s1 .. s4`. -/
def flag_control_by_but_multiple_press_inside {τ : Type} (ops : await_ops τ)
    (button : button_ctx τ) (flag : Bool) (presses_quantity : Nat)
    (gpio : gpio_dev_t) (now : Nat) : flag_result τ :=
  if presses_quantity < 1 then ⟨button, flag, []⟩
  else if button.PIN = GPIO_NUM_NC then ⟨button, flag, []⟩
  else
    let button : button_ctx τ :=
      if presses_quantity > button.max_presses_quantity then
        { button with max_presses_quantity := presses_quantity }
      else button
    let but_level := fast_but_gpio_read button gpio
    -- if (!button->but_pressed && but_level)
    let s1 : flag_result τ :=
      if button.but_pressed = false ∧ but_level ≠ 0 then
        let r := ops.async_await button.DEBOUNCE_AWAIT now 3 time_unit.TIME_UNIT_MS false
        let button := { button with DEBOUNCE_AWAIT := r.2 }
        if r.1 = true then
          ⟨{ button with
              mt_permission := true
              but_pressed := true
              MULTIPRESS_AWAIT :=
                ops.reboot_await button.MULTIPRESS_AWAIT now 1 time_unit.TIME_UNIT_S },
            flag,
            [event.async_await timer_id.DEBOUNCE, event.reboot_await timer_id.MULTIPRESS]⟩
        else ⟨button, flag, [event.async_await timer_id.DEBOUNCE]⟩
      else ⟨button, flag, []⟩
    -- if (button->but_pressed && !but_level)
    let s2 : flag_result τ :=
      if s1.button.but_pressed = true ∧ but_level = 0 then
        ⟨{ s1.button with
            presses_counter := (s1.button.presses_counter + 1) % 2 ^ 32
            but_pressed := false
            DEBOUNCE_AWAIT := ops.end_await s1.button.DEBOUNCE_AWAIT
            MULTIPRESS_AWAIT := ops.end_await s1.button.MULTIPRESS_AWAIT
            LONG_TIME_PRESS_AWAIT := ops.end_await s1.button.LONG_TIME_PRESS_AWAIT },
          s1.flag,
          s1.trace ++ [event.end_await timer_id.DEBOUNCE,
            event.end_await timer_id.MULTIPRESS, event.end_await timer_id.LONG_TIME_PRESS]⟩
      else s1
    -- if (button->presses_counter > 0 && button->mt_permission && !button->but_pressed)
    let s3 : flag_result τ :=
      if s2.button.presses_counter > 0 ∧ s2.button.mt_permission = true ∧
          s2.button.but_pressed = false then
        let r := ops.async_await s2.button.MULTIPRESS_AWAIT now 1 time_unit.TIME_UNIT_S true
        let a : flag_result τ :=
          ⟨{ s2.button with MULTIPRESS_AWAIT := r.2 }, s2.flag,
            s2.trace ++ [event.async_await timer_id.MULTIPRESS]⟩
        if ops.end_flag a.button.MULTIPRESS_AWAIT = true then
          let b : flag_result τ :=
            if a.button.presses_counter = presses_quantity then
              ⟨{ a.button with
                  presses_counter := 0
                  MULTIPRESS_AWAIT := ops.end_await a.button.MULTIPRESS_AWAIT },
                !a.flag, a.trace ++ [event.end_await timer_id.MULTIPRESS]⟩
            else a
          if b.button.presses_counter > b.button.max_presses_quantity then
            ⟨{ b.button with
                presses_counter := 0
                MULTIPRESS_AWAIT := ops.end_await b.button.MULTIPRESS_AWAIT },
              b.flag, b.trace ++ [event.end_await timer_id.MULTIPRESS]⟩
          else b
        else a
      else s2
    -- if (!button->mt_permission && button->long_time_await_end)
    let s4 : flag_result τ :=
      if s3.button.mt_permission = false ∧ s3.button.long_time_await_end = true then
        ⟨{ s3.button with
            presses_counter := 0
            MULTIPRESS_AWAIT := ops.end_await s3.button.MULTIPRESS_AWAIT },
          s3.flag, s3.trace ++ [event.end_await timer_id.MULTIPRESS]⟩
      else s3
    s4

/-- The function `flag_control_by_but_multiple_press` (guard wrapper). -/
def flag_control_by_but_multiple_press {τ : Type} (ops : await_ops τ)
    (button : button_ctx τ) (flag : Bool) (presses_quantity : Nat)
    (gpio : gpio_dev_t) (now : Nat) : flag_result τ :=
  if button.PIN = GPIO_NUM_NC ∨ presses_quantity < 1 then ⟨button, flag, []⟩
  else
    let valid_press_count : Bool :=
      if presses_quantity = 1 ∧ button.presses_counter ≤ 1 then true
      else if button.presses_counter = presses_quantity then true
      else false
    if valid_press_count = true then
      flag_control_by_but_multiple_press_inside ops button flag presses_quantity gpio now
    else ⟨button, flag, []⟩

/-- The function `flag_control_by_but_longtime_press`.  The source is an
`if / else if` followed by an `if` and an `if / else if`: the stages `s1 .. s3`. -/
def flag_control_by_but_longtime_press {τ : Type} (ops : await_ops τ)
    (button : button_ctx τ) (flag : Bool) (gpio : gpio_dev_t) (now : Nat) :
    flag_result τ :=
  if button.PIN = GPIO_NUM_NC then ⟨button, flag, []⟩
  else if button.type = FIX then ⟨button, flag, []⟩
  else
    let but_level := fast_but_gpio_read button gpio
    let s1 : flag_result τ :=
      if button.but_long_pressed = false ∧ but_level ≠ 0 then
        let r := ops.async_await button.DEBOUNCE_AWAIT now 3 time_unit.TIME_UNIT_MS false
        let button := { button with DEBOUNCE_AWAIT := r.2 }
        if r.1 = true then
          ⟨{ button with but_long_pressed := true }, flag,
            [event.async_await timer_id.DEBOUNCE]⟩
        else ⟨button, flag, [event.async_await timer_id.DEBOUNCE]⟩
      else if button.but_long_pressed = true ∧ but_level ≠ 0 then
        let button := { button with one_time_block := false, mt_permission := false }
        let r := ops.async_await button.LONG_TIME_PRESS_AWAIT now 3 time_unit.TIME_UNIT_S false
        let button := { button with LONG_TIME_PRESS_AWAIT := r.2 }
        if r.1 = true then
          ⟨{ button with long_time_await_end := true, one_time_block := true }, !flag,
            [event.async_await timer_id.LONG_TIME_PRESS]⟩
        else ⟨button, flag, [event.async_await timer_id.LONG_TIME_PRESS]⟩
      else ⟨button, flag, []⟩
    -- if (button->long_time_await_end && but_level)
    let s2 : flag_result τ :=
      if s1.button.long_time_await_end = true ∧ but_level ≠ 0 then
        ⟨{ s1.button with
            but_long_pressed := false
            LONG_TIME_PRESS_AWAIT := ops.end_await s1.button.LONG_TIME_PRESS_AWAIT
            DEBOUNCE_AWAIT := ops.end_await s1.button.DEBOUNCE_AWAIT },
          s1.flag,
          s1.trace ++ [event.end_await timer_id.LONG_TIME_PRESS,
            event.end_await timer_id.DEBOUNCE]⟩
      else s1
    -- if (button->long_time_await_end && !but_level) ... else if (...)
    let s3 : flag_result τ :=
      if s2.button.long_time_await_end = true ∧ but_level = 0 then
        ⟨{ s2.button with mt_permission := false, long_time_await_end := false },
          s2.flag, s2.trace⟩
      else if s2.button.long_time_await_end = false ∧ but_level = 0 then
        ⟨{ s2.button with mt_permission := true, long_time_await_end := false },
          s2.flag, s2.trace⟩
      else s2
    s3

/-- The function `flag_control_by_but_infinite_press`. -/
def flag_control_by_but_infinite_press {τ : Type} (ops : await_ops τ)
    (button : button_ctx τ) (flag : Bool) (gpio : gpio_dev_t) (now : Nat) :
    flag_result τ :=
  if button.PIN = GPIO_NUM_NC then ⟨button, flag, []⟩
  else
    let but_level := fast_but_gpio_read button gpio
    if button.but_pressed = false ∧ but_level ≠ 0 then
      let button := { button with but_snapshot := flag }
      let r := ops.async_await button.DEBOUNCE_AWAIT now 3 time_unit.TIME_UNIT_MS false
      let button := { button with DEBOUNCE_AWAIT := r.2 }
      if r.1 = true then
        ⟨{ button with but_pressed := true, mt_permission := false }, !flag,
          [event.async_await timer_id.DEBOUNCE]⟩
      else ⟨button, flag, [event.async_await timer_id.DEBOUNCE]⟩
    else if button.but_pressed = true ∧ but_level = 0 then
      ⟨{ button with
          but_pressed := false
          DEBOUNCE_AWAIT := ops.end_await button.DEBOUNCE_AWAIT },
        button.but_snapshot, [event.end_await timer_id.DEBOUNCE]⟩
    else ⟨button, flag, []⟩

/-! ## Callback classifiers -/

/-- The function `callback_control_by_but_onetime_press`. -/
def callback_control_by_but_onetime_press {τ : Type} (ops : await_ops τ)
    (button : button_ctx τ) (repeats : Nat) (gpio : gpio_dev_t) (now : Nat) :
    callback_result τ :=
  if button.PIN = GPIO_NUM_NC then ⟨button, []⟩
  else
    let but_level := fast_but_gpio_read button gpio
    if button.but_pressed = false ∧ but_level ≠ 0 then
      let r := ops.async_await button.DEBOUNCE_AWAIT now 3 time_unit.TIME_UNIT_MS false
      let button := { button with DEBOUNCE_AWAIT := r.2 }
      if r.1 = true then
        ⟨{ button with but_pressed := true, mt_permission := true },
          [event.async_await timer_id.DEBOUNCE]⟩
      else ⟨button, [event.async_await timer_id.DEBOUNCE]⟩
    else if button.but_pressed = true ∧ button.mt_permission = true ∧ but_level = 0 then
      let calls : List event :=
        match button.onetime_press_callback with
        | some f =>
          if repeats ≠ LOOP_PERFORMANCE then List.replicate repeats (event.call f)
          else [event.call f]
        | none => []
      ⟨{ button with
          DEBOUNCE_AWAIT := ops.end_await button.DEBOUNCE_AWAIT
          but_pressed := false },
        calls ++ [event.end_await timer_id.DEBOUNCE]⟩
    else ⟨button, []⟩

/-- The function `callback_control_by_but_multiple_press`. -/
def callback_control_by_but_multiple_press {τ : Type} (ops : await_ops τ)
    (button : button_ctx τ) (presses_quantity : Nat) (repeats : Nat)
    (gpio : gpio_dev_t) (now : Nat) : callback_result τ :=
  if presses_quantity < 1 then ⟨button, []⟩
  else if button.PIN = GPIO_NUM_NC then ⟨button, []⟩
  else
    let but_level := fast_but_gpio_read button gpio
    if button.but_pressed = false ∧ but_level ≠ 0 then
      let r := ops.async_await button.DEBOUNCE_AWAIT now 3 time_unit.TIME_UNIT_MS false
      let button := { button with DEBOUNCE_AWAIT := r.2 }
      if r.1 = true then
        ⟨{ button with
            presses_counter := (button.presses_counter + 1) % 2 ^ 32
            MULTIPRESS_AWAIT :=
              ops.reboot_await button.MULTIPRESS_AWAIT now 3 time_unit.TIME_UNIT_S
            but_pressed := true
            mt_permission := true },
          [event.async_await timer_id.DEBOUNCE, event.reboot_await timer_id.MULTIPRESS]⟩
      else ⟨button, [event.async_await timer_id.DEBOUNCE]⟩
    else if button.presses_counter > 0 then
      let r := ops.async_await button.MULTIPRESS_AWAIT now 3 time_unit.TIME_UNIT_S true
      let button := { button with MULTIPRESS_AWAIT := r.2 }
      if r.1 = true then
        let calls : List event :=
          if button.presses_counter = presses_quantity then
            match button.multiple_press_callback with
            | some f =>
              if repeats ≠ LOOP_PERFORMANCE then List.replicate repeats (event.call f)
              else [event.call f]
            | none => []
          else []
        ⟨{ button with presses_counter := 0 },
          [event.async_await timer_id.MULTIPRESS] ++ calls⟩
      else ⟨button, [event.async_await timer_id.MULTIPRESS]⟩
    else if button.but_pressed = true ∧ button.mt_permission = true ∧ but_level = 0 then
      ⟨{ button with
          DEBOUNCE_AWAIT := ops.end_await button.DEBOUNCE_AWAIT
          MULTIPRESS_AWAIT := ops.end_await button.MULTIPRESS_AWAIT
          but_pressed := false },
        [event.end_await timer_id.DEBOUNCE, event.end_await timer_id.MULTIPRESS]⟩
    else ⟨button, []⟩

/-- The function `callback_control_by_but_longtime_press`. -/
def callback_control_by_but_longtime_press {τ : Type} (ops : await_ops τ)
    (button : button_ctx τ) (repeats : Nat) (gpio : gpio_dev_t) (now : Nat) :
    callback_result τ :=
  if button.PIN = GPIO_NUM_NC then ⟨button, []⟩
  else
    let but_level := fast_but_gpio_read button gpio
    if button.but_pressed = false ∧ but_level ≠ 0 then
      let r := ops.async_await button.DEBOUNCE_AWAIT now 3 time_unit.TIME_UNIT_MS false
      let button := { button with DEBOUNCE_AWAIT := r.2 }
      if r.1 = true then
        ⟨{ button with but_pressed := true }, [event.async_await timer_id.DEBOUNCE]⟩
      else ⟨button, [event.async_await timer_id.DEBOUNCE]⟩
    else if button.but_pressed = true ∧ but_level ≠ 0 then
      let r := ops.async_await button.LONG_TIME_PRESS_AWAIT now 3 time_unit.TIME_UNIT_S false
      let button := { button with LONG_TIME_PRESS_AWAIT := r.2 }
      if r.1 = true then
        ⟨{ button with long_time_press_permission := true, mt_permission := false },
          [event.async_await timer_id.LONG_TIME_PRESS]⟩
      else ⟨button, [event.async_await timer_id.LONG_TIME_PRESS]⟩
    else if button.long_time_press_permission = true then
      match button.long_time_press_callback with
      | some f =>
        if repeats ≠ LOOP_PERFORMANCE then
          ⟨{ button with long_time_press_permission := false },
            List.replicate repeats (event.call f)⟩
        else ⟨button, [event.call f]⟩
      | none => ⟨button, []⟩
    else if button.but_pressed = true ∧ but_level = 0 then
      ⟨{ button with
          LONG_TIME_PRESS_AWAIT := ops.end_await button.LONG_TIME_PRESS_AWAIT
          DEBOUNCE_AWAIT := ops.end_await button.DEBOUNCE_AWAIT
          but_pressed := false },
        [event.end_await timer_id.LONG_TIME_PRESS, event.end_await timer_id.DEBOUNCE]⟩
    else ⟨button, []⟩

/-- The function `callback_control_by_but_infinite_press`. -/
def callback_control_by_but_infinite_press {τ : Type} (ops : await_ops τ)
    (button : button_ctx τ) (repeats : Nat) (gpio : gpio_dev_t) (now : Nat) :
    callback_result τ :=
  if button.PIN = GPIO_NUM_NC then ⟨button, []⟩
  else
    let but_level := fast_but_gpio_read button gpio
    if button.but_pressed = false ∧ but_level ≠ 0 then
      let r := ops.async_await button.DEBOUNCE_AWAIT now 3 time_unit.TIME_UNIT_MS false
      let button := { button with DEBOUNCE_AWAIT := r.2 }
      if r.1 = true then
        ⟨{ button with but_pressed := true }, [event.async_await timer_id.DEBOUNCE]⟩
      else ⟨button, [event.async_await timer_id.DEBOUNCE]⟩
    else if button.but_pressed = true ∧ but_level ≠ 0 then
      let r := ops.async_await button.LONG_TIME_PRESS_AWAIT now 3 time_unit.TIME_UNIT_S false
      let button := { button with LONG_TIME_PRESS_AWAIT := r.2 }
      if r.1 = true then
        ⟨{ button with infinite_press_permission := true, mt_permission := false },
          [event.async_await timer_id.LONG_TIME_PRESS]⟩
      else ⟨button, [event.async_await timer_id.LONG_TIME_PRESS]⟩
    else if button.infinite_press_permission = true ∧ but_level ≠ 0 then
      match button.infinite_press_callback with
      | some f =>
        if repeats ≠ LOOP_PERFORMANCE then
          ⟨{ button with infinite_press_permission := false },
            List.replicate repeats (event.call f)⟩
        else ⟨button, [event.call f]⟩
      | none => ⟨button, []⟩
    else if button.but_pressed = true ∧ but_level = 0 then
      ⟨{ button with
          infinite_press_permission := false
          LONG_TIME_PRESS_AWAIT := ops.end_await button.LONG_TIME_PRESS_AWAIT
          DEBOUNCE_AWAIT := ops.end_await button.DEBOUNCE_AWAIT
          but_pressed := false },
        [event.end_await timer_id.LONG_TIME_PRESS, event.end_await timer_id.DEBOUNCE]⟩
    else ⟨button, []⟩

/-! ## The timer of the specification -/

/-- Modelled from the spec: context of the external non-blocking timer (the
`async_await` library is not part of the sources).  `start_flag` says the timer is
armed, `start_time` is the clock value of the invocation that armed it, and
`end_flag` (the one field the source reads) holds the last elapsed report. -/
structure async_await_ctx where
  start_flag : Bool
  start_time : Nat
  end_flag : Bool
deriving DecidableEq, Repr

/-- Modelled from the spec: a duration with its unit, in microseconds. -/
def duration_us (duration : Nat) : time_unit → Nat
  | time_unit.TIME_UNIT_US => duration
  | time_unit.TIME_UNIT_MS => 1000 * duration
  | time_unit.TIME_UNIT_S => 1000000 * duration

/-- Modelled from the spec: the default context of the `async_await` library (missing
from the sources) is a timer that is not armed. -/
def async_await_ctx_default : async_await_ctx := ⟨false, 0, false⟩

/-- Modelled from the spec: `try_elapsed` of the Timer contract, the missing
`async_await`.  The first invocation arms the timer; an invocation reports elapsed
when the duration has passed since the invocation that armed it, and keeps reporting
it until the timer is stopped; with `auto_restart` the timer is re-armed at each
elapsed report. -/
def async_await (ctx : async_await_ctx) (now duration : Nat) (unit : time_unit)
    (auto_restart : Bool) : Bool × async_await_ctx :=
  let ctx : async_await_ctx := if ctx.start_flag = false then ⟨true, now, false⟩ else ctx
  if ctx.start_time + duration_us duration unit ≤ now then
    if auto_restart = true then (true, ⟨true, now, true⟩)
    else (true, { ctx with end_flag := true })
  else (false, { ctx with end_flag := false })

/-- Modelled from the spec: `stop` of the Timer contract, the missing `end_await`:
the timer is disarmed, so the next invocation starts clean. -/
def end_await (_ctx : async_await_ctx) : async_await_ctx := ⟨false, 0, false⟩

/-- Modelled from the spec: `restart` of the Timer contract, the missing
`reboot_await`: the timer is armed anew at the current clock value. -/
def reboot_await (_ctx : async_await_ctx) (now _duration : Nat) (_unit : time_unit) :
    async_await_ctx := ⟨true, now, false⟩

/-- Modelled from the spec: the Timer contract as an instance of the interface the
classifiers are parametric in. -/
def spec_ops : await_ops async_await_ctx where
  async_await_ctx_default := async_await_ctx_default
  async_await := async_await
  end_await := end_await
  reboot_await := reboot_await
  end_flag := fun ctx => ctx.end_flag

/-! ## Polling -/

/-- One iteration of the application loop: the input registers and the clock value
(microseconds) seen by the classifier call of that iteration. -/
structure poll where
  gpio : gpio_dev_t
  now : Nat

/-- The application loop polling one flag classifier: the record and the flag are
carried from call to call. -/
def run_flag {τ : Type} (step : button_ctx τ → Bool → gpio_dev_t → Nat → flag_result τ) :
    button_ctx τ → Bool → List poll → button_ctx τ × Bool
  | button, flag, [] => (button, flag)
  | button, flag, p :: ps =>
    let r := step button flag p.gpio p.now
    run_flag step r.button r.flag ps

/-- The value of the flag after each call of the loop `run_flag`. -/
def flag_history {τ : Type} (step : button_ctx τ → Bool → gpio_dev_t → Nat → flag_result τ) :
    button_ctx τ → Bool → List poll → List Bool
  | _, _, [] => []
  | button, flag, p :: ps =>
    let r := step button flag p.gpio p.now
    r.flag :: flag_history step r.button r.flag ps

/-- The application loop polling one callback classifier. -/
def run_callback {τ : Type} (step : button_ctx τ → gpio_dev_t → Nat → callback_result τ) :
    callback_result τ → List poll → callback_result τ
  | s, [] => s
  | s, p :: ps =>
    let r := step s.button p.gpio p.now
    run_callback step ⟨r.button, s.trace ++ r.trace⟩ ps

/-- The record `button_initialization` returns for valid arguments, over the timer of
the specification (used to state concrete instances). -/
def fresh_button (PIN pull_mode type : Int) : button_ctx async_await_ctx :=
  { PIN := PIN
    pull_mode := pull_mode
    type := type
    but_pressed := false
    but_long_pressed := false
    but_snapshot := false
    one_time_block := false
    mt_permission := true
    long_time_await_end := true
    presses_counter := 0
    max_presses_quantity := 1
    onetime_press_callback := none
    multiple_press_callback := none
    long_time_press_callback := none
    long_time_press_permission := false
    infinite_press_callback := none
    infinite_press_permission := false
    DEBOUNCE_AWAIT := async_await_ctx_default
    MULTIPRESS_AWAIT := async_await_ctx_default
    LONG_TIME_PRESS_AWAIT := async_await_ctx_default }

/-- A platform that masks the count of an undefined shift to its low five bits. -/
def shift_masked (x : Nat) (n : Int) : Nat := x >>> (n % 32).toNat

/-- Registers in which every input line reads `0`: pressed for a pull-up button. -/
def gpio_low : gpio_dev_t := ⟨0, 0, shift_masked⟩

/-- Registers in which every input line reads `1`: released for a pull-up button. -/
def gpio_high : gpio_dev_t := ⟨2 ^ 32 - 1, 2 ^ 8 - 1, shift_masked⟩

/-! ## Invariants used in the proofs -/

/-- State of the onetime classifier during a press that began at clock value `t0` on
the button `b0`: the press is either confirmed, or the debounce timer is armed at
`t0`. -/
def onetime_press_inv (b0 : button_ctx async_await_ctx) (t0 : Nat)
    (b : button_ctx async_await_ctx) : Prop :=
  b.PIN = b0.PIN ∧ b.pull_mode = b0.pull_mode ∧ b.type = b0.type ∧
  b.one_time_block = false ∧
  ((b.but_pressed = true ∧ b.mt_permission = true) ∨
    (b.but_pressed = false ∧ b.DEBOUNCE_AWAIT.start_flag = true ∧
      b.DEBOUNCE_AWAIT.start_time = t0))

/-- The button record after each call of the loop `run_flag`. -/
def button_history {τ : Type}
    (step : button_ctx τ → Bool → gpio_dev_t → Nat → flag_result τ) :
    button_ctx τ → Bool → List poll → List (button_ctx τ)
  | _, _, [] => []
  | button, flag, p :: ps =>
    let r := step button flag p.gpio p.now
    r.button :: button_history step r.button r.flag ps

/-- Clock value of the first poll of a sequence in which the button `b0` reads
pressed, if there is one. -/
def first_press {τ : Type} (b0 : button_ctx τ) : List poll → Option Nat
  | [] => none
  | p :: ps => if fast_but_gpio_read b0 p.gpio ≠ 0 then some p.now else first_press b0 ps

/-- No continuous pressed interval of the poll sequence lasts `d` microseconds: every
pressed poll comes less than `d` after the first poll of its run of consecutive
pressed polls (`start` is the first poll of the run in progress, if any). -/
def no_press_lasts {τ : Type} (b0 : button_ctx τ) (d : Nat) : Option Nat → List poll → Bool
  | _, [] => true
  | start, p :: ps =>
    if fast_but_gpio_read b0 p.gpio ≠ 0 then
      decide (p.now < start.getD p.now + d) && no_press_lasts b0 d (some (start.getD p.now)) ps
    else no_press_lasts b0 d none ps

/-- State of the onetime classifier while no press is confirmed and the debounce timer
is armed at clock value `t0` on the button `b0`. -/
def onetime_armed_inv (b0 : button_ctx async_await_ctx) (t0 : Nat)
    (b : button_ctx async_await_ctx) : Prop :=
  b.PIN = b0.PIN ∧ b.pull_mode = b0.pull_mode ∧ b.type = b0.type ∧
  b.but_pressed = false ∧ b.DEBOUNCE_AWAIT.start_flag = true ∧
  b.DEBOUNCE_AWAIT.start_time = t0

/-- A pull-up button on pin 4 after two counted taps with target 3: released, count
`2`, window timer armed at clock value `58000`. -/
def two_taps_button : button_ctx async_await_ctx :=
  { fresh_button 4 GPIO_PULLUP_ONLY NO_FIX with
    presses_counter := 2
    max_presses_quantity := 3
    MULTIPRESS_AWAIT := ⟨true, 58000, false⟩ }

/-- State of the flag multiple-press classifier between presses, on the button `b0`
with target `N`: released, permission held, `c` presses counted, debounce timer not
armed. -/
def multi_idle_inv (b0 : button_ctx async_await_ctx) (N c : Nat)
    (b : button_ctx async_await_ctx) : Prop :=
  b.PIN = b0.PIN ∧ b.pull_mode = b0.pull_mode ∧ b.but_pressed = false ∧
  b.mt_permission = true ∧ b.presses_counter = c ∧ b.max_presses_quantity ≤ N ∧
  b.DEBOUNCE_AWAIT.start_flag = false

/-- State of the flag multiple-press classifier during a press that began at clock
value `t0`, with `c` presses counted before it: the press is either confirmed, or the
debounce timer is armed at `t0`. -/
def multi_press_inv (b0 : button_ctx async_await_ctx) (N c t0 : Nat)
    (b : button_ctx async_await_ctx) : Prop :=
  b.PIN = b0.PIN ∧ b.pull_mode = b0.pull_mode ∧ b.mt_permission = true ∧
  b.presses_counter = c ∧ b.max_presses_quantity ≤ N ∧
  (b.but_pressed = true ∨
    (b.but_pressed = false ∧ b.DEBOUNCE_AWAIT.start_flag = true ∧
      b.DEBOUNCE_AWAIT.start_time = t0))

/-- State of the flag multiple-press classifier after the `N`-th release at clock
value `tr`: `N` presses counted and the window timer armed at `tr`. -/
def multi_wait_inv (b0 : button_ctx async_await_ctx) (N tr : Nat)
    (b : button_ctx async_await_ctx) : Prop :=
  multi_idle_inv b0 N N b ∧ b.MULTIPRESS_AWAIT.start_flag = true ∧
  b.MULTIPRESS_AWAIT.start_time = tr

/-- The level computed by `fast_but_gpio_read`, as a function of the two fields of the
record it reads (used to carry level facts from one record to another). -/
def gpio_level (PIN pull_mode : Int) (gpio : gpio_dev_t) : Int :=
  let raw_level : Int :=
    if PIN < TOTAL_PINS then
      ((shift_right_32 gpio (gpio.in_val % 2 ^ 32) PIN) % 2 : Nat)
    else
      ((shift_right_32 gpio (gpio.in1_val % 2 ^ 32) (PIN - 32)) % 2 : Nat)
  if pull_mode = GPIO_PULLUP_ONLY then (if raw_level = 0 then 1 else 0)
  else if pull_mode = GPIO_PULLDOWN_ONLY then (if raw_level = 1 then 1 else 0)
  else raw_level

/-- One press-release cycle as seen by the polling loop: the first pressed poll, the
further pressed polls, the first released poll and the further released polls. -/
structure tap where
  first : poll
  held : List poll
  release : poll
  idle : List poll

/-- The polls of a press-release cycle, in order. -/
def tap.polls (t : tap) : List poll :=
  t.first :: (t.held ++ t.release :: t.idle)

/-- The polls of consecutive press-release cycles, in order. -/
def taps_polls : List tap → List poll
  | [] => []
  | t :: ts => t.polls ++ taps_polls ts

/-- A clean debounced press-release cycle on the button `b0`: the level reads pressed
in the first and the further pressed polls, one of which comes `3 ms` or more after
the first, and reads released in the released polls. -/
@[reducible] def clean_tap {τ : Type} (b0 : button_ctx τ) (t : tap) : Prop :=
  fast_but_gpio_read b0 t.first.gpio ≠ 0 ∧
  (∀ p ∈ t.held, fast_but_gpio_read b0 p.gpio ≠ 0) ∧
  (∃ p ∈ t.held, t.first.now + 3000 ≤ p.now) ∧
  fast_but_gpio_read b0 t.release.gpio = 0 ∧
  (∀ p ∈ t.idle, fast_but_gpio_read b0 p.gpio = 0)

/-- Polling the sequence `ps` from any state satisfying `I` never changes the flag and
ends in a state satisfying `J`. -/
def flag_kept {τ : Type} (step : button_ctx τ → Bool → gpio_dev_t → Nat → flag_result τ)
    (I J : button_ctx τ → Prop) (ps : List poll) : Prop :=
  ∀ (b : button_ctx τ) (f : Bool), I b →
    (run_flag step b f ps).2 = f ∧ J (run_flag step b f ps).1 ∧
    flag_history step b f ps = List.replicate ps.length f

/-- A clean tap on a pull-up button beginning at clock value `t` (microseconds):
pressed at `t` and `t + 3000`, released at `t + 4000` and `t + 5000`. -/
def tap_at (t : Nat) : tap :=
  ⟨⟨gpio_low, t⟩, [⟨gpio_low, t + 3000⟩], ⟨gpio_high, t + 4000⟩, [⟨gpio_high, t + 5000⟩]⟩

/-- A pull-up button on pin 4 during a debounce-confirmed hold, before the long press
has fired: hold timer armed at clock value `5000`. -/
def holding_button : button_ctx async_await_ctx :=
  { fresh_button 4 GPIO_PULLUP_ONLY NO_FIX with
    but_long_pressed := true
    mt_permission := false
    long_time_await_end := false
    LONG_TIME_PRESS_AWAIT := ⟨true, 5000, false⟩ }

/-- The application loop polling one flag classifier while other logic writes the
flag between the calls: each call sees the flag value paired with its poll, and only
the record is carried from call to call. -/
def run_flag_written {τ : Type}
    (step : button_ctx τ → Bool → gpio_dev_t → Nat → flag_result τ) :
    button_ctx τ → List (Bool × poll) → button_ctx τ
  | button, [] => button
  | button, (v, p) :: ps => run_flag_written step (step button v p.gpio p.now).button ps

/-- A pull-up button on pin 4 whose debounce timer was armed at clock value `0` by a
first pressed poll of the infinite-press classifier. -/
def debouncing_button : button_ctx async_await_ctx :=
  { fresh_button 4 GPIO_PULLUP_ONLY NO_FIX with DEBOUNCE_AWAIT := ⟨true, 0, false⟩ }

/-- Number of invocations of the callback `f` recorded in an effect trace. -/
def invocations (f : Nat) (trace : List event) : Nat :=
  trace.count (event.call f)

/-- A pull-up button on pin 4 with a debounce-confirmed press pending for the onetime
callback classifier and the callback `7` bound. -/
def confirmed_button : button_ctx async_await_ctx :=
  { fresh_button 4 GPIO_PULLUP_ONLY NO_FIX with
    but_pressed := true
    onetime_press_callback := some 7
    DEBOUNCE_AWAIT := ⟨true, 0, true⟩ }

/-! ## The stages of the inner multiple-press classifier -/

/-- First `if` statement of `flag_control_by_but_multiple_press_inside` (debounce of a
new press), as a function of the state before it and the level read. -/
def multi_stage1 {τ : Type} (ops : await_ops τ) (button : button_ctx τ) (flag : Bool)
    (but_level : Int) (now : Nat) : flag_result τ :=
  if button.but_pressed = false ∧ but_level ≠ 0 then
    let r := ops.async_await button.DEBOUNCE_AWAIT now 3 time_unit.TIME_UNIT_MS false
    let button := { button with DEBOUNCE_AWAIT := r.2 }
    if r.1 = true then
      ⟨{ button with
          mt_permission := true
          but_pressed := true
          MULTIPRESS_AWAIT :=
            ops.reboot_await button.MULTIPRESS_AWAIT now 1 time_unit.TIME_UNIT_S },
        flag,
        [event.async_await timer_id.DEBOUNCE, event.reboot_await timer_id.MULTIPRESS]⟩
    else ⟨button, flag, [event.async_await timer_id.DEBOUNCE]⟩
  else ⟨button, flag, []⟩

/-- Second `if` statement of `flag_control_by_but_multiple_press_inside` (a confirmed
press is released and counted). -/
def multi_stage2 {τ : Type} (ops : await_ops τ) (s1 : flag_result τ) (but_level : Int) :
    flag_result τ :=
  if s1.button.but_pressed = true ∧ but_level = 0 then
    ⟨{ s1.button with
        presses_counter := (s1.button.presses_counter + 1) % 2 ^ 32
        but_pressed := false
        DEBOUNCE_AWAIT := ops.end_await s1.button.DEBOUNCE_AWAIT
        MULTIPRESS_AWAIT := ops.end_await s1.button.MULTIPRESS_AWAIT
        LONG_TIME_PRESS_AWAIT := ops.end_await s1.button.LONG_TIME_PRESS_AWAIT },
      s1.flag,
      s1.trace ++ [event.end_await timer_id.DEBOUNCE,
        event.end_await timer_id.MULTIPRESS, event.end_await timer_id.LONG_TIME_PRESS]⟩
  else s1

/-- Third `if` statement of `flag_control_by_but_multiple_press_inside` (the window
timer and what happens when it reports elapsed). -/
def multi_stage3 {τ : Type} (ops : await_ops τ) (s2 : flag_result τ)
    (presses_quantity now : Nat) : flag_result τ :=
  if s2.button.presses_counter > 0 ∧ s2.button.mt_permission = true ∧
      s2.button.but_pressed = false then
    let r := ops.async_await s2.button.MULTIPRESS_AWAIT now 1 time_unit.TIME_UNIT_S true
    let a : flag_result τ :=
      ⟨{ s2.button with MULTIPRESS_AWAIT := r.2 }, s2.flag,
        s2.trace ++ [event.async_await timer_id.MULTIPRESS]⟩
    if ops.end_flag a.button.MULTIPRESS_AWAIT = true then
      let b : flag_result τ :=
        if a.button.presses_counter = presses_quantity then
          ⟨{ a.button with
              presses_counter := 0
              MULTIPRESS_AWAIT := ops.end_await a.button.MULTIPRESS_AWAIT },
            !a.flag, a.trace ++ [event.end_await timer_id.MULTIPRESS]⟩
        else a
      if b.button.presses_counter > b.button.max_presses_quantity then
        ⟨{ b.button with
            presses_counter := 0
            MULTIPRESS_AWAIT := ops.end_await b.button.MULTIPRESS_AWAIT },
          b.flag, b.trace ++ [event.end_await timer_id.MULTIPRESS]⟩
      else b
    else a
  else s2

/-- Fourth `if` statement of `flag_control_by_but_multiple_press_inside` (a sequence is
abandoned when permission is revoked and the long-press window has closed). -/
def multi_stage4 {τ : Type} (ops : await_ops τ) (s3 : flag_result τ) : flag_result τ :=
  if s3.button.mt_permission = false ∧ s3.button.long_time_await_end = true then
    ⟨{ s3.button with
        presses_counter := 0
        MULTIPRESS_AWAIT := ops.end_await s3.button.MULTIPRESS_AWAIT },
      s3.flag, s3.trace ++ [event.end_await timer_id.MULTIPRESS]⟩
  else s3

/-! ## Sequences of classifier calls -/

/-- One call of an entry point declared in `button_control.h`, or of the inner function
`flag_control_by_but_multiple_press_inside` that `button_control.c` defines with
external linkage, with its arguments; a flag classifier is called with the current
value of the flag it is given. -/
inductive classifier_call where
  | flag_onetime (flag : Bool)
  | flag_multiple (flag : Bool) (presses_quantity : Nat)
  | flag_multiple_inside (flag : Bool) (presses_quantity : Nat)
  | flag_longtime (flag : Bool)
  | flag_infinite (flag : Bool)
  | callback_onetime (repeats : Nat)
  | callback_multiple (presses_quantity repeats : Nat)
  | callback_longtime (repeats : Nat)
  | callback_infinite (repeats : Nat)
deriving DecidableEq, Repr

/-- The button record after one call of an entry point. -/
def call_classifier {τ : Type} (ops : await_ops τ) (button : button_ctx τ)
    (c : classifier_call) (gpio : gpio_dev_t) (now : Nat) : button_ctx τ :=
  match c with
  | classifier_call.flag_onetime flag =>
    (flag_control_by_but_onetime_press ops button flag gpio now).button
  | classifier_call.flag_multiple flag presses_quantity =>
    (flag_control_by_but_multiple_press ops button flag presses_quantity gpio now).button
  | classifier_call.flag_multiple_inside flag presses_quantity =>
    (flag_control_by_but_multiple_press_inside ops button flag presses_quantity gpio now).button
  | classifier_call.flag_longtime flag =>
    (flag_control_by_but_longtime_press ops button flag gpio now).button
  | classifier_call.flag_infinite flag =>
    (flag_control_by_but_infinite_press ops button flag gpio now).button
  | classifier_call.callback_onetime repeats =>
    (callback_control_by_but_onetime_press ops button repeats gpio now).button
  | classifier_call.callback_multiple presses_quantity repeats =>
    (callback_control_by_but_multiple_press ops button presses_quantity repeats gpio now).button
  | classifier_call.callback_longtime repeats =>
    (callback_control_by_but_longtime_press ops button repeats gpio now).button
  | classifier_call.callback_infinite repeats =>
    (callback_control_by_but_infinite_press ops button repeats gpio now).button

/-- The button record after each call of a sequence of entry-point calls, each made
with the registers and clock value of its poll. -/
def calls_history {τ : Type} (ops : await_ops τ) :
    button_ctx τ → List (classifier_call × poll) → List (button_ctx τ)
  | _, [] => []
  | button, (c, p) :: cs =>
    call_classifier ops button c p.gpio p.now
      :: calls_history ops (call_classifier ops button c p.gpio p.now) cs

/-- The call is one of an entry point declared in `button_control.h` other than
`callback_control_by_but_multiple_press`: neither that function nor the inner function
`flag_control_by_but_multiple_press_inside` called directly. -/
def count_bounded_call : classifier_call → Bool
  | classifier_call.callback_multiple _ _ => false
  | classifier_call.flag_multiple_inside _ _ => false
  | _ => true

/-- A pull-up button on pin 4 during a debounce-confirmed hold that the longtime
classifier is measuring (not yet fired), with a confirmed press pending for the
multiple-press classifier; the state reached by polling
`flag_control_by_but_multiple_press` (target 1) and then
`flag_control_by_but_longtime_press` in every tick: one released tick at `0`, pressed
ticks at `1000`, `4000` and `5000` microseconds. -/
def held_tap_button : button_ctx async_await_ctx :=
  { fresh_button 4 GPIO_PULLUP_ONLY NO_FIX with
    but_pressed := true
    but_long_pressed := true
    mt_permission := false
    long_time_await_end := false
    DEBOUNCE_AWAIT := ⟨true, 1000, true⟩
    MULTIPRESS_AWAIT := ⟨true, 4000, false⟩
    LONG_TIME_PRESS_AWAIT := ⟨true, 5000, false⟩ }

/-- State in which a further poll of the inner multiple-press classifier with target
`N`, level `l` and clock value `now` finds nothing to do: the target is recorded, an
unconfirmed press has its debounce timer armed and not elapsed, no press is pending on
a released level, a running count has its window timer armed and not elapsed, and an
abandoned sequence is already reset. -/
def multi_settled (N : Nat) (l : Int) (now : Nat) (x : button_ctx async_await_ctx) : Prop :=
  N ≤ x.max_presses_quantity ∧
  (l ≠ 0 → x.but_pressed = false →
    ∃ t, x.DEBOUNCE_AWAIT = ⟨true, t, false⟩ ∧ ¬ (t + 3000 ≤ now)) ∧
  (l = 0 → x.but_pressed = false) ∧
  (0 < x.presses_counter → x.mt_permission = true → x.but_pressed = false →
    ∃ t, x.MULTIPRESS_AWAIT = ⟨true, t, false⟩ ∧ ¬ (t + 1000000 ≤ now)) ∧
  (x.mt_permission = false → x.long_time_await_end = true →
    x.presses_counter = 0 ∧ x.MULTIPRESS_AWAIT = ⟨false, 0, false⟩)

/-- The application loop polling only `callback_control_by_but_multiple_press`, each
call with its own `presses_quantity`, `repeats` and poll: the result (record and
effects) of each call. -/
def callback_multiple_results {τ : Type} (ops : await_ops τ) :
    button_ctx τ → List (Nat × Nat × poll) → List (callback_result τ)
  | _, [] => []
  | button, (presses_quantity, repeats, p) :: cs =>
    callback_control_by_but_multiple_press ops button presses_quantity repeats p.gpio p.now
      :: callback_multiple_results ops
          (callback_control_by_but_multiple_press ops button presses_quantity repeats
            p.gpio p.now).button cs

/-- State of a button polled only by `callback_control_by_but_multiple_press`: a
running count goes with a confirmed press that has not been released, and the count
is at most one. -/
def callback_multiple_inv {τ : Type} (b : button_ctx τ) : Prop :=
  (0 < b.presses_counter → b.but_pressed = true) ∧ b.presses_counter ≤ 1

/-- The raw level of pin `p` as the specification words it: bit `p` of the 40-bit input
word formed by the low register `GPIO.in` (bits 0..31) and the high register
`GPIO.in1` (bits 32..39). -/
def spec_raw_level (gpio : gpio_dev_t) (p : Int) : Int :=
  (((gpio.in_val % 2 ^ 32 + 2 ^ 32 * (gpio.in1_val % 2 ^ 8)) >>> p.toNat) % 2 : Nat)

/-- The level of a button as the specification words it: the raw level of its pin,
normalised as `raw = 0` for pull-up and `raw = 1` for pull-down. -/
def spec_gpio_read (PIN pull_mode : Int) (gpio : gpio_dev_t) : Int :=
  if pull_mode = GPIO_PULLUP_ONLY then (if spec_raw_level gpio PIN = 0 then 1 else 0)
  else if pull_mode = GPIO_PULLDOWN_ONLY then (if spec_raw_level gpio PIN = 1 then 1 else 0)
  else spec_raw_level gpio PIN

/-- The result (record and effects) of each call of the application loop polling one
callback classifier. -/
def callback_results {τ : Type}
    (step : button_ctx τ → gpio_dev_t → Nat → callback_result τ) :
    button_ctx τ → List poll → List (callback_result τ)
  | _, [] => []
  | button, p :: ps =>
    step button p.gpio p.now :: callback_results step (step button p.gpio p.now).button ps

/-- State of a button on which no press has been confirmed, on the button `b0`: no
press is pending, nothing is counted, no long-press callback is latched, and the
debounce timer is not armed (`none`) or armed at clock value `t0` (`some t0`). -/
def unconfirmed_inv (b0 : button_ctx async_await_ctx) :
    Option Nat → button_ctx async_await_ctx → Prop
  | none, b =>
    b.PIN = b0.PIN ∧ b.pull_mode = b0.pull_mode ∧ b.but_pressed = false ∧
    b.presses_counter = 0 ∧ b.long_time_press_permission = false ∧
    b.DEBOUNCE_AWAIT.start_flag = false
  | some t0, b =>
    b.PIN = b0.PIN ∧ b.pull_mode = b0.pull_mode ∧ b.but_pressed = false ∧
    b.presses_counter = 0 ∧ b.long_time_press_permission = false ∧
    b.DEBOUNCE_AWAIT.start_flag = true ∧ b.DEBOUNCE_AWAIT.start_time = t0

/-- State of a button on which the flag longtime classifier has confirmed no press, on
the button `b0`: before the first pressed poll (`none`) the debounce timer is not
armed; after a first pressed poll at clock value `t0` (`some t0`) it is not armed or
armed at `t0` or later (the classifier stops it on pressed polls while
`long_time_await_end` is set). -/
def longtime_unconfirmed_inv (b0 : button_ctx async_await_ctx) :
    Option Nat → button_ctx async_await_ctx → Prop
  | none, b =>
    b.PIN = b0.PIN ∧ b.pull_mode = b0.pull_mode ∧ b.type = b0.type ∧
    b.but_long_pressed = false ∧ b.DEBOUNCE_AWAIT.start_flag = false
  | some t0, b =>
    b.PIN = b0.PIN ∧ b.pull_mode = b0.pull_mode ∧ b.type = b0.type ∧
    b.but_long_pressed = false ∧
    (b.DEBOUNCE_AWAIT.start_flag = true → t0 ≤ b.DEBOUNCE_AWAIT.start_time)

/-! # Theorems -/

/-! ## General lemmas -/

/-- The level read depends on the record only through `PIN` and `pull_mode`. -/
theorem fast_but_gpio_read_congr {τ : Type} (b b' : button_ctx τ) (gpio : gpio_dev_t)
    (h1 : b'.PIN = b.PIN) (h2 : b'.pull_mode = b.pull_mode) :
    fast_but_gpio_read b' gpio = fast_but_gpio_read b gpio := by
  simp [fast_but_gpio_read, h1, h2]

/-- The level read is `gpio_level` of the fields `PIN` and `pull_mode`. -/
theorem fast_but_gpio_read_eq {τ : Type} (b : button_ctx τ) (gpio : gpio_dev_t) :
    fast_but_gpio_read b gpio = gpio_level b.PIN b.pull_mode gpio := rfl

/-- Polling a concatenation: the second part starts from the state the first part
leaves. -/
theorem run_flag_append {τ : Type}
    (step : button_ctx τ → Bool → gpio_dev_t → Nat → flag_result τ)
    (b : button_ctx τ) (f : Bool) (xs ys : List poll) :
    run_flag step b f (xs ++ ys)
      = run_flag step (run_flag step b f xs).1 (run_flag step b f xs).2 ys := by
  induction xs generalizing b f with
  | nil => rfl
  | cons p ps ih => simp [run_flag, ih]

/-- The flag history of a concatenation. -/
theorem flag_history_append {τ : Type}
    (step : button_ctx τ → Bool → gpio_dev_t → Nat → flag_result τ)
    (b : button_ctx τ) (f : Bool) (xs ys : List poll) :
    flag_history step b f (xs ++ ys)
      = flag_history step b f xs
        ++ flag_history step (run_flag step b f xs).1 (run_flag step b f xs).2 ys := by
  induction xs generalizing b f with
  | nil => rfl
  | cons p ps ih => simp [run_flag, flag_history, ih]

/-- A fresh button is the record of `fresh_button`, with valid pin and type. -/
theorem button_initialization_spec_ops (PIN pull_mode type : Int)
    (b0 : button_ctx async_await_ctx)
    (h : button_initialization spec_ops PIN pull_mode type = some b0) :
    b0 = fresh_button PIN pull_mode type ∧ 0 ≤ PIN ∧ PIN ≤ TOTAL_PINS := by
  unfold button_initialization at h
  split_ifs at h with h1 h2 h3
  simp only [Option.some.injEq] at h
  push_neg at h1
  exact ⟨h.symm, h1.1, h1.2⟩

/-! ## Claim C1: unconnected pin -/

/-- Claim C1: when `PIN` is the unconnected sentinel `GPIO_NUM_NC`, every classifier
entry point (flag and callback variants of onetime, multiple, longtime, infinite, the
multiple-press wrapper and its inner function) returns the button record and the flag
unchanged with an empty effect trace: no callback is invoked and no timer operation
is performed, for every timer implementation, input level, clock value and
`presses_quantity` / `repeats` argument. -/
theorem C1_unconnected_pin_noop {τ : Type} (ops : await_ops τ) (button : button_ctx τ)
    (flag : Bool) (gpio : gpio_dev_t) (now presses_quantity repeats : Nat)
    (hpin : button.PIN = GPIO_NUM_NC) :
    flag_control_by_but_onetime_press ops button flag gpio now = ⟨button, flag, []⟩ ∧
    flag_control_by_but_multiple_press_inside ops button flag presses_quantity gpio now
      = ⟨button, flag, []⟩ ∧
    flag_control_by_but_multiple_press ops button flag presses_quantity gpio now
      = ⟨button, flag, []⟩ ∧
    flag_control_by_but_longtime_press ops button flag gpio now = ⟨button, flag, []⟩ ∧
    flag_control_by_but_infinite_press ops button flag gpio now = ⟨button, flag, []⟩ ∧
    callback_control_by_but_onetime_press ops button repeats gpio now = ⟨button, []⟩ ∧
    callback_control_by_but_multiple_press ops button presses_quantity repeats gpio now
      = ⟨button, []⟩ ∧
    callback_control_by_but_longtime_press ops button repeats gpio now = ⟨button, []⟩ ∧
    callback_control_by_but_infinite_press ops button repeats gpio now = ⟨button, []⟩ := by
  refine ⟨?_, ?_, ?_, ?_, ?_, ?_, ?_, ?_, ?_⟩
  · simp [flag_control_by_but_onetime_press, hpin]
  · simp [flag_control_by_but_multiple_press_inside, hpin]
  · simp [flag_control_by_but_multiple_press, hpin]
  · simp [flag_control_by_but_longtime_press, hpin]
  · simp [flag_control_by_but_infinite_press, hpin]
  · simp [callback_control_by_but_onetime_press, hpin]
  · simp [callback_control_by_but_multiple_press, hpin]
  · simp [callback_control_by_but_longtime_press, hpin]
  · simp [callback_control_by_but_infinite_press, hpin]

/-- Instance of claim C1 on a concrete unconnected button over the timer of the
specification. -/
theorem C1_unconnected_pin_noop_witness :
    flag_control_by_but_onetime_press spec_ops (fresh_button GPIO_NUM_NC GPIO_PULLUP_ONLY NO_FIX)
        true gpio_low 5000 = ⟨fresh_button GPIO_NUM_NC GPIO_PULLUP_ONLY NO_FIX, true, []⟩ ∧
    callback_control_by_but_infinite_press spec_ops
        (fresh_button GPIO_NUM_NC GPIO_PULLUP_ONLY NO_FIX) 2 gpio_low 5000
      = ⟨fresh_button GPIO_NUM_NC GPIO_PULLUP_ONLY NO_FIX, []⟩ :=
  have h := C1_unconnected_pin_noop spec_ops
    (fresh_button GPIO_NUM_NC GPIO_PULLUP_ONLY NO_FIX) true gpio_low 5000 3 2 rfl
  ⟨h.1, h.2.2.2.2.2.2.2.2⟩

/-! ## Claim C2: latching button -/

/-- Claim C2 fails on the code: only `flag_control_by_but_onetime_press` and
`flag_control_by_but_longtime_press` test `type == FIX`.  On a freshly initialised
latching (`FIX`) pull-up button on pin 4, over the timer of the specification:
one debounced tap polled through `flag_control_by_but_multiple_press` with target 1
toggles the flag at window elapse; one debounced tap polled through
`callback_control_by_but_onetime_press` with `repeats = 2` invokes the bound callback
twice; a debounced press polled through `callback_control_by_but_multiple_press`
counts a press; and a debounced press polled through
`callback_control_by_but_longtime_press` sets `but_pressed`. -/
theorem C2_latching_button_is_classified :
    (run_flag (fun b f => flag_control_by_but_multiple_press spec_ops b f 1)
        (fresh_button 4 GPIO_PULLUP_ONLY FIX) false
        [⟨gpio_low, 0⟩, ⟨gpio_low, 3000⟩, ⟨gpio_high, 4000⟩, ⟨gpio_high, 1004000⟩]).2
      = true ∧
    (run_callback (fun b => callback_control_by_but_onetime_press spec_ops b 2)
        ⟨{ fresh_button 4 GPIO_PULLUP_ONLY FIX with onetime_press_callback := some 7 }, []⟩
        [⟨gpio_low, 0⟩, ⟨gpio_low, 3000⟩, ⟨gpio_high, 4000⟩]).trace
      = [event.async_await timer_id.DEBOUNCE, event.async_await timer_id.DEBOUNCE,
          event.call 7, event.call 7, event.end_await timer_id.DEBOUNCE] ∧
    (run_callback (fun b => callback_control_by_but_multiple_press spec_ops b 1 2)
        ⟨fresh_button 4 GPIO_PULLUP_ONLY FIX, []⟩
        [⟨gpio_low, 0⟩, ⟨gpio_low, 3000⟩]).button.presses_counter = 1 ∧
    (run_callback (fun b => callback_control_by_but_longtime_press spec_ops b 2)
        ⟨fresh_button 4 GPIO_PULLUP_ONLY FIX, []⟩
        [⟨gpio_low, 0⟩, ⟨gpio_low, 3000⟩]).button.but_pressed = true := by
  decide

/-! ## Claim C3: presses_quantity = 0 -/

/-- Claim C3: with `presses_quantity = 0` the calls
`flag_control_by_but_multiple_press`, `flag_control_by_but_multiple_press_inside` and
`callback_control_by_but_multiple_press` return the button record (so also
`presses_counter` and `max_presses_quantity`) and the flag unchanged, with an empty
effect trace (no callback invoked), for every button state, flag, level, clock value
and timer implementation. -/
theorem C3_zero_presses_quantity_noop {τ : Type} (ops : await_ops τ)
    (button : button_ctx τ) (flag : Bool) (gpio : gpio_dev_t) (now repeats : Nat) :
    flag_control_by_but_multiple_press ops button flag 0 gpio now = ⟨button, flag, []⟩ ∧
    flag_control_by_but_multiple_press_inside ops button flag 0 gpio now
      = ⟨button, flag, []⟩ ∧
    callback_control_by_but_multiple_press ops button 0 repeats gpio now = ⟨button, []⟩ := by
  refine ⟨?_, ?_, ?_⟩
  · simp [flag_control_by_but_multiple_press]
  · simp [flag_control_by_but_multiple_press_inside]
  · simp [callback_control_by_but_multiple_press]

/-! ## Claim C4: guard wrapper -/

/-- Claim C4: for `N ≥ 1`, `flag_control_by_but_multiple_press(button, flag, N)` equals
`flag_control_by_but_multiple_press_inside(button, flag, N)` when
(`N = 1` and `presses_counter ≤ 1`) or `presses_counter = N`, and in every other case
returns the button record and the flag unchanged (with no effect). -/
theorem C4_guard_wrapper {τ : Type} (ops : await_ops τ) (button : button_ctx τ)
    (flag : Bool) (N : Nat) (gpio : gpio_dev_t) (now : Nat) (hN : 1 ≤ N) :
    (((N = 1 ∧ button.presses_counter ≤ 1) ∨ button.presses_counter = N) →
      flag_control_by_but_multiple_press ops button flag N gpio now
        = flag_control_by_but_multiple_press_inside ops button flag N gpio now) ∧
    (¬ ((N = 1 ∧ button.presses_counter ≤ 1) ∨ button.presses_counter = N) →
      flag_control_by_but_multiple_press ops button flag N gpio now
        = ⟨button, flag, []⟩) := by
  have hN0 : ¬ N < 1 := by omega
  constructor
  · intro h
    by_cases hpin : button.PIN = GPIO_NUM_NC
    · simp [flag_control_by_but_multiple_press, flag_control_by_but_multiple_press_inside,
        hpin, hN0]
    · rcases h with ⟨h1, h2⟩ | h
      · simp [flag_control_by_but_multiple_press, hpin, hN0, h1, h2]
      · simp [flag_control_by_but_multiple_press, hpin, hN0, h]
  · intro h
    push_neg at h
    obtain ⟨h1, h2⟩ := h
    by_cases hpin : button.PIN = GPIO_NUM_NC
    · simp [flag_control_by_but_multiple_press, hpin]
    · have h1' : ¬ (N = 1 ∧ button.presses_counter ≤ 1) := fun h => by
        have := h1 h.1
        omega
      simp [flag_control_by_but_multiple_press, hpin, hN0, h1', h2]

/-- Instance of claim C4: a fresh button (count 0) polled with target 3 is left
unchanged by the wrapper. -/
theorem C4_guard_wrapper_witness :
    flag_control_by_but_multiple_press spec_ops (fresh_button 4 GPIO_PULLUP_ONLY NO_FIX)
        false 3 gpio_low 0
      = ⟨fresh_button 4 GPIO_PULLUP_ONLY NO_FIX, false, []⟩ :=
  (C4_guard_wrapper spec_ops (fresh_button 4 GPIO_PULLUP_ONLY NO_FIX) false 3 gpio_low 0
    (by decide)).2 (by decide)

/-! ## Claim C5: construction -/

/-- Claim C5: `button_initialization(PIN, pull_mode, type)` aborts if and only if
`PIN` is outside `0..TOTAL_PINS`, or `pull_mode` is not one of the four pull modes, or
`type` is not `NO_FIX` / `FIX`; a returned record carries exactly the given `PIN`,
`pull_mode` and `type`, with `but_pressed = false`, `but_long_pressed = false`,
`presses_counter = 0`, `max_presses_quantity = 1` and the four callbacks unbound. -/
theorem C5_button_initialization {τ : Type} (ops : await_ops τ) (PIN pull_mode type : Int) :
    (button_initialization ops PIN pull_mode type = none ↔
      (PIN < 0 ∨ TOTAL_PINS < PIN) ∨
      ¬ (pull_mode = GPIO_PULLUP_ONLY ∨ pull_mode = GPIO_PULLDOWN_ONLY ∨
          pull_mode = GPIO_PULLUP_PULLDOWN ∨ pull_mode = GPIO_FLOATING) ∨
      ¬ (type = NO_FIX ∨ type = FIX)) ∧
    (∀ b, button_initialization ops PIN pull_mode type = some b →
      b.PIN = PIN ∧ b.pull_mode = pull_mode ∧ b.type = type ∧
      b.but_pressed = false ∧ b.but_long_pressed = false ∧
      b.presses_counter = 0 ∧ b.max_presses_quantity = 1 ∧
      b.onetime_press_callback = none ∧ b.multiple_press_callback = none ∧
      b.long_time_press_callback = none ∧ b.infinite_press_callback = none) := by
  unfold button_initialization
  constructor
  · split_ifs with h1 h2 h3
    · simp only [true_iff]; exact Or.inl h1
    · simp only [true_iff]; right; left; tauto
    · simp only [true_iff]; right; right; tauto
    · simp only [reduceCtorEq, false_iff]
      intro h
      rcases h with h | h | h
      · exact h1 h
      · apply h; by_contra hc; apply h2; tauto
      · apply h; by_contra hc; apply h3; tauto
  · intro b hb
    split_ifs at hb with h1 h2 h3
    simp only [Option.some.injEq] at hb
    subst hb
    simp

/-! ## Claim C6: onetime idempotence -/

/-- A released poll of the onetime classifier on a button that is not pressed changes
nothing. -/
theorem onetime_released_idle {τ : Type} (ops : await_ops τ) (b : button_ctx τ)
    (f : Bool) (gpio : gpio_dev_t) (now : Nat)
    (hl : fast_but_gpio_read b gpio = 0) (hp : b.but_pressed = false) :
    flag_control_by_but_onetime_press ops b f gpio now = ⟨b, f, []⟩ := by
  simp [flag_control_by_but_onetime_press, hl, hp]

/-- Released polls of the onetime classifier on a button that is not pressed leave
record and flag as they are. -/
theorem onetime_released_idle_run {τ : Type} (ops : await_ops τ) (b : button_ctx τ)
    (f : Bool) (ps : List poll)
    (hl : ∀ p ∈ ps, fast_but_gpio_read b p.gpio = 0) (hp : b.but_pressed = false) :
    run_flag (flag_control_by_but_onetime_press ops) b f ps = (b, f) ∧
    flag_history (flag_control_by_but_onetime_press ops) b f ps
      = List.replicate ps.length f := by
  induction ps with
  | nil => exact ⟨rfl, rfl⟩
  | cons p ps ih =>
    have h0 := onetime_released_idle ops b f p.gpio p.now (hl p (by simp)) hp
    have ih' := ih (fun q hq => hl q (by simp [hq]))
    simp [run_flag, flag_history, h0, ih', List.replicate_succ]

/-- One pressed poll of the onetime classifier during a press: the flag is kept, and
the press is confirmed once `3 ms` have passed since the timer was armed. -/
theorem onetime_pressed_step (b0 b : button_ctx async_await_ctx) (f : Bool)
    (gpio : gpio_dev_t) (now t0 : Nat)
    (hnc : b0.PIN ≠ GPIO_NUM_NC) (hfix : b0.type ≠ FIX)
    (hinv : onetime_press_inv b0 t0 b) (hl : fast_but_gpio_read b0 gpio ≠ 0) :
    (flag_control_by_but_onetime_press spec_ops b f gpio now).flag = f ∧
    onetime_press_inv b0 t0 (flag_control_by_but_onetime_press spec_ops b f gpio now).button ∧
    ((b.but_pressed = true ∨ t0 + 3000 ≤ now) →
      (flag_control_by_but_onetime_press spec_ops b f gpio now).button.but_pressed = true) := by
  obtain ⟨h1, h2, h3, h4, h5⟩ := hinv
  have hl' : fast_but_gpio_read b gpio ≠ 0 := by
    rw [fast_but_gpio_read_congr b0 b gpio h1 h2]; exact hl
  have hnc' : b.PIN ≠ GPIO_NUM_NC := by rw [h1]; exact hnc
  have hfix' : b.type ≠ FIX := by rw [h3]; exact hfix
  rcases h5 with ⟨hp, hm⟩ | ⟨hp, ha, hs⟩
  · have e : flag_control_by_but_onetime_press spec_ops b f gpio now = ⟨b, f, []⟩ := by
      simp [flag_control_by_but_onetime_press, hnc', hfix', hl', hp]
    rw [e]
    exact ⟨rfl, ⟨h1, h2, h3, h4, Or.inl ⟨hp, hm⟩⟩, fun _ => hp⟩
  · by_cases ht : t0 + 3000 ≤ now
    · simp [flag_control_by_but_onetime_press, hnc, hfix, hl', hp, spec_ops, async_await,
        duration_us, ha, hs, ht, onetime_press_inv, h1, h2, h3]
    · simp [flag_control_by_but_onetime_press, hnc, hfix, hl', hp, spec_ops, async_await,
        duration_us, ha, hs, ht, onetime_press_inv, h1, h2, h3]

/-- Pressed polls of the onetime classifier during a press keep the flag, and leave
the press confirmed if one of them comes `3 ms` or more after the timer was armed. -/
theorem onetime_pressed_run (b0 : button_ctx async_await_ctx) (t0 : Nat)
    (hnc : b0.PIN ≠ GPIO_NUM_NC) (hfix : b0.type ≠ FIX) (ps : List poll)
    (hl : ∀ p ∈ ps, fast_but_gpio_read b0 p.gpio ≠ 0) :
    ∀ (b : button_ctx async_await_ctx) (f : Bool), onetime_press_inv b0 t0 b →
      (run_flag (flag_control_by_but_onetime_press spec_ops) b f ps).2 = f ∧
      onetime_press_inv b0 t0 (run_flag (flag_control_by_but_onetime_press spec_ops) b f ps).1 ∧
      flag_history (flag_control_by_but_onetime_press spec_ops) b f ps
        = List.replicate ps.length f ∧
      ((b.but_pressed = true ∨ ∃ p ∈ ps, t0 + 3000 ≤ p.now) →
        (run_flag (flag_control_by_but_onetime_press spec_ops) b f ps).1.but_pressed = true) := by
  induction ps with
  | nil =>
    intro b f hinv
    refine ⟨rfl, hinv, rfl, ?_⟩
    intro h
    rcases h with h | ⟨p, hp, _⟩
    · exact h
    · simp at hp
  | cons p ps ih =>
    intro b f hinv
    obtain ⟨s1, s2, s3⟩ :=
      onetime_pressed_step b0 b f p.gpio p.now t0 hnc hfix hinv (hl p (by simp))
    obtain ⟨r1, r2, r3, r4⟩ := ih (fun q hq => hl q (by simp [hq])) _ f s2
    simp only [run_flag, flag_history, s1, List.length_cons, List.replicate_succ]
    refine ⟨r1, r2, by rw [r3], ?_⟩
    intro h
    apply r4
    rcases h with h | ⟨q, hq, hq'⟩
    · exact Or.inl (s3 (Or.inl h))
    · rcases List.mem_cons.mp hq with rfl | hq
      · exact Or.inl (s3 (Or.inr hq'))
      · exact Or.inr ⟨q, hq, hq'⟩

/-- The first pressed poll of the onetime classifier on an idle button whose debounce
timer is not armed arms the timer at the clock value of that poll. -/
theorem onetime_first_pressed (b : button_ctx async_await_ctx) (f : Bool)
    (gpio : gpio_dev_t) (now : Nat)
    (hnc : b.PIN ≠ GPIO_NUM_NC) (hfix : b.type ≠ FIX)
    (hp : b.but_pressed = false) (ha : b.DEBOUNCE_AWAIT.start_flag = false)
    (hl : fast_but_gpio_read b gpio ≠ 0) :
    (flag_control_by_but_onetime_press spec_ops b f gpio now).flag = f ∧
    onetime_press_inv b now (flag_control_by_but_onetime_press spec_ops b f gpio now).button := by
  simp [flag_control_by_but_onetime_press, hnc, hfix, hl, hp, spec_ops, async_await,
    duration_us, ha, onetime_press_inv]

/-- The released poll after a confirmed press toggles the flag and returns the
onetime classifier to idle. -/
theorem onetime_release_fires (b0 b : button_ctx async_await_ctx) (f : Bool)
    (gpio : gpio_dev_t) (now t0 : Nat)
    (hnc : b0.PIN ≠ GPIO_NUM_NC) (hfix : b0.type ≠ FIX)
    (hinv : onetime_press_inv b0 t0 b) (hp : b.but_pressed = true)
    (hl : fast_but_gpio_read b0 gpio = 0) :
    (flag_control_by_but_onetime_press spec_ops b f gpio now).flag = (!f) ∧
    (flag_control_by_but_onetime_press spec_ops b f gpio now).button.but_pressed = false ∧
    (flag_control_by_but_onetime_press spec_ops b f gpio now).button.PIN = b0.PIN ∧
    (flag_control_by_but_onetime_press spec_ops b f gpio now).button.pull_mode
      = b0.pull_mode := by
  obtain ⟨h1, h2, h3, h4, h5⟩ := hinv
  have hl' : fast_but_gpio_read b gpio = 0 := by
    rw [fast_but_gpio_read_congr b0 b gpio h1 h2]; exact hl
  have hm : b.mt_permission = true := by
    rcases h5 with ⟨_, hm⟩ | ⟨hp', _⟩
    · exact hm
    · rw [hp] at hp'; cases hp'
  simp [flag_control_by_but_onetime_press, hnc, hfix, hl', hp, hm, h4, h1, h2, h3]

/-- Claim C6: polling only `flag_control_by_but_onetime_press` on a freshly initialised
`NO_FIX` button over the timer of the specification, with released polls, then pressed
polls of which one comes at least `3 ms` after the first (so the debounce timer
reports elapsed during the press), then released polls: the flag keeps its initial
value up to and including the last pressed poll, is negated by the first released
poll after the press, and keeps the negated value in all further released polls. -/
theorem C6_onetime_idempotence (PIN pull_mode : Int) (b0 : button_ctx async_await_ctx)
    (f0 : Bool) (rel : List poll) (p0 : poll) (prs : List poll) (r0 : poll)
    (rel' : List poll)
    (hinit : button_initialization spec_ops PIN pull_mode NO_FIX = some b0)
    (hrel : ∀ p ∈ rel, fast_but_gpio_read b0 p.gpio = 0)
    (hp0 : fast_but_gpio_read b0 p0.gpio ≠ 0)
    (hprs : ∀ p ∈ prs, fast_but_gpio_read b0 p.gpio ≠ 0)
    (hlong : ∃ p ∈ prs, p0.now + 3000 ≤ p.now)
    (hr0 : fast_but_gpio_read b0 r0.gpio = 0)
    (hrel' : ∀ p ∈ rel', fast_but_gpio_read b0 p.gpio = 0) :
    flag_history (flag_control_by_but_onetime_press spec_ops) b0 f0
        (rel ++ (p0 :: prs) ++ (r0 :: rel'))
      = List.replicate (rel.length + (1 + prs.length)) f0
        ++ List.replicate (1 + rel'.length) (!f0) ∧
    (run_flag (flag_control_by_but_onetime_press spec_ops) b0 f0
        (rel ++ (p0 :: prs) ++ (r0 :: rel'))).2 = (!f0) := by
  obtain ⟨hb0, hpin0, _⟩ := button_initialization_spec_ops PIN pull_mode NO_FIX b0 hinit
  have hnc : b0.PIN ≠ GPIO_NUM_NC := by
    rw [hb0]; simp only [fresh_button, GPIO_NUM_NC]; omega
  have hfix : b0.type ≠ FIX := by
    rw [hb0]; simp [fresh_button, NO_FIX, FIX]
  have hbp : b0.but_pressed = false := by rw [hb0]; rfl
  have hda : b0.DEBOUNCE_AWAIT.start_flag = false := by rw [hb0]; rfl
  -- released polls before the press
  obtain ⟨a1, a2⟩ := onetime_released_idle_run spec_ops b0 f0 rel hrel hbp
  -- first pressed poll
  obtain ⟨c1, c2⟩ := onetime_first_pressed b0 f0 p0.gpio p0.now hnc hfix hbp hda hp0
  -- further pressed polls
  obtain ⟨d1, d2, d3, d4⟩ := onetime_pressed_run b0 p0.now hnc hfix prs hprs _ f0 c2
  have d5 := d4 (Or.inr hlong)
  -- the press as a whole
  have e1 : run_flag (flag_control_by_but_onetime_press spec_ops) b0 f0 (rel ++ (p0 :: prs))
      = run_flag (flag_control_by_but_onetime_press spec_ops)
          (flag_control_by_but_onetime_press spec_ops b0 f0 p0.gpio p0.now).button f0 prs := by
    rw [run_flag_append, a1]; simp only [run_flag, c1]
  have e2 : flag_history (flag_control_by_but_onetime_press spec_ops) b0 f0 (rel ++ (p0 :: prs))
      = List.replicate (rel.length + (1 + prs.length)) f0 := by
    rw [flag_history_append, a1, a2]
    simp only [flag_history, c1, d3]
    rw [List.replicate_add, Nat.add_comm 1, List.replicate_succ]
  -- first released poll after the press
  obtain ⟨g1, g2, g3, g4⟩ := onetime_release_fires b0 _ f0 r0.gpio r0.now p0.now hnc hfix d2 d5 hr0
  -- further released polls
  have hrel'' : ∀ p ∈ rel', fast_but_gpio_read
      (flag_control_by_but_onetime_press spec_ops
        (run_flag (flag_control_by_but_onetime_press spec_ops)
          (flag_control_by_but_onetime_press spec_ops b0 f0 p0.gpio p0.now).button f0 prs).1
        f0 r0.gpio r0.now).button p.gpio = 0 := by
    intro p hp
    rw [fast_but_gpio_read_congr b0 _ p.gpio g3 g4]
    exact hrel' p hp
  obtain ⟨k1, k2⟩ := onetime_released_idle_run spec_ops _ (!f0) rel' hrel'' g2
  constructor
  · rw [flag_history_append, e2, e1]
    simp only [flag_history, d1, g1, k2]
    rw [Nat.add_comm 1 rel'.length, List.replicate_succ]
  · rw [run_flag_append, e1]
    simp only [run_flag, d1, g1, k1]

/-- Instance of claim C6: a pull-up button on pin 4, polled released at `0`, pressed
at `1000`, `2000`, `4000` microseconds, then released at `5000` and `6000`. -/
theorem C6_onetime_idempotence_witness :
    flag_history (flag_control_by_but_onetime_press spec_ops)
        (fresh_button 4 GPIO_PULLUP_ONLY NO_FIX) false
        ([⟨gpio_high, 0⟩] ++ (⟨gpio_low, 1000⟩ :: [⟨gpio_low, 2000⟩, ⟨gpio_low, 4000⟩])
          ++ (⟨gpio_high, 5000⟩ :: [⟨gpio_high, 6000⟩]))
      = List.replicate ([(⟨gpio_high, 0⟩ : poll)].length
          + (1 + [(⟨gpio_low, 2000⟩ : poll), ⟨gpio_low, 4000⟩].length)) false
        ++ List.replicate (1 + [(⟨gpio_high, 6000⟩ : poll)].length) (!false) ∧
    (run_flag (flag_control_by_but_onetime_press spec_ops)
        (fresh_button 4 GPIO_PULLUP_ONLY NO_FIX) false
        ([⟨gpio_high, 0⟩] ++ (⟨gpio_low, 1000⟩ :: [⟨gpio_low, 2000⟩, ⟨gpio_low, 4000⟩])
          ++ (⟨gpio_high, 5000⟩ :: [⟨gpio_high, 6000⟩]))).2 = (!false) :=
  C6_onetime_idempotence 4 GPIO_PULLUP_ONLY (fresh_button 4 GPIO_PULLUP_ONLY NO_FIX) false
    [⟨gpio_high, 0⟩] ⟨gpio_low, 1000⟩ [⟨gpio_low, 2000⟩, ⟨gpio_low, 4000⟩]
    ⟨gpio_high, 5000⟩ [⟨gpio_high, 6000⟩]
    (by decide) (by decide) (by decide) (by decide) (by decide) (by decide) (by decide)

/-! ## Claim C7: debounce -/

/-- Claim C7 fails on the code: a release before confirmation does not stop the
debounce timer.  A pull-up button on pin 4 is polled pressed at `0`, released at
`1000` and `2000`, pressed at `10000` and released at `11000` microseconds.  No
continuous pressed interval lasts `3 ms`, yet the pressed poll at `10000` sets
`but_pressed` (the timer armed at `0` reports elapsed) and the next released poll
toggles the flag. -/
theorem C7_bounce_is_confirmed :
    no_press_lasts (fresh_button 4 GPIO_PULLUP_ONLY NO_FIX) 3000 none
        [⟨gpio_low, 0⟩, ⟨gpio_high, 1000⟩, ⟨gpio_high, 2000⟩, ⟨gpio_low, 10000⟩,
          ⟨gpio_high, 11000⟩] = true ∧
    button_initialization spec_ops 4 GPIO_PULLUP_ONLY NO_FIX
      = some (fresh_button 4 GPIO_PULLUP_ONLY NO_FIX) ∧
    (run_flag (flag_control_by_but_onetime_press spec_ops)
        (fresh_button 4 GPIO_PULLUP_ONLY NO_FIX) false
        [⟨gpio_low, 0⟩, ⟨gpio_high, 1000⟩, ⟨gpio_high, 2000⟩,
          ⟨gpio_low, 10000⟩]).1.but_pressed = true ∧
    flag_history (flag_control_by_but_onetime_press spec_ops)
        (fresh_button 4 GPIO_PULLUP_ONLY NO_FIX) false
        [⟨gpio_low, 0⟩, ⟨gpio_high, 1000⟩, ⟨gpio_high, 2000⟩, ⟨gpio_low, 10000⟩,
          ⟨gpio_high, 11000⟩] = [false, false, false, false, true] := by
  decide

/-- The first pressed poll of the onetime classifier on an idle button whose debounce
timer is not armed arms the timer and confirms nothing. -/
theorem onetime_first_pressed_armed (b : button_ctx async_await_ctx) (f : Bool)
    (gpio : gpio_dev_t) (now : Nat)
    (hnc : b.PIN ≠ GPIO_NUM_NC) (hfix : b.type ≠ FIX)
    (hp : b.but_pressed = false) (ha : b.DEBOUNCE_AWAIT.start_flag = false)
    (hl : fast_but_gpio_read b gpio ≠ 0) :
    (flag_control_by_but_onetime_press spec_ops b f gpio now).flag = f ∧
    onetime_armed_inv b now (flag_control_by_but_onetime_press spec_ops b f gpio now).button := by
  simp [flag_control_by_but_onetime_press, hnc, hfix, hl, hp, spec_ops, async_await,
    duration_us, ha, onetime_armed_inv]

/-- A poll of the onetime classifier while the debounce timer is armed at `t0` and no
press is confirmed: if the poll is released, or pressed less than `3 ms` after `t0`,
no press is confirmed and the flag is kept. -/
theorem onetime_armed_step (b0 b : button_ctx async_await_ctx) (f : Bool)
    (gpio : gpio_dev_t) (now t0 : Nat)
    (hnc : b0.PIN ≠ GPIO_NUM_NC) (hfix : b0.type ≠ FIX)
    (hinv : onetime_armed_inv b0 t0 b)
    (hshort : fast_but_gpio_read b0 gpio ≠ 0 → now < t0 + 3000) :
    (flag_control_by_but_onetime_press spec_ops b f gpio now).flag = f ∧
    onetime_armed_inv b0 t0 (flag_control_by_but_onetime_press spec_ops b f gpio now).button := by
  have hinv' := hinv
  obtain ⟨h1, h2, h3, hp, ha, hs⟩ := hinv
  have hlb : fast_but_gpio_read b gpio = fast_but_gpio_read b0 gpio :=
    fast_but_gpio_read_congr b0 b gpio h1 h2
  by_cases hl : fast_but_gpio_read b0 gpio = 0
  · rw [onetime_released_idle spec_ops b f gpio now (by rw [hlb]; exact hl) hp]
    exact ⟨rfl, hinv'⟩
  · have ht : ¬ (t0 + 3000 ≤ now) := by have := hshort hl; omega
    have hl' : fast_but_gpio_read b gpio ≠ 0 := by rw [hlb]; exact hl
    simp [flag_control_by_but_onetime_press, hnc, hfix, hl', hp, spec_ops, async_await,
      duration_us, ha, hs, ht, onetime_armed_inv, h1, h2, h3]

/-- Polls of the onetime classifier while the debounce timer is armed at `t0`: as long
as every pressed poll comes less than `3 ms` after `t0`, no press is confirmed and
the flag is kept. -/
theorem onetime_armed_run (b0 : button_ctx async_await_ctx) (t0 : Nat)
    (hnc : b0.PIN ≠ GPIO_NUM_NC) (hfix : b0.type ≠ FIX) (ps : List poll)
    (hshort : ∀ p ∈ ps, fast_but_gpio_read b0 p.gpio ≠ 0 → p.now < t0 + 3000) :
    ∀ (b : button_ctx async_await_ctx) (f : Bool), onetime_armed_inv b0 t0 b →
      (∀ b' ∈ button_history (flag_control_by_but_onetime_press spec_ops) b f ps,
        b'.but_pressed = false) ∧
      flag_history (flag_control_by_but_onetime_press spec_ops) b f ps
        = List.replicate ps.length f := by
  induction ps with
  | nil =>
    intro b f _
    exact ⟨by simp [button_history], rfl⟩
  | cons p ps ih =>
    intro b f hinv
    obtain ⟨s1, s2⟩ :=
      onetime_armed_step b0 b f p.gpio p.now t0 hnc hfix hinv (hshort p (by simp))
    obtain ⟨r1, r2⟩ := ih (fun q hq => hshort q (by simp [hq])) _ f s2
    simp only [button_history, flag_history, s1, List.length_cons, List.replicate_succ,
      List.mem_cons]
    refine ⟨?_, by rw [r2]⟩
    intro b' hb'
    rcases hb' with rfl | hb'
    · exact s2.2.2.2.1
    · exact r1 b' hb'

/-- The debounce window for the flag onetime classifier: polling
`flag_control_by_but_onetime_press` on a freshly initialised `NO_FIX` button over the
timer of the specification, for every poll sequence in which every pressed poll comes
less than `3 ms` after the first pressed poll of the sequence (the poll that arms the
debounce timer, which a release does not stop), `but_pressed` is never set and the
flag is never toggled. -/
theorem onetime_debounce_window (PIN pull_mode : Int) (b0 : button_ctx async_await_ctx)
    (f0 : Bool) (ps : List poll)
    (hinit : button_initialization spec_ops PIN pull_mode NO_FIX = some b0)
    (hshort : ∀ t0, first_press b0 ps = some t0 →
      ∀ p ∈ ps, fast_but_gpio_read b0 p.gpio ≠ 0 → p.now < t0 + 3000) :
    (∀ b ∈ button_history (flag_control_by_but_onetime_press spec_ops) b0 f0 ps,
      b.but_pressed = false) ∧
    flag_history (flag_control_by_but_onetime_press spec_ops) b0 f0 ps
      = List.replicate ps.length f0 := by
  obtain ⟨hb0, hpin0, _⟩ := button_initialization_spec_ops PIN pull_mode NO_FIX b0 hinit
  have hnc : b0.PIN ≠ GPIO_NUM_NC := by
    rw [hb0]; simp only [fresh_button, GPIO_NUM_NC]; omega
  have hfix : b0.type ≠ FIX := by
    rw [hb0]; simp [fresh_button, NO_FIX, FIX]
  have hbp : b0.but_pressed = false := by rw [hb0]; rfl
  have hda : b0.DEBOUNCE_AWAIT.start_flag = false := by rw [hb0]; rfl
  clear hinit hb0 hpin0
  induction ps with
  | nil => exact ⟨by simp [button_history], rfl⟩
  | cons p ps ih =>
    by_cases hl : fast_but_gpio_read b0 p.gpio = 0
    · have e := onetime_released_idle spec_ops b0 f0 p.gpio p.now hl hbp
      have hfp : first_press b0 (p :: ps) = first_press b0 ps := by
        simp [first_press, hl]
      obtain ⟨r1, r2⟩ := ih (fun t0 ht0 q hq hq' =>
        hshort t0 (by rw [hfp]; exact ht0) q (by simp [hq]) hq')
      simp only [button_history, flag_history, e, List.length_cons, List.replicate_succ,
        List.mem_cons]
      refine ⟨?_, by rw [r2]⟩
      intro b' hb'
      rcases hb' with rfl | hb'
      · exact hbp
      · exact r1 b' hb'
    · have hfp : first_press b0 (p :: ps) = some p.now := by
        simp [first_press, hl]
      obtain ⟨s1, s2⟩ := onetime_first_pressed_armed b0 f0 p.gpio p.now hnc hfix hbp hda hl
      obtain ⟨r1, r2⟩ := onetime_armed_run b0 p.now hnc hfix ps
        (fun q hq hq' => hshort p.now hfp q (by simp [hq]) hq') _ f0 s2
      simp only [button_history, flag_history, s1, List.length_cons, List.replicate_succ,
        List.mem_cons]
      refine ⟨?_, by rw [r2]⟩
      intro b' hb'
      rcases hb' with rfl | hb'
      · exact s2.2.2.2.1
      · exact r1 b' hb'

/-! ## Claim C9: window elapse with a count that is not the target -/

/-- Updating `max_presses_quantity` does not change the level read. -/
theorem fast_but_gpio_read_max_update {τ : Type} (b : button_ctx τ) (N : Nat)
    (gpio : gpio_dev_t) :
    fast_but_gpio_read
        (if N > b.max_presses_quantity then { b with max_presses_quantity := N } else b) gpio
      = fast_but_gpio_read b gpio := by
  split_ifs <;> rfl

/-- Claim C9 fails on the code: polling `flag_control_by_but_multiple_press_inside` with
target 3 on a fresh pull-up button on pin 4, two debounced taps and then a released
poll one second after the second release: in that poll the window timer reports
elapsed (`end_flag`), the flag is not toggled, and `presses_counter` stays `2`; it is
not reset to `0`. -/
theorem C9_undershoot_not_reset :
    (run_flag (fun b f => flag_control_by_but_multiple_press_inside spec_ops b f 3)
        (fresh_button 4 GPIO_PULLUP_ONLY NO_FIX) false
        [⟨gpio_low, 0⟩, ⟨gpio_low, 3000⟩, ⟨gpio_high, 4000⟩,
          ⟨gpio_low, 54000⟩, ⟨gpio_low, 57000⟩, ⟨gpio_high, 58000⟩,
          ⟨gpio_high, 1058000⟩]).1.presses_counter = 2 ∧
    (run_flag (fun b f => flag_control_by_but_multiple_press_inside spec_ops b f 3)
        (fresh_button 4 GPIO_PULLUP_ONLY NO_FIX) false
        [⟨gpio_low, 0⟩, ⟨gpio_low, 3000⟩, ⟨gpio_high, 4000⟩,
          ⟨gpio_low, 54000⟩, ⟨gpio_low, 57000⟩, ⟨gpio_high, 58000⟩,
          ⟨gpio_high, 1058000⟩]).1.MULTIPRESS_AWAIT.end_flag = true ∧
    (run_flag (fun b f => flag_control_by_but_multiple_press_inside spec_ops b f 3)
        (fresh_button 4 GPIO_PULLUP_ONLY NO_FIX) false
        [⟨gpio_low, 0⟩, ⟨gpio_low, 3000⟩, ⟨gpio_high, 4000⟩,
          ⟨gpio_low, 54000⟩, ⟨gpio_low, 57000⟩, ⟨gpio_high, 58000⟩,
          ⟨gpio_high, 1058000⟩]).2 = false := by
  decide

/-- Claim C9, as the code has it: for every target `N ≥ 1` and every count
`0 < c ≠ N` (button released, `but_pressed = false`, `mt_permission = true`), the poll
of `flag_control_by_but_multiple_press_inside` in which the window timer reports
elapsed leaves the flag unchanged and resets `presses_counter` to `0` only if `c`
exceeds `max_presses_quantity` (as updated by `N`); otherwise `presses_counter` stays
`c`.  Through the guard wrapper `flag_control_by_but_multiple_press` such a poll
changes nothing. -/
theorem C9_window_elapse_mismatch {τ : Type} (ops : await_ops τ) (b : button_ctx τ)
    (f : Bool) (N : Nat) (gpio : gpio_dev_t) (now : Nat)
    (hN : 1 ≤ N) (hnc : b.PIN ≠ GPIO_NUM_NC)
    (hc0 : 0 < b.presses_counter) (hcN : b.presses_counter ≠ N)
    (hl : fast_but_gpio_read b gpio = 0) (hp : b.but_pressed = false)
    (hm : b.mt_permission = true)
    (hel : ops.end_flag
      (ops.async_await b.MULTIPRESS_AWAIT now 1 time_unit.TIME_UNIT_S true).2 = true) :
    (flag_control_by_but_multiple_press_inside ops b f N gpio now).flag = f ∧
    (flag_control_by_but_multiple_press_inside ops b f N gpio now).button.presses_counter
      = (if b.presses_counter > max b.max_presses_quantity N then 0
          else b.presses_counter) ∧
    flag_control_by_but_multiple_press ops b f N gpio now = ⟨b, f, []⟩ := by
  have hN0 : ¬ N < 1 := by omega
  have hl' := fast_but_gpio_read_max_update b N gpio
  rw [hl] at hl'
  refine ⟨?_, ?_, ?_⟩
  · unfold flag_control_by_but_multiple_press_inside
    simp only [hN0, hnc, if_false, hl']
    by_cases hmax : N > b.max_presses_quantity
    · simp [hmax, hp, hm, hc0, hel, hcN]
      split_ifs <;> rfl
    · simp [hmax, hp, hm, hc0, hel, hcN]
      split_ifs <;> rfl
  · unfold flag_control_by_but_multiple_press_inside
    simp only [hN0, hnc, if_false, hl']
    by_cases hmax : N > b.max_presses_quantity
    · have hmx : max b.max_presses_quantity N = N := by omega
      simp [hmax, hp, hm, hc0, hel, hcN, hmx]
      split_ifs <;> simp_all
    · have hmx : max b.max_presses_quantity N = b.max_presses_quantity := by omega
      simp [hmax, hp, hm, hc0, hel, hcN, hmx]
      split_ifs <;> simp_all
  · have h1 : ¬ (N = 1 ∧ b.presses_counter ≤ 1) := by omega
    simp [flag_control_by_but_multiple_press, hnc, hN0, h1, hcN]

/-- Instance of claim C9 as the code has it: count `2`, target `3`, window elapsed. -/
theorem C9_window_elapse_mismatch_witness :
    (flag_control_by_but_multiple_press_inside spec_ops two_taps_button false 3
        gpio_high 1058000).flag = false ∧
    (flag_control_by_but_multiple_press_inside spec_ops two_taps_button false 3
        gpio_high 1058000).button.presses_counter
      = (if two_taps_button.presses_counter > max two_taps_button.max_presses_quantity 3
          then 0 else two_taps_button.presses_counter) ∧
    flag_control_by_but_multiple_press spec_ops two_taps_button false 3 gpio_high 1058000
      = ⟨two_taps_button, false, []⟩ :=
  C9_window_elapse_mismatch spec_ops two_taps_button false 3 gpio_high 1058000
    (by decide) (by decide) (by decide) (by decide) (by decide) (by decide) (by decide)
    (by decide)

/-! ## Claim C10: longtime threshold, lower half -/

/-- Claim C10 fails on the code: a release before the `3 s` elapsed neither stops the
hold timer nor clears `but_long_pressed`.  A fresh pull-up button on pin 4 is polled
through `flag_control_by_but_longtime_press`: released at `0`, pressed at `1000`,
`4000` and `5000` microseconds (debounce confirmed, hold timer armed at `5000`),
released at `6000`, pressed again at `3005000`.  No continuous pressed interval
reaches `3 s`, yet the last poll toggles the flag. -/
theorem C10_short_holds_fire :
    no_press_lasts (fresh_button 4 GPIO_PULLUP_ONLY NO_FIX) 3000000 none
        [⟨gpio_high, 0⟩, ⟨gpio_low, 1000⟩, ⟨gpio_low, 4000⟩, ⟨gpio_low, 5000⟩,
          ⟨gpio_high, 6000⟩, ⟨gpio_low, 3005000⟩] = true ∧
    button_initialization spec_ops 4 GPIO_PULLUP_ONLY NO_FIX
      = some (fresh_button 4 GPIO_PULLUP_ONLY NO_FIX) ∧
    flag_history (flag_control_by_but_longtime_press spec_ops)
        (fresh_button 4 GPIO_PULLUP_ONLY NO_FIX) false
        [⟨gpio_high, 0⟩, ⟨gpio_low, 1000⟩, ⟨gpio_low, 4000⟩, ⟨gpio_low, 5000⟩,
          ⟨gpio_high, 6000⟩, ⟨gpio_low, 3005000⟩]
      = [false, false, false, false, false, true] := by
  decide

/-! ## Claim C8: multiple exactness -/

/-- The timer of the specification, not armed, is armed by an invocation and reports
nothing. -/
theorem async_await_unarmed (ctx : async_await_ctx) (now duration : Nat) (unit : time_unit)
    (auto : Bool) (h : ctx.start_flag = false) (hd : 0 < duration_us duration unit) :
    async_await ctx now duration unit auto = (false, ⟨true, now, false⟩) := by
  have : ¬ (now + duration_us duration unit ≤ now) := by omega
  simp [async_await, h, this]

/-- The timer of the specification, armed at `t0`, reports nothing before the
duration has passed. -/
theorem async_await_armed_early (ctx : async_await_ctx) (now duration t0 : Nat)
    (unit : time_unit) (auto : Bool) (h : ctx.start_flag = true)
    (hs : ctx.start_time = t0) (ht : ¬ (t0 + duration_us duration unit ≤ now)) :
    async_await ctx now duration unit auto = (false, ⟨true, t0, false⟩) := by
  cases ctx
  simp_all [async_await]

/-- The timer of the specification, armed at `t0` and polled without restart, reports
elapsed once the duration has passed and stays armed at `t0`. -/
theorem async_await_armed_elapsed (ctx : async_await_ctx) (now duration t0 : Nat)
    (unit : time_unit) (h : ctx.start_flag = true)
    (hs : ctx.start_time = t0) (ht : t0 + duration_us duration unit ≤ now) :
    async_await ctx now duration unit false = (true, ⟨true, t0, true⟩) := by
  cases ctx
  simp_all [async_await]

/-- The timer of the specification, armed at `t0` and polled with restart, reports
elapsed once the duration has passed and is armed anew. -/
theorem async_await_armed_elapsed_auto (ctx : async_await_ctx) (now duration t0 : Nat)
    (unit : time_unit) (h : ctx.start_flag = true)
    (hs : ctx.start_time = t0) (ht : t0 + duration_us duration unit ≤ now) :
    async_await ctx now duration unit true = (true, ⟨true, now, true⟩) := by
  cases ctx
  simp_all [async_await]

/-- A released poll of the inner multiple-press classifier between presses, with fewer
presses counted than the target: flag and state are kept. -/
theorem multi_idle_released (b0 b : button_ctx async_await_ctx) (f : Bool) (N c : Nat)
    (gpio : gpio_dev_t) (now : Nat) (hnc : b0.PIN ≠ GPIO_NUM_NC) (hN : 1 ≤ N)
    (hc : c < N) (hinv : multi_idle_inv b0 N c b)
    (hl : fast_but_gpio_read b0 gpio = 0) :
    (flag_control_by_but_multiple_press_inside spec_ops b f N gpio now).flag = f ∧
    multi_idle_inv b0 N c
      (flag_control_by_but_multiple_press_inside spec_ops b f N gpio now).button := by
  rw [fast_but_gpio_read_eq] at hl
  obtain ⟨h1, h2, hp, hm, hcnt, hmax, hd⟩ := hinv
  have hN0 : ¬ N < 1 := by omega
  have hcN : ¬ (c = N) := by omega
  have hcN' : ¬ (N < c) := by omega
  by_cases hmx : N > b.max_presses_quantity
  · by_cases hc0 : 0 < c <;>
    by_cases he :
      (async_await b.MULTIPRESS_AWAIT now 1 time_unit.TIME_UNIT_S true).2.end_flag = true <;>
    simp [flag_control_by_but_multiple_press_inside, fast_but_gpio_read_eq, hN0, hnc,
      hl, hmx, hc0, he, hcN, hcN', hd, h1, h2, hp, hm, hcnt, multi_idle_inv, spec_ops]
  · have hcm' : ¬ (b.max_presses_quantity < c) := by omega
    by_cases hc0 : 0 < c <;>
    by_cases he :
      (async_await b.MULTIPRESS_AWAIT now 1 time_unit.TIME_UNIT_S true).2.end_flag = true <;>
    simp [flag_control_by_but_multiple_press_inside, fast_but_gpio_read_eq, hN0, hnc,
      hl, hmx, hc0, he, hcN, hcN', hd, h1, h2, hp, hm, hcnt, multi_idle_inv, spec_ops, hcm', hmax]

/-- The first pressed poll of the inner multiple-press classifier after an idle state
arms the debounce timer at the clock value of that poll. -/
theorem multi_idle_pressed (b0 b : button_ctx async_await_ctx) (f : Bool) (N c : Nat)
    (gpio : gpio_dev_t) (now : Nat) (hnc : b0.PIN ≠ GPIO_NUM_NC) (hN : 1 ≤ N)
    (hc : c < N) (hinv : multi_idle_inv b0 N c b)
    (hl : fast_but_gpio_read b0 gpio ≠ 0) :
    (flag_control_by_but_multiple_press_inside spec_ops b f N gpio now).flag = f ∧
    multi_press_inv b0 N c now
      (flag_control_by_but_multiple_press_inside spec_ops b f N gpio now).button := by
  rw [fast_but_gpio_read_eq] at hl
  obtain ⟨h1, h2, hp, hm, hcnt, hmax, hd⟩ := hinv
  have hN0 : ¬ N < 1 := by omega
  have hcN : ¬ (c = N) := by omega
  have hcN' : ¬ (N < c) := by omega
  have hdeb := async_await_unarmed b.DEBOUNCE_AWAIT now 3 time_unit.TIME_UNIT_MS false hd
    (by decide)
  by_cases hmx : N > b.max_presses_quantity
  · by_cases hc0 : 0 < c <;>
    by_cases he :
      (async_await b.MULTIPRESS_AWAIT now 1 time_unit.TIME_UNIT_S true).2.end_flag = true <;>
    simp [flag_control_by_but_multiple_press_inside, fast_but_gpio_read_eq, hN0, hnc,
      hl, hmx, hc0, he, hcN, hcN', hd, h1, h2, hp, hm, hcnt, multi_press_inv, spec_ops, hdeb]
  · have hcm' : ¬ (b.max_presses_quantity < c) := by omega
    by_cases hc0 : 0 < c <;>
    by_cases he :
      (async_await b.MULTIPRESS_AWAIT now 1 time_unit.TIME_UNIT_S true).2.end_flag = true <;>
    simp [flag_control_by_but_multiple_press_inside, fast_but_gpio_read_eq, hN0, hnc,
      hl, hmx, hc0, he, hcN, hcN', hd, h1, h2, hp, hm, hcnt, multi_press_inv, spec_ops, hdeb, hcm', hmax]

/-- A pressed poll of the inner multiple-press classifier during a press: the flag and
the count are kept, and the press is confirmed once `3 ms` have passed since the
debounce timer was armed. -/
theorem multi_press_pressed (b0 b : button_ctx async_await_ctx) (f : Bool) (N c t0 : Nat)
    (gpio : gpio_dev_t) (now : Nat) (hnc : b0.PIN ≠ GPIO_NUM_NC) (hN : 1 ≤ N)
    (hc : c < N) (hinv : multi_press_inv b0 N c t0 b)
    (hl : fast_but_gpio_read b0 gpio ≠ 0) :
    (flag_control_by_but_multiple_press_inside spec_ops b f N gpio now).flag = f ∧
    multi_press_inv b0 N c t0
      (flag_control_by_but_multiple_press_inside spec_ops b f N gpio now).button ∧
    ((b.but_pressed = true ∨ t0 + 3000 ≤ now) →
      (flag_control_by_but_multiple_press_inside spec_ops b f N gpio now).button.but_pressed
        = true) := by
  rw [fast_but_gpio_read_eq] at hl
  obtain ⟨h1, h2, hm, hcnt, hmax, hpr⟩ := hinv
  have hN0 : ¬ N < 1 := by omega
  have hcN : ¬ (c = N) := by omega
  have hcN' : ¬ (N < c) := by omega
  rcases hpr with hp | ⟨hp, ha, hs⟩
  · by_cases hmx : N > b.max_presses_quantity
    · simp [flag_control_by_but_multiple_press_inside, fast_but_gpio_read_eq, hN0, hnc,
        hl, hmx, hcN, hcN', h1, h2, hp, hm, hcnt, multi_press_inv, spec_ops]
    · simp [flag_control_by_but_multiple_press_inside, fast_but_gpio_read_eq, hN0, hnc,
        hl, hmx, hcN, hcN', h1, h2, hp, hm, hcnt, multi_press_inv, spec_ops, hmax]
  · by_cases ht : t0 + 3000 ≤ now
    · have hdeb := async_await_armed_elapsed b.DEBOUNCE_AWAIT now 3 t0
        time_unit.TIME_UNIT_MS ha hs ht
      by_cases hmx : N > b.max_presses_quantity
      · simp [flag_control_by_but_multiple_press_inside, fast_but_gpio_read_eq, hN0, hnc,
          hl, hmx, hcN, hcN', h1, h2, hp, hm, hcnt, multi_press_inv, spec_ops, hdeb]
      · simp [flag_control_by_but_multiple_press_inside, fast_but_gpio_read_eq, hN0, hnc,
          hl, hmx, hcN, hcN', h1, h2, hp, hm, hcnt, multi_press_inv, spec_ops, hdeb, hmax]
    · have hdeb := async_await_armed_early b.DEBOUNCE_AWAIT now 3 t0
        time_unit.TIME_UNIT_MS false ha hs ht
      by_cases hmx : N > b.max_presses_quantity
      · by_cases hc0 : 0 < c <;>
        by_cases he :
          (async_await b.MULTIPRESS_AWAIT now 1 time_unit.TIME_UNIT_S true).2.end_flag = true <;>
        simp [flag_control_by_but_multiple_press_inside, fast_but_gpio_read_eq, hN0, hnc,
          hl, hmx, hc0, he, hcN, hcN', h1, h2, hp, hm, hcnt, multi_press_inv, spec_ops, hdeb, ht]
      · have hcm' : ¬ (b.max_presses_quantity < c) := by omega
        by_cases hc0 : 0 < c <;>
        by_cases he :
          (async_await b.MULTIPRESS_AWAIT now 1 time_unit.TIME_UNIT_S true).2.end_flag = true <;>
        simp [flag_control_by_but_multiple_press_inside, fast_but_gpio_read_eq, hN0, hnc,
          hl, hmx, hc0, he, hcN, hcN', h1, h2, hp, hm, hcnt, multi_press_inv, spec_ops, hdeb,
          hcm', hmax, ht]

/-- The released poll after a confirmed press counts the press, stops the timers and
arms the window timer at the clock value of that poll; the flag is kept. -/
theorem multi_press_release (b0 b : button_ctx async_await_ctx) (f : Bool) (N c t0 : Nat)
    (gpio : gpio_dev_t) (now : Nat) (hnc : b0.PIN ≠ GPIO_NUM_NC) (hN : 1 ≤ N)
    (hN' : N < 2 ^ 32) (hc : c < N) (hinv : multi_press_inv b0 N c t0 b)
    (hp : b.but_pressed = true) (hl : fast_but_gpio_read b0 gpio = 0) :
    (flag_control_by_but_multiple_press_inside spec_ops b f N gpio now).flag = f ∧
    multi_idle_inv b0 N (c + 1)
      (flag_control_by_but_multiple_press_inside spec_ops b f N gpio now).button ∧
    (flag_control_by_but_multiple_press_inside spec_ops b f N gpio now).button.MULTIPRESS_AWAIT.start_flag
      = true ∧
    (flag_control_by_but_multiple_press_inside spec_ops b f N gpio now).button.MULTIPRESS_AWAIT.start_time
      = now := by
  rw [fast_but_gpio_read_eq] at hl
  obtain ⟨h1, h2, hm, hcnt, hmax, _⟩ := hinv
  have hN0 : ¬ N < 1 := by omega
  have hmod : (c + 1) % 4294967296 = c + 1 := Nat.mod_eq_of_lt (by norm_num at hN'; omega)
  have hmp := async_await_unarmed (end_await b.MULTIPRESS_AWAIT) now 1 time_unit.TIME_UNIT_S
    true rfl (by decide)
  by_cases hmx : N > b.max_presses_quantity
  · simp [flag_control_by_but_multiple_press_inside, fast_but_gpio_read_eq, hN0, hnc,
      hl, hmx, h1, h2, hp, hm, hcnt, multi_idle_inv, spec_ops, hmod, hmp]
    simp [end_await]
  · simp [flag_control_by_but_multiple_press_inside, fast_but_gpio_read_eq, hN0, hnc,
      hl, hmx, h1, h2, hp, hm, hcnt, multi_idle_inv, spec_ops, hmod, hmp, hmax]
    simp [end_await]

/-- A released poll after the `N`-th release, before the window has elapsed: flag and
state are kept. -/
theorem multi_wait_released (b0 b : button_ctx async_await_ctx) (f : Bool) (N tr : Nat)
    (gpio : gpio_dev_t) (now : Nat) (hnc : b0.PIN ≠ GPIO_NUM_NC) (hN : 1 ≤ N)
    (hinv : multi_wait_inv b0 N tr b) (hl : fast_but_gpio_read b0 gpio = 0)
    (ht : ¬ (tr + 1000000 ≤ now)) :
    (flag_control_by_but_multiple_press_inside spec_ops b f N gpio now).flag = f ∧
    multi_wait_inv b0 N tr
      (flag_control_by_but_multiple_press_inside spec_ops b f N gpio now).button := by
  rw [fast_but_gpio_read_eq] at hl
  obtain ⟨⟨h1, h2, hp, hm, hcnt, hmax, hd⟩, ha, hs⟩ := hinv
  have hN0 : ¬ N < 1 := by omega
  have hc0 : 0 < N := by omega
  have hmp := async_await_armed_early b.MULTIPRESS_AWAIT now 1 tr time_unit.TIME_UNIT_S true
    ha hs ht
  by_cases hmx : N > b.max_presses_quantity
  · simp [flag_control_by_but_multiple_press_inside, fast_but_gpio_read_eq, hN0, hnc,
      hl, hmx, h1, h2, hp, hm, hcnt, multi_idle_inv, multi_wait_inv, spec_ops, hmp, hc0, hd]
  · simp [flag_control_by_but_multiple_press_inside, fast_but_gpio_read_eq, hN0, hnc,
      hl, hmx, h1, h2, hp, hm, hcnt, multi_idle_inv, multi_wait_inv, spec_ops, hmp, hc0, hd,
      hmax]

/-- The released poll in which the window timer reports elapsed after the `N`-th
release toggles the flag and resets the count. -/
theorem multi_wait_elapse (b0 b : button_ctx async_await_ctx) (f : Bool) (N tr : Nat)
    (gpio : gpio_dev_t) (now : Nat) (hnc : b0.PIN ≠ GPIO_NUM_NC) (hN : 1 ≤ N)
    (hinv : multi_wait_inv b0 N tr b) (hl : fast_but_gpio_read b0 gpio = 0)
    (ht : tr + 1000000 ≤ now) :
    (flag_control_by_but_multiple_press_inside spec_ops b f N gpio now).flag = (!f) ∧
    multi_idle_inv b0 N 0
      (flag_control_by_but_multiple_press_inside spec_ops b f N gpio now).button := by
  rw [fast_but_gpio_read_eq] at hl
  obtain ⟨⟨h1, h2, hp, hm, hcnt, hmax, hd⟩, ha, hs⟩ := hinv
  have hN0 : ¬ N < 1 := by omega
  have hc0 : 0 < N := by omega
  have hmp := async_await_armed_elapsed_auto b.MULTIPRESS_AWAIT now 1 tr
    time_unit.TIME_UNIT_S ha hs ht
  by_cases hmx : N > b.max_presses_quantity
  · simp [flag_control_by_but_multiple_press_inside, fast_but_gpio_read_eq, hN0, hnc,
      hl, hmx, h1, h2, hp, hm, hcnt, multi_idle_inv, spec_ops, hmp, hc0, hd]
  · simp [flag_control_by_but_multiple_press_inside, fast_but_gpio_read_eq, hN0, hnc,
      hl, hmx, h1, h2, hp, hm, hcnt, multi_idle_inv, spec_ops, hmp, hc0, hd, hmax]

/-- Polling under an invariant that every poll of the sequence preserves together
with the flag: the flag never changes and the invariant holds at the end. -/
theorem run_flag_invariant {τ : Type}
    (step : button_ctx τ → Bool → gpio_dev_t → Nat → flag_result τ)
    (I : button_ctx τ → Prop) (ps : List poll)
    (hstep : ∀ (b : button_ctx τ) (f : Bool), ∀ p ∈ ps, I b →
      (step b f p.gpio p.now).flag = f ∧ I (step b f p.gpio p.now).button) :
    ∀ (b : button_ctx τ) (f : Bool), I b →
      (run_flag step b f ps).2 = f ∧ I (run_flag step b f ps).1 ∧
      flag_history step b f ps = List.replicate ps.length f := by
  induction ps with
  | nil => intro b f hI; exact ⟨rfl, hI, rfl⟩
  | cons p ps ih =>
    intro b f hI
    obtain ⟨s1, s2⟩ := hstep b f p (by simp) hI
    obtain ⟨r1, r2, r3⟩ := ih (fun b f q hq => hstep b f q (by simp [hq])) _ f s2
    simp only [run_flag, flag_history, s1, List.length_cons, List.replicate_succ]
    exact ⟨r1, r2, by rw [r3]⟩

/-- Released polls between presses, with fewer presses counted than the target, keep
flag and state, for any loop that runs the inner multiple-press classifier while the
count is at most the target. -/
theorem multi_idle_run (b0 : button_ctx async_await_ctx) (N c : Nat)
    (step : button_ctx async_await_ctx → Bool → gpio_dev_t → Nat → flag_result async_await_ctx)
    (hstep : ∀ b f g t, b.presses_counter ≤ N →
      step b f g t = flag_control_by_but_multiple_press_inside spec_ops b f N g t)
    (hnc : b0.PIN ≠ GPIO_NUM_NC) (hN : 1 ≤ N) (hc : c < N) (ps : List poll)
    (hl : ∀ p ∈ ps, fast_but_gpio_read b0 p.gpio = 0)
    (b : button_ctx async_await_ctx) (f : Bool) (hinv : multi_idle_inv b0 N c b) :
    (run_flag step b f ps).2 = f ∧ multi_idle_inv b0 N c (run_flag step b f ps).1 ∧
    flag_history step b f ps = List.replicate ps.length f := by
  apply run_flag_invariant step (multi_idle_inv b0 N c) ps _ b f hinv
  intro b f p hp hI
  rw [hstep b f p.gpio p.now (by rw [hI.2.2.2.2.1]; omega)]
  exact multi_idle_released b0 b f N c p.gpio p.now hnc hN hc hI (hl p hp)

/-- Released polls after the `N`-th release and before the window has elapsed keep
flag and state. -/
theorem multi_wait_run (b0 : button_ctx async_await_ctx) (N tr : Nat)
    (step : button_ctx async_await_ctx → Bool → gpio_dev_t → Nat → flag_result async_await_ctx)
    (hstep : ∀ b f g t, b.presses_counter ≤ N →
      step b f g t = flag_control_by_but_multiple_press_inside spec_ops b f N g t)
    (hnc : b0.PIN ≠ GPIO_NUM_NC) (hN : 1 ≤ N) (ps : List poll)
    (hl : ∀ p ∈ ps, fast_but_gpio_read b0 p.gpio = 0)
    (ht : ∀ p ∈ ps, p.now < tr + 1000000)
    (b : button_ctx async_await_ctx) (f : Bool) (hinv : multi_wait_inv b0 N tr b) :
    (run_flag step b f ps).2 = f ∧ multi_wait_inv b0 N tr (run_flag step b f ps).1 ∧
    flag_history step b f ps = List.replicate ps.length f := by
  apply run_flag_invariant step (multi_wait_inv b0 N tr) ps _ b f hinv
  intro b f p hp hI
  rw [hstep b f p.gpio p.now (by rw [hI.1.2.2.2.2.1])]
  exact multi_wait_released b0 b f N tr p.gpio p.now hnc hN hI (hl p hp)
    (by have := ht p hp; omega)

/-- Pressed polls during a press keep flag and count, and leave the press confirmed
if one of them comes `3 ms` or more after the debounce timer was armed. -/
theorem multi_press_run (b0 : button_ctx async_await_ctx) (N c t0 : Nat)
    (step : button_ctx async_await_ctx → Bool → gpio_dev_t → Nat → flag_result async_await_ctx)
    (hstep : ∀ b f g t, b.presses_counter ≤ N →
      step b f g t = flag_control_by_but_multiple_press_inside spec_ops b f N g t)
    (hnc : b0.PIN ≠ GPIO_NUM_NC) (hN : 1 ≤ N) (hc : c < N) (ps : List poll)
    (hl : ∀ p ∈ ps, fast_but_gpio_read b0 p.gpio ≠ 0) :
    ∀ (b : button_ctx async_await_ctx) (f : Bool), multi_press_inv b0 N c t0 b →
      (run_flag step b f ps).2 = f ∧ multi_press_inv b0 N c t0 (run_flag step b f ps).1 ∧
      flag_history step b f ps = List.replicate ps.length f ∧
      ((b.but_pressed = true ∨ ∃ p ∈ ps, t0 + 3000 ≤ p.now) →
        (run_flag step b f ps).1.but_pressed = true) := by
  induction ps with
  | nil =>
    intro b f hinv
    refine ⟨rfl, hinv, rfl, ?_⟩
    intro h
    rcases h with h | ⟨p, hp, _⟩
    · exact h
    · simp at hp
  | cons p ps ih =>
    intro b f hinv
    have hs := hstep b f p.gpio p.now (by rw [hinv.2.2.2.1]; omega)
    obtain ⟨s1, s2, s3⟩ :=
      multi_press_pressed b0 b f N c t0 p.gpio p.now hnc hN hc hinv (hl p (by simp))
    rw [← hs] at s1 s2 s3
    obtain ⟨r1, r2, r3, r4⟩ := ih (fun q hq => hl q (by simp [hq])) _ f s2
    simp only [run_flag, flag_history, s1, List.length_cons, List.replicate_succ]
    refine ⟨r1, r2, by rw [r3], ?_⟩
    intro h
    apply r4
    rcases h with h | ⟨q, hq, hq'⟩
    · exact Or.inl (s3 (Or.inl h))
    · rcases List.mem_cons.mp hq with rfl | hq
      · exact Or.inl (s3 (Or.inr hq'))
      · exact Or.inr ⟨q, hq, hq'⟩

/-- Two consecutive flag-keeping segments form one. -/
theorem flag_kept_append {τ : Type}
    (step : button_ctx τ → Bool → gpio_dev_t → Nat → flag_result τ)
    (I J K : button_ctx τ → Prop) (xs ys : List poll)
    (hx : flag_kept step I J xs) (hy : flag_kept step J K ys) :
    flag_kept step I K (xs ++ ys) := by
  intro b f hI
  obtain ⟨x1, x2, x3⟩ := hx b f hI
  obtain ⟨y1, y2, y3⟩ := hy _ f x2
  rw [run_flag_append, flag_history_append, x1, x3, y3]
  refine ⟨y1, y2, ?_⟩
  rw [List.length_append, List.replicate_add]

/-- A single flag-keeping poll is a flag-keeping segment. -/
theorem flag_kept_single {τ : Type}
    (step : button_ctx τ → Bool → gpio_dev_t → Nat → flag_result τ)
    (I J : button_ctx τ → Prop) (p : poll)
    (h : ∀ (b : button_ctx τ) (f : Bool), I b →
      (step b f p.gpio p.now).flag = f ∧ J (step b f p.gpio p.now).button) :
    flag_kept step I J [p] := by
  intro b f hI
  obtain ⟨h1, h2⟩ := h b f hI
  simp only [run_flag, flag_history, h1, List.length_singleton, List.replicate_one]
  exact ⟨trivial, h2, trivial⟩

/-- A flag-keeping segment may end in any weaker condition. -/
theorem flag_kept_mono {τ : Type}
    (step : button_ctx τ → Bool → gpio_dev_t → Nat → flag_result τ)
    (I J K : button_ctx τ → Prop) (ps : List poll)
    (h : flag_kept step I J ps) (hJK : ∀ b, J b → K b) :
    flag_kept step I K ps := by
  intro b f hI
  obtain ⟨h1, h2, h3⟩ := h b f hI
  exact ⟨h1, hJK _ h2, h3⟩

/-- One clean press up to and including its first released poll: the flag is kept, one
more press is counted and the window timer is armed at the release. -/
theorem multi_tap_core (b0 : button_ctx async_await_ctx) (N c : Nat)
    (step : button_ctx async_await_ctx → Bool → gpio_dev_t → Nat → flag_result async_await_ctx)
    (hstep : ∀ b f g t, b.presses_counter ≤ N →
      step b f g t = flag_control_by_but_multiple_press_inside spec_ops b f N g t)
    (hnc : b0.PIN ≠ GPIO_NUM_NC) (hN : 1 ≤ N) (hN' : N < 2 ^ 32) (hc : c < N)
    (first : poll) (held : List poll) (release : poll)
    (h1 : fast_but_gpio_read b0 first.gpio ≠ 0)
    (h2 : ∀ p ∈ held, fast_but_gpio_read b0 p.gpio ≠ 0)
    (h3 : ∃ p ∈ held, first.now + 3000 ≤ p.now)
    (h4 : fast_but_gpio_read b0 release.gpio = 0) :
    flag_kept step (multi_idle_inv b0 N c)
      (fun b => multi_idle_inv b0 N (c + 1) b ∧ b.MULTIPRESS_AWAIT.start_flag = true ∧
        b.MULTIPRESS_AWAIT.start_time = release.now)
      (first :: (held ++ [release])) := by
  have e : first :: (held ++ [release]) = [first] ++ (held ++ [release]) := rfl
  rw [e]
  apply flag_kept_append step _ (multi_press_inv b0 N c first.now)
  · apply flag_kept_single
    intro b f hI
    rw [hstep b f first.gpio first.now (by rw [hI.2.2.2.2.1]; omega)]
    exact multi_idle_pressed b0 b f N c first.gpio first.now hnc hN hc hI h1
  · apply flag_kept_append step _
      (fun b => multi_press_inv b0 N c first.now b ∧ b.but_pressed = true)
    · intro b f hI
      obtain ⟨r1, r2, r3, r4⟩ :=
        multi_press_run b0 N c first.now step hstep hnc hN hc held h2 b f hI
      exact ⟨r1, ⟨r2, r4 (Or.inr h3)⟩, r3⟩
    · apply flag_kept_single
      intro b f hI
      rw [hstep b f release.gpio release.now (by rw [hI.1.2.2.2.1]; omega)]
      exact multi_press_release b0 b f N c first.now release.gpio release.now hnc hN hN' hc
        hI.1 hI.2 h4

/-- The polls of a press-release cycle, split after the first released poll. -/
theorem tap_polls_eq (t : tap) :
    t.polls = (t.first :: (t.held ++ [t.release])) ++ t.idle := by
  simp [tap.polls]

/-- Consecutive clean press-release cycles, fewer in total than the target: the flag
is kept and every cycle is counted. -/
theorem multi_taps_run (b0 : button_ctx async_await_ctx) (N : Nat)
    (step : button_ctx async_await_ctx → Bool → gpio_dev_t → Nat → flag_result async_await_ctx)
    (hstep : ∀ b f g t, b.presses_counter ≤ N →
      step b f g t = flag_control_by_but_multiple_press_inside spec_ops b f N g t)
    (hnc : b0.PIN ≠ GPIO_NUM_NC) (hN : 1 ≤ N) (hN' : N < 2 ^ 32) (taps : List tap)
    (hclean : ∀ t ∈ taps, clean_tap b0 t) :
    ∀ c, c + taps.length < N →
      flag_kept step (multi_idle_inv b0 N c) (multi_idle_inv b0 N (c + taps.length))
        (taps_polls taps) := by
  induction taps with
  | nil =>
    intro c _ b f hI
    exact ⟨rfl, hI, rfl⟩
  | cons t ts ih =>
    intro c hc
    simp only [List.length_cons] at hc
    obtain ⟨k1, k2, k3, k4, k5⟩ := hclean t (by simp)
    have e : c + (t :: ts).length = (c + 1) + ts.length := by
      simp only [List.length_cons]; omega
    rw [e]
    simp only [taps_polls, tap_polls_eq]
    apply flag_kept_append step _ (multi_idle_inv b0 N (c + 1))
    · apply flag_kept_append step _ (multi_idle_inv b0 N (c + 1))
      · exact flag_kept_mono step _ _ _ _
          (multi_tap_core b0 N c step hstep hnc hN hN' (by omega) t.first t.held t.release
            k1 k2 k3 k4) (fun b hb => hb.1)
      · intro b f hI
        exact multi_idle_run b0 N (c + 1) step hstep hnc hN (by omega) t.idle k5 b f hI
    · exact ih (fun t' ht' => hclean t' (by simp [ht'])) (c + 1) (by omega)

/-- Core of multiple exactness, for any loop that runs the inner multiple-press
classifier while the count is at most the target `N`: after `N - 1` clean cycles and
an `N`-th clean press, the flag is toggled exactly once, by the first released poll
that comes one second or more after the `N`-th release. -/
theorem multi_exactness_core (b0 : button_ctx async_await_ctx) (N : Nat)
    (step : button_ctx async_await_ctx → Bool → gpio_dev_t → Nat → flag_result async_await_ctx)
    (hstep : ∀ b f g t, b.presses_counter ≤ N →
      step b f g t = flag_control_by_but_multiple_press_inside spec_ops b f N g t)
    (hnc : b0.PIN ≠ GPIO_NUM_NC) (hN' : N < 2 ^ 32)
    (hfresh : multi_idle_inv b0 N 0 b0) (f0 : Bool)
    (idle0 : List poll) (taps : List tap) (last : tap) (e : poll) (after : List poll)
    (hlen : taps.length + 1 = N)
    (hidle0 : ∀ p ∈ idle0, fast_but_gpio_read b0 p.gpio = 0)
    (htaps : ∀ t ∈ taps, clean_tap b0 t)
    (hlast : clean_tap b0 last)
    (hwait : ∀ p ∈ last.idle, p.now < last.release.now + 1000000)
    (he : fast_but_gpio_read b0 e.gpio = 0)
    (het : last.release.now + 1000000 ≤ e.now)
    (hafter : ∀ p ∈ after, fast_but_gpio_read b0 p.gpio = 0) :
    flag_history step b0 f0 (idle0 ++ taps_polls taps ++ last.polls ++ e :: after)
      = List.replicate (idle0.length + (taps_polls taps).length + last.polls.length) f0
        ++ List.replicate (1 + after.length) (!f0) := by
  have hN : 1 ≤ N := by omega
  obtain ⟨k1, k2, k3, k4, k5⟩ := hlast
  -- released polls before the first press
  have seg1 : flag_kept step (multi_idle_inv b0 N 0) (multi_idle_inv b0 N 0) idle0 :=
    fun b f hI => multi_idle_run b0 N 0 step hstep hnc hN (by omega) idle0 hidle0 b f hI
  -- the first N - 1 cycles
  have seg2 := multi_taps_run b0 N step hstep hnc hN hN' taps htaps 0 (by omega)
  -- the N-th press and release
  have seg3 := multi_tap_core b0 N (0 + taps.length) step hstep hnc hN hN' (by omega)
    last.first last.held last.release k1 k2 k3 k4
  have e3 : 0 + taps.length + 1 = N := by omega
  rw [e3] at seg3
  -- released polls before the window elapses
  have seg4 : flag_kept step (multi_wait_inv b0 N last.release.now)
      (multi_wait_inv b0 N last.release.now) last.idle :=
    fun b f hI => multi_wait_run b0 N last.release.now step hstep hnc hN last.idle k5 hwait
      b f hI
  have seg : flag_kept step (multi_idle_inv b0 N 0) (multi_wait_inv b0 N last.release.now)
      (idle0 ++ taps_polls taps ++ last.polls) := by
    rw [tap_polls_eq]
    apply flag_kept_append step _ _ _ _ _ (flag_kept_append step _ _ _ _ _ seg1 seg2)
    exact flag_kept_append step _ _ _ _ _ seg3 seg4
  obtain ⟨x1, x2, x3⟩ := seg b0 f0 hfresh
  -- the poll at window elapse
  have hs := hstep (run_flag step b0 f0 (idle0 ++ taps_polls taps ++ last.polls)).1 f0
    e.gpio e.now (by rw [x2.1.2.2.2.2.1])
  obtain ⟨y1, y2⟩ := multi_wait_elapse b0 _ f0 N last.release.now e.gpio e.now hnc hN x2 he het
  rw [← hs] at y1 y2
  -- released polls after the toggle
  obtain ⟨_, _, z3⟩ := multi_idle_run b0 N 0 step hstep hnc hN (by omega) after hafter _
    (!f0) y2
  rw [flag_history_append, x3, x1]
  simp only [flag_history, y1, z3, List.length_append]
  rw [Nat.add_comm 1 after.length, List.replicate_succ]

/-- With target 1 and at most one press counted, the guard wrapper runs the inner
classifier. -/
theorem multiple_press_wrapper_target_one {τ : Type} (ops : await_ops τ)
    (b : button_ctx τ) (f : Bool) (gpio : gpio_dev_t) (now : Nat)
    (h : b.presses_counter ≤ 1) :
    flag_control_by_but_multiple_press ops b f 1 gpio now
      = flag_control_by_but_multiple_press_inside ops b f 1 gpio now := by
  by_cases hpin : b.PIN = GPIO_NUM_NC
  · simp [flag_control_by_but_multiple_press, flag_control_by_but_multiple_press_inside, hpin]
  · simp [flag_control_by_but_multiple_press, hpin, h]

/-- With no press counted and a target of two or more, the guard wrapper changes
nothing. -/
theorem multiple_press_wrapper_idle {τ : Type} (ops : await_ops τ)
    (b : button_ctx τ) (f : Bool) (N : Nat) (gpio : gpio_dev_t) (now : Nat)
    (hc : b.presses_counter = 0) (hN : 2 ≤ N) :
    flag_control_by_but_multiple_press ops b f N gpio now = ⟨b, f, []⟩ := by
  have h1 : ¬ (N = 1) := by omega
  have h2 : ¬ (0 = N) := by omega
  by_cases hpin : b.PIN = GPIO_NUM_NC
  · simp [flag_control_by_but_multiple_press, hpin]
  · simp [flag_control_by_but_multiple_press, hpin, hc, h1, h2]

/-- With no press counted and a target of two or more, polling the guard wrapper
changes nothing, whatever the polls. -/
theorem multiple_press_wrapper_idle_run {τ : Type} (ops : await_ops τ)
    (b : button_ctx τ) (f : Bool) (N : Nat) (ps : List poll)
    (hc : b.presses_counter = 0) (hN : 2 ≤ N) :
    run_flag (fun b f => flag_control_by_but_multiple_press ops b f N) b f ps = (b, f) ∧
    flag_history (fun b f => flag_control_by_but_multiple_press ops b f N) b f ps
      = List.replicate ps.length f := by
  induction ps with
  | nil => exact ⟨rfl, rfl⟩
  | cons p ps ih =>
    have h0 := multiple_press_wrapper_idle ops b f N p.gpio p.now hc hN
    simp [run_flag, flag_history, h0, ih, List.replicate_succ]

/-- Claim C8 fails on the code: the guard wrapper runs the classifier only when the
count already equals the target (or the target is 1).  A fresh pull-up button on pin
4 polled through `flag_control_by_but_multiple_press` with target 3, the call the
header documents: three clean taps `50 ms` apart, then released polls until more than
one second after the third release.  The flag is never toggled and the record is left
as initialised (no press is counted).  On the same polls the inner function
`flag_control_by_but_multiple_press_inside` with target 3 toggles the flag in the poll
at `1104000` microseconds, one second after the third release.  When the wrapper is
called with target 1 and with target 3 in every tick (several targets on one button,
as the header allows), the second tap brings the count to `2`, and with a count of `2`
neither call is admitted any more. -/
theorem C8_three_taps_never_toggle :
    (∀ t ∈ [tap_at 0, tap_at 50000, tap_at 100000],
      clean_tap (fresh_button 4 GPIO_PULLUP_ONLY NO_FIX) t) ∧
    button_initialization spec_ops 4 GPIO_PULLUP_ONLY NO_FIX
      = some (fresh_button 4 GPIO_PULLUP_ONLY NO_FIX) ∧
    flag_history (fun b f => flag_control_by_but_multiple_press spec_ops b f 3)
        (fresh_button 4 GPIO_PULLUP_ONLY NO_FIX) false
        (taps_polls [tap_at 0, tap_at 50000, tap_at 100000]
          ++ [⟨gpio_high, 604000⟩, ⟨gpio_high, 1104000⟩, ⟨gpio_high, 1200000⟩])
      = List.replicate 15 false ∧
    run_flag (fun b f => flag_control_by_but_multiple_press spec_ops b f 3)
        (fresh_button 4 GPIO_PULLUP_ONLY NO_FIX) false
        (taps_polls [tap_at 0, tap_at 50000, tap_at 100000]
          ++ [⟨gpio_high, 604000⟩, ⟨gpio_high, 1104000⟩, ⟨gpio_high, 1200000⟩])
      = (fresh_button 4 GPIO_PULLUP_ONLY NO_FIX, false) ∧
    flag_history (fun b f => flag_control_by_but_multiple_press_inside spec_ops b f 3)
        (fresh_button 4 GPIO_PULLUP_ONLY NO_FIX) false
        (taps_polls [tap_at 0, tap_at 50000, tap_at 100000]
          ++ [⟨gpio_high, 604000⟩, ⟨gpio_high, 1104000⟩, ⟨gpio_high, 1200000⟩])
      = List.replicate 13 false ++ [true, true] ∧
    (calls_history spec_ops (fresh_button 4 GPIO_PULLUP_ONLY NO_FIX)
        (List.flatMap
          (taps_polls [tap_at 0, tap_at 50000, tap_at 100000]
            ++ [⟨gpio_high, 604000⟩, ⟨gpio_high, 1104000⟩, ⟨gpio_high, 1200000⟩])
          (fun p => [(classifier_call.flag_multiple false 1, p),
            (classifier_call.flag_multiple false 3, p)]))).map
        (fun b => b.presses_counter)
      = List.replicate 4 0 ++ List.replicate 8 1 ++ List.replicate 18 2 ∧
    (∀ (b : button_ctx async_await_ctx) (f : Bool) (gpio : gpio_dev_t) (now : Nat),
      b.presses_counter = 2 →
      flag_control_by_but_multiple_press spec_ops b f 1 gpio now = ⟨b, f, []⟩ ∧
      flag_control_by_but_multiple_press spec_ops b f 3 gpio now = ⟨b, f, []⟩) := by
  refine ⟨by decide, by decide, by decide, by decide, by decide, by decide, ?_⟩
  intro b f gpio now hc
  by_cases hpin : b.PIN = GPIO_NUM_NC
  · simp [flag_control_by_but_multiple_press, hpin]
  · simp [flag_control_by_but_multiple_press, hpin, hc]

/-- Exactness of the multiple-press classifier without its guard: on a freshly
initialised button over the timer of the specification, for every target
`1 ≤ N ≤ 255`, released polls, then `N` clean debounced press-release cycles, then
released polls of which `e` is the first to come one second or more after the `N`-th
release.  Polling the inner function
`flag_control_by_but_multiple_press_inside(button, flag, N)` every tick, the flag
keeps its value in every poll before `e`, is negated by `e` (window elapse) and
keeps the negated value afterwards: it is toggled exactly once.  Polling the guard
wrapper `flag_control_by_but_multiple_press(button, flag, N)` the same holds for
`N = 1`, and for `N ≥ 2` the guard never admits the call and the flag is never
toggled. -/
theorem multiple_press_exactness (PIN pull_mode type : Int) (b0 : button_ctx async_await_ctx)
    (f0 : Bool) (N : Nat) (idle0 : List poll) (taps : List tap) (last : tap) (e : poll)
    (after : List poll)
    (hinit : button_initialization spec_ops PIN pull_mode type = some b0)
    (hlen : taps.length + 1 = N) (hN : N ≤ 255)
    (hidle0 : ∀ p ∈ idle0, fast_but_gpio_read b0 p.gpio = 0)
    (htaps : ∀ t ∈ taps, clean_tap b0 t)
    (hlast : clean_tap b0 last)
    (hwait : ∀ p ∈ last.idle, p.now < last.release.now + 1000000)
    (he : fast_but_gpio_read b0 e.gpio = 0)
    (het : last.release.now + 1000000 ≤ e.now)
    (hafter : ∀ p ∈ after, fast_but_gpio_read b0 p.gpio = 0) :
    flag_history (fun b f => flag_control_by_but_multiple_press_inside spec_ops b f N) b0 f0
        (idle0 ++ taps_polls taps ++ last.polls ++ e :: after)
      = List.replicate (idle0.length + (taps_polls taps).length + last.polls.length) f0
        ++ List.replicate (1 + after.length) (!f0) ∧
    (N = 1 →
      flag_history (fun b f => flag_control_by_but_multiple_press spec_ops b f 1) b0 f0
          (idle0 ++ taps_polls taps ++ last.polls ++ e :: after)
        = List.replicate (idle0.length + (taps_polls taps).length + last.polls.length) f0
          ++ List.replicate (1 + after.length) (!f0)) ∧
    (2 ≤ N →
      flag_history (fun b f => flag_control_by_but_multiple_press spec_ops b f N) b0 f0
          (idle0 ++ taps_polls taps ++ last.polls ++ e :: after)
        = List.replicate (idle0 ++ taps_polls taps ++ last.polls ++ e :: after).length f0) := by
  obtain ⟨hb0, hpin0, _⟩ := button_initialization_spec_ops PIN pull_mode type b0 hinit
  have hnc : b0.PIN ≠ GPIO_NUM_NC := by
    rw [hb0]; simp only [fresh_button, GPIO_NUM_NC]; omega
  have hN' : N < 2 ^ 32 := by norm_num; omega
  have hfresh : multi_idle_inv b0 N 0 b0 := by
    rw [hb0]
    refine ⟨rfl, rfl, rfl, rfl, rfl, ?_, rfl⟩
    simp only [fresh_button]; omega
  refine ⟨?_, ?_, ?_⟩
  · exact multi_exactness_core b0 N _ (fun _ _ _ _ _ => rfl) hnc hN' hfresh f0 idle0 taps
      last e after hlen hidle0 htaps hlast hwait he het hafter
  · intro h1
    subst h1
    exact multi_exactness_core b0 1 _
      (fun b f g t hc => multiple_press_wrapper_target_one spec_ops b f g t hc) hnc hN' hfresh
      f0 idle0 taps last e after hlen hidle0 htaps hlast hwait he het hafter
  · intro h2
    exact (multiple_press_wrapper_idle_run spec_ops b0 f0 N _ (by rw [hb0]; rfl) h2).2

/-- Instance of `multiple_press_exactness`: target 3, three clean taps `50 ms` apart on
a pull-up button on pin 4, polled through the inner function; the flag is toggled by
the poll at `1104000` microseconds, one second after the third release. -/
theorem multiple_press_exactness_instance :
    flag_history (fun b f => flag_control_by_but_multiple_press_inside spec_ops b f 3)
        (fresh_button 4 GPIO_PULLUP_ONLY NO_FIX) false
        ([⟨gpio_high, 0⟩] ++ taps_polls [tap_at 1000, tap_at 51000] ++ (tap_at 100000).polls
          ++ ⟨gpio_high, 1104000⟩ :: [⟨gpio_high, 1200000⟩])
      = List.replicate ([(⟨gpio_high, 0⟩ : poll)].length
            + (taps_polls [tap_at 1000, tap_at 51000]).length + (tap_at 100000).polls.length)
          false
        ++ List.replicate (1 + [(⟨gpio_high, 1200000⟩ : poll)].length) (!false) :=
  (multiple_press_exactness 4 GPIO_PULLUP_ONLY NO_FIX (fresh_button 4 GPIO_PULLUP_ONLY NO_FIX)
    false 3 [⟨gpio_high, 0⟩] [tap_at 1000, tap_at 51000] (tap_at 100000)
    ⟨gpio_high, 1104000⟩ [⟨gpio_high, 1200000⟩]
    (by decide) (by decide) (by decide) (by decide) (by decide) (by decide) (by decide)
    (by decide) (by decide) (by decide)).1

/-! ## Claim C11: longtime threshold, upper half -/

/-- A pressed poll of the flag longtime classifier in the state left by a firing poll
(`long_time_await_end = true`, `but_long_pressed = false`): the flag is kept and the
state is of the same kind, whatever the timers report. -/
theorem longtime_fired_pressed {τ : Type} (ops : await_ops τ) (b : button_ctx τ)
    (f : Bool) (gpio : gpio_dev_t) (now : Nat)
    (hl : fast_but_gpio_read b gpio ≠ 0)
    (he : b.long_time_await_end = true) (hb : b.but_long_pressed = false) :
    (flag_control_by_but_longtime_press ops b f gpio now).flag = f ∧
    (flag_control_by_but_longtime_press ops b f gpio now).button.long_time_await_end = true ∧
    (flag_control_by_but_longtime_press ops b f gpio now).button.but_long_pressed = false ∧
    (flag_control_by_but_longtime_press ops b f gpio now).button.PIN = b.PIN ∧
    (flag_control_by_but_longtime_press ops b f gpio now).button.pull_mode = b.pull_mode := by
  rw [fast_but_gpio_read_eq] at hl
  by_cases hnc : b.PIN = GPIO_NUM_NC
  · simp [flag_control_by_but_longtime_press, hnc, he, hb]
  · by_cases hfix : b.type = FIX
    · simp [flag_control_by_but_longtime_press, hnc, hfix, he, hb]
    · by_cases hr : (ops.async_await b.DEBOUNCE_AWAIT now 3 time_unit.TIME_UNIT_MS false).1 = true
      · simp [flag_control_by_but_longtime_press, fast_but_gpio_read_eq, hnc, hfix, he, hb, hl, hr]
      · simp [flag_control_by_but_longtime_press, fast_but_gpio_read_eq, hnc, hfix, he, hb, hl, hr]

/-- A pressed poll of the flag longtime classifier that toggles the flag leaves
`long_time_await_end = true` and `but_long_pressed = false`. -/
theorem longtime_toggle_state {τ : Type} (ops : await_ops τ) (b : button_ctx τ)
    (f : Bool) (gpio : gpio_dev_t) (now : Nat)
    (hl : fast_but_gpio_read b gpio ≠ 0)
    (ht : (flag_control_by_but_longtime_press ops b f gpio now).flag = (!f)) :
    (flag_control_by_but_longtime_press ops b f gpio now).button.long_time_await_end = true ∧
    (flag_control_by_but_longtime_press ops b f gpio now).button.but_long_pressed = false ∧
    (flag_control_by_but_longtime_press ops b f gpio now).button.PIN = b.PIN ∧
    (flag_control_by_but_longtime_press ops b f gpio now).button.pull_mode = b.pull_mode := by
  rw [fast_but_gpio_read_eq] at hl
  by_cases hnc : b.PIN = GPIO_NUM_NC
  · simp [flag_control_by_but_longtime_press, hnc] at ht
  · by_cases hfix : b.type = FIX
    · simp [flag_control_by_but_longtime_press, hnc, hfix] at ht
    · by_cases hb : b.but_long_pressed = true
      · by_cases hr :
            (ops.async_await b.LONG_TIME_PRESS_AWAIT now 3 time_unit.TIME_UNIT_S false).1 = true
        · simp [flag_control_by_but_longtime_press, fast_but_gpio_read_eq, hnc, hfix, hb, hl, hr]
        · by_cases he : b.long_time_await_end = true
          · simp [flag_control_by_but_longtime_press, fast_but_gpio_read_eq, hnc, hfix, hb, hl,
              hr, he] at ht
          · simp [flag_control_by_but_longtime_press, fast_but_gpio_read_eq, hnc, hfix, hb, hl,
              hr, he] at ht
      · by_cases hr :
            (ops.async_await b.DEBOUNCE_AWAIT now 3 time_unit.TIME_UNIT_MS false).1 = true
        · by_cases he : b.long_time_await_end = true
          · simp [flag_control_by_but_longtime_press, fast_but_gpio_read_eq, hnc, hfix, hb, hl,
              hr, he] at ht
          · simp [flag_control_by_but_longtime_press, fast_but_gpio_read_eq, hnc, hfix, hb, hl,
              hr, he] at ht
        · by_cases he : b.long_time_await_end = true
          · simp [flag_control_by_but_longtime_press, fast_but_gpio_read_eq, hnc, hfix, hb, hl,
              hr, he] at ht
          · simp [flag_control_by_but_longtime_press, fast_but_gpio_read_eq, hnc, hfix, hb, hl,
              hr, he] at ht

/-- Claim C11: polling `flag_control_by_but_longtime_press` during one continuous hold,
once a pressed poll has toggled the flag (the poll in which the hold timer reports
elapsed), no later poll of the hold (level still pressed) toggles the flag again,
whatever the debounce and hold timers report: the flag keeps the toggled value in
every later pressed poll. -/
theorem C11_longtime_fires_once {τ : Type} (ops : await_ops τ) (b : button_ctx τ)
    (f : Bool) (p : poll) (ps : List poll)
    (hp : fast_but_gpio_read b p.gpio ≠ 0)
    (hps : ∀ q ∈ ps, fast_but_gpio_read b q.gpio ≠ 0)
    (hfire : (flag_control_by_but_longtime_press ops b f p.gpio p.now).flag = (!f)) :
    flag_history (flag_control_by_but_longtime_press ops) b f (p :: ps)
      = (!f) :: List.replicate ps.length (!f) := by
  obtain ⟨h1, h2, h3, h4⟩ := longtime_toggle_state ops b f p.gpio p.now hp hfire
  have key := run_flag_invariant (flag_control_by_but_longtime_press ops)
    (fun b' => b'.long_time_await_end = true ∧ b'.but_long_pressed = false ∧
      b'.PIN = b.PIN ∧ b'.pull_mode = b.pull_mode) ps
    (fun b' f' q hq hI => by
      have hl : fast_but_gpio_read b' q.gpio ≠ 0 := by
        rw [fast_but_gpio_read_congr b b' q.gpio hI.2.2.1 hI.2.2.2]; exact hps q hq
      obtain ⟨k1, k2, k3, k4, k5⟩ :=
        longtime_fired_pressed ops b' f' q.gpio q.now hl hI.1 hI.2.1
      exact ⟨k1, k2, k3, k4.trans hI.2.2.1, k5.trans hI.2.2.2⟩)
    (flag_control_by_but_longtime_press ops b f p.gpio p.now).button (!f) ⟨h1, h2, h3, h4⟩
  simp only [flag_history, hfire, key.2.2]

/-- Instance of claim C11: a hold whose timer, armed at `5000` microseconds, reports
elapsed in the poll at `3005000`; the two later polls of the hold keep the flag. -/
theorem C11_longtime_fires_once_witness :
    flag_history (flag_control_by_but_longtime_press spec_ops) holding_button false
        (⟨gpio_low, 3005000⟩ :: [⟨gpio_low, 3006000⟩, ⟨gpio_low, 9000000⟩])
      = (!false) :: List.replicate
          [(⟨gpio_low, 3006000⟩ : poll), ⟨gpio_low, 9000000⟩].length (!false) :=
  C11_longtime_fires_once spec_ops holding_button false ⟨gpio_low, 3005000⟩
    [⟨gpio_low, 3006000⟩, ⟨gpio_low, 9000000⟩] (by decide) (by decide) (by decide)

/-! ## Claim C12: infinite restore -/

/-- A pressed poll of the flag infinite classifier on a confirmed press changes
neither the record nor the flag it is given. -/
theorem infinite_held_pressed {τ : Type} (ops : await_ops τ) (b : button_ctx τ)
    (v : Bool) (gpio : gpio_dev_t) (now : Nat)
    (hl : fast_but_gpio_read b gpio ≠ 0) (hp : b.but_pressed = true) :
    flag_control_by_but_infinite_press ops b v gpio now = ⟨b, v, []⟩ := by
  simp [flag_control_by_but_infinite_press, hl, hp]

/-- Pressed polls of the flag infinite classifier on a confirmed press leave the
record as it is, whatever flag values they are given. -/
theorem infinite_held_run {τ : Type} (ops : await_ops τ) (b : button_ctx τ)
    (holds : List (Bool × poll))
    (hl : ∀ x ∈ holds, fast_but_gpio_read b x.2.gpio ≠ 0) (hp : b.but_pressed = true) :
    run_flag_written (flag_control_by_but_infinite_press ops) b holds = b := by
  induction holds with
  | nil => rfl
  | cons x xs ih =>
    obtain ⟨v, p⟩ := x
    have h0 := infinite_held_pressed ops b v p.gpio p.now (hl (v, p) (by simp)) hp
    simp only [run_flag_written, h0]
    exact ih (fun y hy => hl y (by simp [hy]))

/-- A pressed poll of the flag infinite classifier that sets `but_pressed` negates
the flag and stores the flag it was given in `but_snapshot`, on a connected pin. -/
theorem infinite_confirm {τ : Type} (ops : await_ops τ) (b : button_ctx τ)
    (f0 : Bool) (gpio : gpio_dev_t) (now : Nat)
    (hb : b.but_pressed = false)
    (hc : (flag_control_by_but_infinite_press ops b f0 gpio now).button.but_pressed = true) :
    (flag_control_by_but_infinite_press ops b f0 gpio now).flag = (!f0) ∧
    (flag_control_by_but_infinite_press ops b f0 gpio now).button.but_snapshot = f0 ∧
    (flag_control_by_but_infinite_press ops b f0 gpio now).button.PIN = b.PIN ∧
    (flag_control_by_but_infinite_press ops b f0 gpio now).button.pull_mode = b.pull_mode ∧
    b.PIN ≠ GPIO_NUM_NC := by
  by_cases hnc : b.PIN = GPIO_NUM_NC
  · simp [flag_control_by_but_infinite_press, hnc, hb] at hc
  · by_cases hl : gpio_level b.PIN b.pull_mode gpio = 0
    · simp [flag_control_by_but_infinite_press, fast_but_gpio_read_eq, hnc, hb, hl] at hc
    · by_cases hr :
          (ops.async_await b.DEBOUNCE_AWAIT now 3 time_unit.TIME_UNIT_MS false).1 = true
      · simp [flag_control_by_but_infinite_press, fast_but_gpio_read_eq, hnc, hb, hl, hr]
      · simp [flag_control_by_but_infinite_press, fast_but_gpio_read_eq, hnc, hb, hl, hr] at hc

/-- Claim C12: for every initial flag value `f0` and a button with
`but_pressed = false`, if a pressed poll of `flag_control_by_but_infinite_press`
confirms debounce (`but_pressed` becomes true; the flag becomes `!f0`), then after
any number of further pressed polls, each seeing whatever value other logic wrote to
the flag, the next released poll sets the flag to `f0` and clears `but_pressed`,
whatever value `v` the flag has by then and whatever the timers report. -/
theorem C12_infinite_restore {τ : Type} (ops : await_ops τ) (b : button_ctx τ)
    (f0 : Bool) (p0 : poll) (holds : List (Bool × poll)) (v : Bool) (r : poll)
    (hb : b.but_pressed = false)
    (hconf : (flag_control_by_but_infinite_press ops b f0 p0.gpio p0.now).button.but_pressed
      = true)
    (hholds : ∀ x ∈ holds, fast_but_gpio_read b x.2.gpio ≠ 0)
    (hr : fast_but_gpio_read b r.gpio = 0) :
    (flag_control_by_but_infinite_press ops b f0 p0.gpio p0.now).flag = (!f0) ∧
    (flag_control_by_but_infinite_press ops
      (run_flag_written (flag_control_by_but_infinite_press ops)
        (flag_control_by_but_infinite_press ops b f0 p0.gpio p0.now).button holds)
      v r.gpio r.now).flag = f0 ∧
    (flag_control_by_but_infinite_press ops
      (run_flag_written (flag_control_by_but_infinite_press ops)
        (flag_control_by_but_infinite_press ops b f0 p0.gpio p0.now).button holds)
      v r.gpio r.now).button.but_pressed = false := by
  obtain ⟨c1, c2, c3, c4, hnc⟩ := infinite_confirm ops b f0 p0.gpio p0.now hb hconf
  have hrun := infinite_held_run ops
    (flag_control_by_but_infinite_press ops b f0 p0.gpio p0.now).button holds
    (fun x hx => by
      rw [fast_but_gpio_read_congr b _ x.2.gpio c3 c4]; exact hholds x hx) hconf
  rw [hrun]
  have hr' : gpio_level (flag_control_by_but_infinite_press ops b f0 p0.gpio p0.now).button.PIN
      (flag_control_by_but_infinite_press ops b f0 p0.gpio p0.now).button.pull_mode r.gpio
        = 0 := by
    rw [c3, c4, ← fast_but_gpio_read_eq]; exact hr
  have hnc' : (flag_control_by_but_infinite_press ops b f0 p0.gpio p0.now).button.PIN
      ≠ GPIO_NUM_NC := by rw [c3]; exact hnc
  refine ⟨c1, ?_, ?_⟩
  · rw [flag_control_by_but_infinite_press]
    simp [fast_but_gpio_read_eq, hnc', hr', hconf, c2]
  · rw [flag_control_by_but_infinite_press]
    simp [fast_but_gpio_read_eq, hnc', hr', hconf]

/-- Instance of claim C12: a pull-up button on pin 4 with the flag initially true; the
press is confirmed at `3000` microseconds, other logic writes `true` and then
`false` to the flag during the hold, and the release at `9000` restores `true`. -/
theorem C12_infinite_restore_witness :
    (flag_control_by_but_infinite_press spec_ops debouncing_button true gpio_low 3000).flag
      = (!true) ∧
    (flag_control_by_but_infinite_press spec_ops
      (run_flag_written (flag_control_by_but_infinite_press spec_ops)
        (flag_control_by_but_infinite_press spec_ops debouncing_button true gpio_low
          3000).button
        [(true, ⟨gpio_low, 4000⟩), (false, ⟨gpio_low, 5000⟩)])
      false gpio_high 9000).flag = true ∧
    (flag_control_by_but_infinite_press spec_ops
      (run_flag_written (flag_control_by_but_infinite_press spec_ops)
        (flag_control_by_but_infinite_press spec_ops debouncing_button true gpio_low
          3000).button
        [(true, ⟨gpio_low, 4000⟩), (false, ⟨gpio_low, 5000⟩)])
      false gpio_high 9000).button.but_pressed = false :=
  C12_infinite_restore spec_ops debouncing_button true ⟨gpio_low, 3000⟩
    [(true, ⟨gpio_low, 4000⟩), (false, ⟨gpio_low, 5000⟩)] false ⟨gpio_high, 9000⟩
    (by decide) (by decide) (by decide) (by decide)

/-! ## Claim C13: infinite callback dispatch -/

/-- No poll of `callback_control_by_but_infinite_press` invokes a callback: the dispatch
branch asks for a pressed level after the two branches that take every pressed poll. -/
theorem callback_infinite_no_call {τ : Type} (ops : await_ops τ) (b : button_ctx τ)
    (repeats : Nat) (gpio : gpio_dev_t) (now f : Nat) :
    event.call f ∉ (callback_control_by_but_infinite_press ops b repeats gpio now).trace := by
  by_cases hnc : b.PIN = GPIO_NUM_NC
  · simp [callback_control_by_but_infinite_press, hnc]
  · by_cases hl : gpio_level b.PIN b.pull_mode gpio = 0
    · by_cases hp : b.but_pressed = true
      · simp [callback_control_by_but_infinite_press, fast_but_gpio_read_eq, hnc, hl, hp]
      · simp [callback_control_by_but_infinite_press, fast_but_gpio_read_eq, hnc, hl, hp]
    · by_cases hp : b.but_pressed = true
      · by_cases hr :
            (ops.async_await b.LONG_TIME_PRESS_AWAIT now 3 time_unit.TIME_UNIT_S false).1 = true
        · simp [callback_control_by_but_infinite_press, fast_but_gpio_read_eq, hnc, hl, hp, hr]
        · simp [callback_control_by_but_infinite_press, fast_but_gpio_read_eq, hnc, hl, hp, hr]
      · by_cases hr :
            (ops.async_await b.DEBOUNCE_AWAIT now 3 time_unit.TIME_UNIT_MS false).1 = true
        · simp [callback_control_by_but_infinite_press, fast_but_gpio_read_eq, hnc, hl, hp, hr]
        · simp [callback_control_by_but_infinite_press, fast_but_gpio_read_eq, hnc, hl, hp, hr]

/-- Claim C13 fails on the code: the dispatch branch of
`callback_control_by_but_infinite_press` is unreachable.  A fresh pull-up button on pin
4 with `infinite_press_callback` bound (callback `7`) is polled pressed at `0`, `3000`
(debounce confirmed), `4000`, `3004000` (hold timer elapsed) and twice more, then
released: with `repeats = 2` and with `repeats = LOOP_PERFORMANCE` the only effects
are timer operations, and the callback is not invoked in any poll.  The same holds for
every state and input over the timer of the specification. -/
theorem C13_infinite_callback_never_invoked :
    (run_callback (fun b => callback_control_by_but_infinite_press spec_ops b 2)
        ⟨{ fresh_button 4 GPIO_PULLUP_ONLY NO_FIX with infinite_press_callback := some 7 }, []⟩
        [⟨gpio_low, 0⟩, ⟨gpio_low, 3000⟩, ⟨gpio_low, 4000⟩, ⟨gpio_low, 3004000⟩,
          ⟨gpio_low, 3005000⟩, ⟨gpio_low, 3006000⟩, ⟨gpio_high, 3007000⟩]).trace
      = [event.async_await timer_id.DEBOUNCE, event.async_await timer_id.DEBOUNCE,
          event.async_await timer_id.LONG_TIME_PRESS, event.async_await timer_id.LONG_TIME_PRESS,
          event.async_await timer_id.LONG_TIME_PRESS, event.async_await timer_id.LONG_TIME_PRESS,
          event.end_await timer_id.LONG_TIME_PRESS, event.end_await timer_id.DEBOUNCE] ∧
    (run_callback (fun b => callback_control_by_but_infinite_press spec_ops b LOOP_PERFORMANCE)
        ⟨{ fresh_button 4 GPIO_PULLUP_ONLY NO_FIX with infinite_press_callback := some 7 }, []⟩
        [⟨gpio_low, 0⟩, ⟨gpio_low, 3000⟩, ⟨gpio_low, 4000⟩, ⟨gpio_low, 3004000⟩,
          ⟨gpio_low, 3005000⟩, ⟨gpio_low, 3006000⟩, ⟨gpio_high, 3007000⟩]).trace
      = [event.async_await timer_id.DEBOUNCE, event.async_await timer_id.DEBOUNCE,
          event.async_await timer_id.LONG_TIME_PRESS, event.async_await timer_id.LONG_TIME_PRESS,
          event.async_await timer_id.LONG_TIME_PRESS, event.async_await timer_id.LONG_TIME_PRESS,
          event.end_await timer_id.LONG_TIME_PRESS, event.end_await timer_id.DEBOUNCE] ∧
    (∀ (b : button_ctx async_await_ctx) (repeats : Nat) (gpio : gpio_dev_t) (now f : Nat),
      event.call f ∉ (callback_control_by_but_infinite_press spec_ops b repeats gpio now).trace) :=
  ⟨by decide, by decide, fun b repeats gpio now f =>
    callback_infinite_no_call spec_ops b repeats gpio now f⟩

/-! ## Claim C14: onetime callback invocation count -/

/-- Claim C14: in a poll of `callback_control_by_but_onetime_press` that fires (connected
pin, `but_pressed = true`, `mt_permission = true`, level released), the effects are the
callback invocations followed by the stop of the debounce timer: a bound callback `f`
is invoked exactly `repeats` times when `repeats ≠ LOOP_PERFORMANCE` (zero times for
`repeats = 0`) and exactly once when `repeats = LOOP_PERFORMANCE`; when no callback is
bound nothing is invoked; in every case `but_pressed` is reset to false. -/
theorem C14_onetime_callback_count {τ : Type} (ops : await_ops τ) (b : button_ctx τ)
    (repeats : Nat) (gpio : gpio_dev_t) (now : Nat)
    (hnc : b.PIN ≠ GPIO_NUM_NC) (hp : b.but_pressed = true) (hm : b.mt_permission = true)
    (hl : fast_but_gpio_read b gpio = 0) :
    (callback_control_by_but_onetime_press ops b repeats gpio now).button.but_pressed = false ∧
    (∀ f, b.onetime_press_callback = some f → repeats ≠ LOOP_PERFORMANCE →
      (callback_control_by_but_onetime_press ops b repeats gpio now).trace
          = List.replicate repeats (event.call f) ++ [event.end_await timer_id.DEBOUNCE] ∧
      invocations f (callback_control_by_but_onetime_press ops b repeats gpio now).trace
          = repeats) ∧
    (∀ f, b.onetime_press_callback = some f → repeats = LOOP_PERFORMANCE →
      (callback_control_by_but_onetime_press ops b repeats gpio now).trace
          = [event.call f, event.end_await timer_id.DEBOUNCE] ∧
      invocations f (callback_control_by_but_onetime_press ops b repeats gpio now).trace = 1) ∧
    (b.onetime_press_callback = none →
      (callback_control_by_but_onetime_press ops b repeats gpio now).trace
          = [event.end_await timer_id.DEBOUNCE]) := by
  rw [fast_but_gpio_read_eq] at hl
  refine ⟨?_, ?_, ?_, ?_⟩
  · simp [callback_control_by_but_onetime_press, fast_but_gpio_read_eq, hnc, hp, hm, hl]
  · intro f hf hr
    have e : (callback_control_by_but_onetime_press ops b repeats gpio now).trace
        = List.replicate repeats (event.call f) ++ [event.end_await timer_id.DEBOUNCE] := by
      simp [callback_control_by_but_onetime_press, fast_but_gpio_read_eq, hnc, hp, hm, hl, hf, hr]
    rw [e]
    refine ⟨rfl, ?_⟩
    simp [invocations, List.count_append, List.count_replicate_self]
  · intro f hf hr
    have e : (callback_control_by_but_onetime_press ops b repeats gpio now).trace
        = [event.call f, event.end_await timer_id.DEBOUNCE] := by
      simp [callback_control_by_but_onetime_press, fast_but_gpio_read_eq, hnc, hp, hm, hl, hf, hr]
    rw [e]
    refine ⟨rfl, ?_⟩
    simp [invocations]
  · intro hf
    simp [callback_control_by_but_onetime_press, fast_but_gpio_read_eq, hnc, hp, hm, hl, hf]

/-- Instance of claim C14: the callback `7` is bound and `repeats = 3`. -/
theorem C14_onetime_callback_count_witness :
    (callback_control_by_but_onetime_press spec_ops confirmed_button 3 gpio_high 9000).trace
      = List.replicate 3 (event.call 7) ++ [event.end_await timer_id.DEBOUNCE] ∧
    invocations 7
      (callback_control_by_but_onetime_press spec_ops confirmed_button 3 gpio_high 9000).trace
      = 3 :=
  (C14_onetime_callback_count spec_ops confirmed_button 3 gpio_high 9000
    (by decide) (by decide) (by decide) (by decide)).2.1 7 (by decide) (by decide)

/-! ## Claim C15: press-count bound -/

/-- The inner multiple-press classifier is the composition of its four stages. -/
theorem multi_inside_eq_stages {τ : Type} (ops : await_ops τ) (b : button_ctx τ)
    (f : Bool) (N : Nat) (gpio : gpio_dev_t) (now : Nat)
    (hN : 1 ≤ N) (hnc : b.PIN ≠ GPIO_NUM_NC) :
    flag_control_by_but_multiple_press_inside ops b f N gpio now
      = multi_stage4 ops
          (multi_stage3 ops
            (multi_stage2 ops
              (multi_stage1 ops
                (if N > b.max_presses_quantity then { b with max_presses_quantity := N }
                  else b)
                f (fast_but_gpio_read b gpio) now)
              (fast_but_gpio_read b gpio))
            N now) := by
  have hN0 : ¬ N < 1 := by omega
  rw [← fast_but_gpio_read_max_update b N gpio]
  unfold flag_control_by_but_multiple_press_inside
  simp only [hN0, hnc, if_false]
  rfl

/-- The first stage changes neither the count nor `max_presses_quantity`. -/
theorem multi_stage1_counter {τ : Type} (ops : await_ops τ) (b : button_ctx τ) (f : Bool)
    (l : Int) (now : Nat) :
    (multi_stage1 ops b f l now).button.presses_counter = b.presses_counter ∧
    (multi_stage1 ops b f l now).button.max_presses_quantity = b.max_presses_quantity := by
  unfold multi_stage1
  dsimp only
  split_ifs <;> simp

/-- The second stage increases the count by at most one and keeps
`max_presses_quantity`. -/
theorem multi_stage2_counter {τ : Type} (ops : await_ops τ) (s : flag_result τ) (l : Int) :
    (multi_stage2 ops s l).button.presses_counter ≤ s.button.presses_counter + 1 ∧
    (multi_stage2 ops s l).button.max_presses_quantity = s.button.max_presses_quantity := by
  unfold multi_stage2
  split_ifs
  · exact ⟨Nat.mod_le _ _, rfl⟩
  · exact ⟨Nat.le_succ _, rfl⟩

/-- The third stage does not increase the count and keeps `max_presses_quantity`. -/
theorem multi_stage3_counter {τ : Type} (ops : await_ops τ) (s : flag_result τ)
    (N now : Nat) :
    (multi_stage3 ops s N now).button.presses_counter ≤ s.button.presses_counter ∧
    (multi_stage3 ops s N now).button.max_presses_quantity = s.button.max_presses_quantity := by
  unfold multi_stage3
  dsimp only
  split_ifs <;> simp

/-- The fourth stage does not increase the count and keeps `max_presses_quantity`. -/
theorem multi_stage4_counter {τ : Type} (ops : await_ops τ) (s : flag_result τ) :
    (multi_stage4 ops s).button.presses_counter ≤ s.button.presses_counter ∧
    (multi_stage4 ops s).button.max_presses_quantity = s.button.max_presses_quantity := by
  unfold multi_stage4
  split_ifs <;> simp

/-- A poll of the inner multiple-press classifier raises `max_presses_quantity` to at
least the target and increases `presses_counter` by at most one. -/
theorem multi_inside_counter_bound {τ : Type} (ops : await_ops τ) (b : button_ctx τ)
    (f : Bool) (N : Nat) (gpio : gpio_dev_t) (now : Nat)
    (hN : 1 ≤ N) (hnc : b.PIN ≠ GPIO_NUM_NC) :
    N ≤ (flag_control_by_but_multiple_press_inside ops b f N gpio now).button.max_presses_quantity ∧
    b.max_presses_quantity
      ≤ (flag_control_by_but_multiple_press_inside ops b f N gpio now).button.max_presses_quantity ∧
    (flag_control_by_but_multiple_press_inside ops b f N gpio now).button.presses_counter
      ≤ b.presses_counter + 1 := by
  rw [multi_inside_eq_stages ops b f N gpio now hN hnc]
  obtain ⟨a1, a2⟩ := multi_stage1_counter ops
    (if N > b.max_presses_quantity then { b with max_presses_quantity := N } else b)
    f (fast_but_gpio_read b gpio) now
  obtain ⟨b1, b2⟩ := multi_stage2_counter ops
    (multi_stage1 ops
      (if N > b.max_presses_quantity then { b with max_presses_quantity := N } else b)
      f (fast_but_gpio_read b gpio) now) (fast_but_gpio_read b gpio)
  obtain ⟨c1, c2⟩ := multi_stage3_counter ops
    (multi_stage2 ops (multi_stage1 ops
      (if N > b.max_presses_quantity then { b with max_presses_quantity := N } else b)
      f (fast_but_gpio_read b gpio) now) (fast_but_gpio_read b gpio)) N now
  obtain ⟨d1, d2⟩ := multi_stage4_counter ops
    (multi_stage3 ops (multi_stage2 ops (multi_stage1 ops
      (if N > b.max_presses_quantity then { b with max_presses_quantity := N } else b)
      f (fast_but_gpio_read b gpio) now) (fast_but_gpio_read b gpio)) N now)
  have e1 : (if N > b.max_presses_quantity then { b with max_presses_quantity := N }
      else b).presses_counter = b.presses_counter := by split_ifs <;> rfl
  have e2 : (if N > b.max_presses_quantity then { b with max_presses_quantity := N }
      else b).max_presses_quantity = max b.max_presses_quantity N := by
    split_ifs with h
    · simp only; omega
    · omega
  rw [d2, c2, b2, a2, e2]
  rw [a1, e1] at b1
  refine ⟨by omega, by omega, by omega⟩

/-- The flag onetime classifier changes neither the count nor `max_presses_quantity`. -/
theorem flag_onetime_counter {τ : Type} (ops : await_ops τ) (b : button_ctx τ) (f : Bool)
    (gpio : gpio_dev_t) (now : Nat) :
    (flag_control_by_but_onetime_press ops b f gpio now).button.presses_counter
      = b.presses_counter ∧
    (flag_control_by_but_onetime_press ops b f gpio now).button.max_presses_quantity
      = b.max_presses_quantity := by
  unfold flag_control_by_but_onetime_press
  dsimp only
  split_ifs <;> simp

/-- The flag longtime classifier changes neither the count nor `max_presses_quantity`. -/
theorem flag_longtime_counter {τ : Type} (ops : await_ops τ) (b : button_ctx τ) (f : Bool)
    (gpio : gpio_dev_t) (now : Nat) :
    (flag_control_by_but_longtime_press ops b f gpio now).button.presses_counter
      = b.presses_counter ∧
    (flag_control_by_but_longtime_press ops b f gpio now).button.max_presses_quantity
      = b.max_presses_quantity := by
  by_cases hnc : b.PIN = GPIO_NUM_NC
  · simp [flag_control_by_but_longtime_press, hnc]
  · by_cases hfix : b.type = FIX
    · simp [flag_control_by_but_longtime_press, hnc, hfix]
    · by_cases hl : gpio_level b.PIN b.pull_mode gpio = 0 <;>
      by_cases hb : b.but_long_pressed = true <;>
      by_cases he : b.long_time_await_end = true <;>
      by_cases hr1 :
        (ops.async_await b.DEBOUNCE_AWAIT now 3 time_unit.TIME_UNIT_MS false).1 = true <;>
      by_cases hr2 :
        (ops.async_await b.LONG_TIME_PRESS_AWAIT now 3 time_unit.TIME_UNIT_S false).1 = true <;>
      simp [flag_control_by_but_longtime_press, fast_but_gpio_read_eq, hnc, hfix, hl, hb, he,
        hr1, hr2]

/-- The flag infinite classifier changes neither the count nor `max_presses_quantity`. -/
theorem flag_infinite_counter {τ : Type} (ops : await_ops τ) (b : button_ctx τ) (f : Bool)
    (gpio : gpio_dev_t) (now : Nat) :
    (flag_control_by_but_infinite_press ops b f gpio now).button.presses_counter
      = b.presses_counter ∧
    (flag_control_by_but_infinite_press ops b f gpio now).button.max_presses_quantity
      = b.max_presses_quantity := by
  unfold flag_control_by_but_infinite_press
  dsimp only
  split_ifs <;> simp

/-- The callback onetime classifier changes neither the count nor
`max_presses_quantity`. -/
theorem callback_onetime_counter {τ : Type} (ops : await_ops τ) (b : button_ctx τ)
    (repeats : Nat) (gpio : gpio_dev_t) (now : Nat) :
    (callback_control_by_but_onetime_press ops b repeats gpio now).button.presses_counter
      = b.presses_counter ∧
    (callback_control_by_but_onetime_press ops b repeats gpio now).button.max_presses_quantity
      = b.max_presses_quantity := by
  unfold callback_control_by_but_onetime_press
  dsimp only
  split_ifs <;> simp

/-- The callback longtime classifier changes neither the count nor
`max_presses_quantity`. -/
theorem callback_longtime_counter {τ : Type} (ops : await_ops τ) (b : button_ctx τ)
    (repeats : Nat) (gpio : gpio_dev_t) (now : Nat) :
    (callback_control_by_but_longtime_press ops b repeats gpio now).button.presses_counter
      = b.presses_counter ∧
    (callback_control_by_but_longtime_press ops b repeats gpio now).button.max_presses_quantity
      = b.max_presses_quantity := by
  unfold callback_control_by_but_longtime_press
  dsimp only
  split_ifs <;> (try split) <;> simp

/-- The callback infinite classifier changes neither the count nor
`max_presses_quantity`. -/
theorem callback_infinite_counter {τ : Type} (ops : await_ops τ) (b : button_ctx τ)
    (repeats : Nat) (gpio : gpio_dev_t) (now : Nat) :
    (callback_control_by_but_infinite_press ops b repeats gpio now).button.presses_counter
      = b.presses_counter ∧
    (callback_control_by_but_infinite_press ops b repeats gpio now).button.max_presses_quantity
      = b.max_presses_quantity := by
  unfold callback_control_by_but_infinite_press
  dsimp only
  split_ifs <;> (try split) <;> simp

/-- The guard wrapper either changes nothing or runs the inner classifier, the latter
only on a connected pin with a target of at least one and a count of at most the
target. -/
theorem multiple_press_wrapper_cases {τ : Type} (ops : await_ops τ)
    (b : button_ctx τ) (f : Bool) (N : Nat) (gpio : gpio_dev_t) (now : Nat) :
    flag_control_by_but_multiple_press ops b f N gpio now = ⟨b, f, []⟩ ∨
    (1 ≤ N ∧ b.PIN ≠ GPIO_NUM_NC ∧ b.presses_counter ≤ N ∧
      flag_control_by_but_multiple_press ops b f N gpio now
        = flag_control_by_but_multiple_press_inside ops b f N gpio now) := by
  by_cases hnc : b.PIN = GPIO_NUM_NC
  · left; simp [flag_control_by_but_multiple_press, hnc]
  · by_cases hN : N < 1
    · left; simp [flag_control_by_but_multiple_press, hN]
    · by_cases h1 : N = 1 ∧ b.presses_counter ≤ 1
      · right
        refine ⟨by omega, hnc, by omega, ?_⟩
        simp [flag_control_by_but_multiple_press, hnc, h1]
      · by_cases h2 : b.presses_counter = N
        · right
          refine ⟨by omega, hnc, by omega, ?_⟩
          simp [flag_control_by_but_multiple_press, hnc, hN, h2]
        · left
          simp [flag_control_by_but_multiple_press, hnc, hN, h1, h2]

/-- The guard wrapper keeps `presses_counter ≤ max_presses_quantity + 1`. -/
theorem multiple_press_wrapper_counter_bound {τ : Type} (ops : await_ops τ)
    (b : button_ctx τ) (f : Bool) (N : Nat) (gpio : gpio_dev_t) (now : Nat)
    (h : b.presses_counter ≤ b.max_presses_quantity + 1) :
    (flag_control_by_but_multiple_press ops b f N gpio now).button.presses_counter
      ≤ (flag_control_by_but_multiple_press ops b f N gpio now).button.max_presses_quantity
        + 1 := by
  rcases multiple_press_wrapper_cases ops b f N gpio now with e | ⟨hN, hnc, hc, e⟩
  · rw [e]; exact h
  · obtain ⟨k1, k2, k3⟩ := multi_inside_counter_bound ops b f N gpio now hN hnc
    rw [e]
    omega

/-- Every entry point of the header except `callback_control_by_but_multiple_press`
keeps `presses_counter ≤ max_presses_quantity + 1`. -/
theorem call_classifier_counter_bound {τ : Type} (ops : await_ops τ) (b : button_ctx τ)
    (c : classifier_call) (gpio : gpio_dev_t) (now : Nat)
    (hc : count_bounded_call c = true)
    (h : b.presses_counter ≤ b.max_presses_quantity + 1) :
    (call_classifier ops b c gpio now).presses_counter
      ≤ (call_classifier ops b c gpio now).max_presses_quantity + 1 := by
  cases c with
  | flag_onetime flag =>
    obtain ⟨e1, e2⟩ := flag_onetime_counter ops b flag gpio now
    simp only [call_classifier, e1, e2]; exact h
  | flag_multiple flag N =>
    exact multiple_press_wrapper_counter_bound ops b flag N gpio now h
  | flag_longtime flag =>
    obtain ⟨e1, e2⟩ := flag_longtime_counter ops b flag gpio now
    simp only [call_classifier, e1, e2]; exact h
  | flag_infinite flag =>
    obtain ⟨e1, e2⟩ := flag_infinite_counter ops b flag gpio now
    simp only [call_classifier, e1, e2]; exact h
  | callback_onetime repeats =>
    obtain ⟨e1, e2⟩ := callback_onetime_counter ops b repeats gpio now
    simp only [call_classifier, e1, e2]; exact h
  | flag_multiple_inside flag N => simp [count_bounded_call] at hc
  | callback_multiple N repeats => simp [count_bounded_call] at hc
  | callback_longtime repeats =>
    obtain ⟨e1, e2⟩ := callback_longtime_counter ops b repeats gpio now
    simp only [call_classifier, e1, e2]; exact h
  | callback_infinite repeats =>
    obtain ⟨e1, e2⟩ := callback_infinite_counter ops b repeats gpio now
    simp only [call_classifier, e1, e2]; exact h

/-- Claim C15 fails on the code.  A fresh pull-up button on pin 4 polled through
`flag_control_by_but_multiple_press` with target 1: after two debounced taps `50 ms`
apart `presses_counter = 2` while `max_presses_quantity = 1`, and the released polls
one and two seconds later leave it so (the guard no longer admits the call).  Polled
through `callback_control_by_but_multiple_press` (target 1) on pressed polls and
`callback_control_by_but_onetime_press` on released polls, three presses give
`presses_counter = 3` while `max_presses_quantity = 1`.  Polled through the inner
function `flag_control_by_but_multiple_press_inside` with target 1, four debounced
taps `50 ms` apart give `presses_counter = 4` while `max_presses_quantity = 1`. -/
theorem C15_count_exceeds_max :
    button_initialization spec_ops 4 GPIO_PULLUP_ONLY NO_FIX
      = some (fresh_button 4 GPIO_PULLUP_ONLY NO_FIX) ∧
    (calls_history spec_ops (fresh_button 4 GPIO_PULLUP_ONLY NO_FIX)
        [(classifier_call.flag_multiple false 1, ⟨gpio_low, 0⟩),
          (classifier_call.flag_multiple false 1, ⟨gpio_low, 3000⟩),
          (classifier_call.flag_multiple false 1, ⟨gpio_high, 4000⟩),
          (classifier_call.flag_multiple false 1, ⟨gpio_low, 54000⟩),
          (classifier_call.flag_multiple false 1, ⟨gpio_low, 57000⟩),
          (classifier_call.flag_multiple false 1, ⟨gpio_high, 58000⟩),
          (classifier_call.flag_multiple false 1, ⟨gpio_high, 1058000⟩),
          (classifier_call.flag_multiple false 1, ⟨gpio_high, 2058000⟩)]).map
        (fun b => (b.presses_counter, b.max_presses_quantity))
      = [(0, 1), (0, 1), (1, 1), (1, 1), (1, 1), (2, 1), (2, 1), (2, 1)] ∧
    (calls_history spec_ops (fresh_button 4 GPIO_PULLUP_ONLY NO_FIX)
        [(classifier_call.callback_multiple 1 1, ⟨gpio_low, 0⟩),
          (classifier_call.callback_multiple 1 1, ⟨gpio_low, 3000⟩),
          (classifier_call.callback_onetime 1, ⟨gpio_high, 4000⟩),
          (classifier_call.callback_multiple 1 1, ⟨gpio_low, 5000⟩),
          (classifier_call.callback_multiple 1 1, ⟨gpio_low, 8000⟩),
          (classifier_call.callback_onetime 1, ⟨gpio_high, 9000⟩),
          (classifier_call.callback_multiple 1 1, ⟨gpio_low, 10000⟩),
          (classifier_call.callback_multiple 1 1, ⟨gpio_low, 13000⟩)]).map
        (fun b => (b.presses_counter, b.max_presses_quantity))
      = [(0, 1), (1, 1), (1, 1), (1, 1), (2, 1), (2, 1), (2, 1), (3, 1)] ∧
    (calls_history spec_ops (fresh_button 4 GPIO_PULLUP_ONLY NO_FIX)
        [(classifier_call.flag_multiple_inside false 1, ⟨gpio_low, 0⟩),
          (classifier_call.flag_multiple_inside false 1, ⟨gpio_low, 3000⟩),
          (classifier_call.flag_multiple_inside false 1, ⟨gpio_high, 4000⟩),
          (classifier_call.flag_multiple_inside false 1, ⟨gpio_low, 50000⟩),
          (classifier_call.flag_multiple_inside false 1, ⟨gpio_low, 53000⟩),
          (classifier_call.flag_multiple_inside false 1, ⟨gpio_high, 54000⟩),
          (classifier_call.flag_multiple_inside false 1, ⟨gpio_low, 100000⟩),
          (classifier_call.flag_multiple_inside false 1, ⟨gpio_low, 103000⟩),
          (classifier_call.flag_multiple_inside false 1, ⟨gpio_high, 104000⟩),
          (classifier_call.flag_multiple_inside false 1, ⟨gpio_low, 150000⟩),
          (classifier_call.flag_multiple_inside false 1, ⟨gpio_low, 153000⟩),
          (classifier_call.flag_multiple_inside false 1, ⟨gpio_high, 154000⟩)]).map
        (fun b => (b.presses_counter, b.max_presses_quantity))
      = [(0, 1), (0, 1), (1, 1), (1, 1), (1, 1), (2, 1), (2, 1), (2, 1), (3, 1), (3, 1),
          (3, 1), (4, 1)] := by
  decide

/-- Claim C15, as the code has it: in every state reached from a freshly initialised
button by any sequence of calls of the entry points declared in `button_control.h`
other than `callback_control_by_but_multiple_press` (any levels, timer reports, flags,
`presses_quantity` and `repeats`; the inner function
`flag_control_by_but_multiple_press_inside` is reached through its guard wrapper
only), `presses_counter ≤ max_presses_quantity + 1` holds after each call. -/
theorem C15_press_count_bound {τ : Type} (ops : await_ops τ) (PIN pull_mode type : Int)
    (b0 : button_ctx τ) (calls : List (classifier_call × poll))
    (hinit : button_initialization ops PIN pull_mode type = some b0)
    (hcalls : ∀ c ∈ calls, count_bounded_call c.1 = true) :
    ∀ b ∈ calls_history ops b0 calls, b.presses_counter ≤ b.max_presses_quantity + 1 := by
  have h0 : b0.presses_counter ≤ b0.max_presses_quantity + 1 := by
    unfold button_initialization at hinit
    split_ifs at hinit
    simp only [Option.some.injEq] at hinit
    subst hinit
    simp
  clear hinit
  induction calls generalizing b0 with
  | nil => intro b hb; simp [calls_history] at hb
  | cons x xs ih =>
    obtain ⟨c, p⟩ := x
    have h1 := call_classifier_counter_bound ops b0 c p.gpio p.now
      (hcalls (c, p) (by simp)) h0
    intro b hb
    simp only [calls_history, List.mem_cons] at hb
    rcases hb with rfl | hb
    · exact h1
    · exact ih _ (fun c' hc' => hcalls c' (by simp [hc'])) h1 b hb

/-- Instance of claim C15 as the code has it: two taps through the guard wrapper with
target 1 (count `2`, maximum `1`), followed by a poll of the flag longtime classifier. -/
theorem C15_press_count_bound_witness :
    (calls_history spec_ops (fresh_button 4 GPIO_PULLUP_ONLY NO_FIX)
        [(classifier_call.flag_multiple false 1, ⟨gpio_low, 0⟩),
          (classifier_call.flag_multiple false 1, ⟨gpio_low, 3000⟩),
          (classifier_call.flag_multiple false 1, ⟨gpio_high, 4000⟩),
          (classifier_call.flag_multiple false 1, ⟨gpio_low, 54000⟩),
          (classifier_call.flag_multiple false 1, ⟨gpio_low, 57000⟩),
          (classifier_call.flag_multiple false 1, ⟨gpio_high, 58000⟩),
          (classifier_call.flag_longtime false, ⟨gpio_high, 59000⟩)]).all
      (fun b => decide (b.presses_counter ≤ b.max_presses_quantity + 1)) = true :=
  List.all_eq_true.mpr (fun b hb => decide_eq_true
    (C15_press_count_bound spec_ops 4 GPIO_PULLUP_ONLY NO_FIX
      (fresh_button 4 GPIO_PULLUP_ONLY NO_FIX) _ (by decide) (by decide) b hb))

/-! ## Claim C16: press-count increment condition -/

/-- Claim C16 fails on the code for the callback variant:
`callback_control_by_but_multiple_press` counts a press in the pressed poll that
confirms debounce, not in the released poll that completes the cycle.  A fresh
pull-up button on pin 4 polled with target 1: pressed at `0` and `3000` microseconds
(the level reads pressed in both polls), released at `4000`; `presses_counter` is
`0`, `1`, `1` after the three polls.  The flag variant
`flag_control_by_but_multiple_press_inside` on the same polls counts the press in the
released poll: `0`, `0`, `1`. -/
theorem C16_callback_counts_on_press :
    fast_but_gpio_read (fresh_button 4 GPIO_PULLUP_ONLY NO_FIX) gpio_low ≠ 0 ∧
    fast_but_gpio_read (fresh_button 4 GPIO_PULLUP_ONLY NO_FIX) gpio_high = 0 ∧
    (calls_history spec_ops (fresh_button 4 GPIO_PULLUP_ONLY NO_FIX)
        [(classifier_call.callback_multiple 1 1, ⟨gpio_low, 0⟩),
          (classifier_call.callback_multiple 1 1, ⟨gpio_low, 3000⟩),
          (classifier_call.callback_multiple 1 1, ⟨gpio_high, 4000⟩)]).map
        (fun b => b.presses_counter) = [0, 1, 1] ∧
    (button_history (fun b f => flag_control_by_but_multiple_press_inside spec_ops b f 1)
        (fresh_button 4 GPIO_PULLUP_ONLY NO_FIX) false
        [⟨gpio_low, 0⟩, ⟨gpio_low, 3000⟩, ⟨gpio_high, 4000⟩]).map
        (fun b => b.presses_counter) = [0, 0, 1] := by
  decide

/-! ## Claim C17: long-press hold and the press count -/

/-- The first stage keeps `long_time_await_end`; it either confirms a press (pressed
level, `mt_permission` and `but_pressed` set) or keeps both fields. -/
theorem multi_stage1_fields {τ : Type} (ops : await_ops τ) (b : button_ctx τ) (f : Bool)
    (l : Int) (now : Nat) :
    (multi_stage1 ops b f l now).button.long_time_await_end = b.long_time_await_end ∧
    (((multi_stage1 ops b f l now).button.mt_permission = true ∧
        (multi_stage1 ops b f l now).button.but_pressed = true ∧ l ≠ 0) ∨
      ((multi_stage1 ops b f l now).button.mt_permission = b.mt_permission ∧
        (multi_stage1 ops b f l now).button.but_pressed = b.but_pressed)) := by
  unfold multi_stage1
  dsimp only
  split_ifs with h1 h2
  · exact ⟨rfl, Or.inl ⟨rfl, rfl, h1.2⟩⟩
  · exact ⟨rfl, Or.inr ⟨rfl, rfl⟩⟩
  · exact ⟨rfl, Or.inr ⟨rfl, rfl⟩⟩

/-- The second stage does nothing on a pressed level. -/
theorem multi_stage2_pressed {τ : Type} (ops : await_ops τ) (s : flag_result τ) (l : Int)
    (hl : l ≠ 0) : multi_stage2 ops s l = s := by
  simp [multi_stage2, hl]

/-- The second stage on a released level counts a confirmed press and keeps
`mt_permission` and `long_time_await_end`. -/
theorem multi_stage2_released {τ : Type} (ops : await_ops τ) (s : flag_result τ) (l : Int)
    (hl : l = 0) :
    (multi_stage2 ops s l).button.presses_counter
      = (if s.button.but_pressed = true then (s.button.presses_counter + 1) % 2 ^ 32
          else s.button.presses_counter) ∧
    (multi_stage2 ops s l).button.mt_permission = s.button.mt_permission ∧
    (multi_stage2 ops s l).button.long_time_await_end = s.button.long_time_await_end := by
  unfold multi_stage2
  split_ifs with h1 h2 h2
  · exact ⟨rfl, rfl, rfl⟩
  · exact absurd h1.1 h2
  · exact absurd ⟨h2, hl⟩ h1
  · exact ⟨rfl, rfl, rfl⟩

/-- The third stage does nothing unless permission is held and no press is pending. -/
theorem multi_stage3_skip {τ : Type} (ops : await_ops τ) (s : flag_result τ) (N now : Nat)
    (h : ¬ (s.button.mt_permission = true ∧ s.button.but_pressed = false)) :
    multi_stage3 ops s N now = s := by
  unfold multi_stage3
  rw [if_neg]
  intro hc
  exact h hc.2

/-- The fourth stage does nothing while the long-press window is open or permission is
held. -/
theorem multi_stage4_skip {τ : Type} (ops : await_ops τ) (s : flag_result τ)
    (h : ¬ (s.button.mt_permission = false ∧ s.button.long_time_await_end = true)) :
    multi_stage4 ops s = s := by
  unfold multi_stage4
  rw [if_neg h]

/-- Claim C17 fails on the code: the poll that counts a press does not consult
`mt_permission` or `but_long_pressed`.  `held_tap_button` is the state reached by
polling `flag_control_by_but_multiple_press` (target 1) and then
`flag_control_by_but_longtime_press` in every tick of a hold that began at `1000`
microseconds; in it `but_long_pressed = true`, `mt_permission = false` and
`long_time_await_end = false`.  A poll of
`flag_control_by_but_multiple_press_inside` with the level released (the button let
go at `6000`, before the `3 s`) increases `presses_counter` from `0` to `1`. -/
theorem C17_release_during_hold_counts :
    (calls_history spec_ops (fresh_button 4 GPIO_PULLUP_ONLY NO_FIX)
        [(classifier_call.flag_multiple false 1, ⟨gpio_high, 0⟩),
          (classifier_call.flag_longtime false, ⟨gpio_high, 0⟩),
          (classifier_call.flag_multiple false 1, ⟨gpio_low, 1000⟩),
          (classifier_call.flag_longtime false, ⟨gpio_low, 1000⟩),
          (classifier_call.flag_multiple false 1, ⟨gpio_low, 4000⟩),
          (classifier_call.flag_longtime false, ⟨gpio_low, 4000⟩),
          (classifier_call.flag_multiple false 1, ⟨gpio_low, 5000⟩),
          (classifier_call.flag_longtime false, ⟨gpio_low, 5000⟩)]).getLast?
      = some held_tap_button ∧
    held_tap_button.but_long_pressed = true ∧
    held_tap_button.mt_permission = false ∧
    held_tap_button.long_time_await_end = false ∧
    held_tap_button.presses_counter = 0 ∧
    (flag_control_by_but_multiple_press_inside spec_ops held_tap_button false 1 gpio_high
        6000).button.presses_counter = 1 := by
  decide

/-- Claim C17, as the code has it: for every button state in which a long-press hold is
active and not yet fired (`but_long_pressed = true`, `mt_permission = false`,
`long_time_await_end = false`), a poll of `flag_control_by_but_multiple_press_inside`
leaves `presses_counter` unchanged when the level is pressed (whatever the timers
report) and when the level is released with `but_pressed = false`; a released poll
with a confirmed press pending (`but_pressed = true`, connected pin, target at least
one) increments `presses_counter` by one. -/
theorem C17_hold_active_count {τ : Type} (ops : await_ops τ) (b : button_ctx τ)
    (f : Bool) (N : Nat) (gpio : gpio_dev_t) (now : Nat)
    (hb : b.but_long_pressed = true) (hm : b.mt_permission = false)
    (he : b.long_time_await_end = false) :
    (fast_but_gpio_read b gpio ≠ 0 →
      (flag_control_by_but_multiple_press_inside ops b f N gpio now).button.presses_counter
        = b.presses_counter) ∧
    (fast_but_gpio_read b gpio = 0 → b.but_pressed = false →
      (flag_control_by_but_multiple_press_inside ops b f N gpio now).button.presses_counter
        = b.presses_counter) ∧
    (fast_but_gpio_read b gpio = 0 → b.but_pressed = true → 1 ≤ N → b.PIN ≠ GPIO_NUM_NC →
      (flag_control_by_but_multiple_press_inside ops b f N gpio now).button.presses_counter
        = (b.presses_counter + 1) % 2 ^ 32) := by
  have _ := hb
  by_cases hg : 1 ≤ N ∧ b.PIN ≠ GPIO_NUM_NC
  · obtain ⟨hN, hnc⟩ := hg
    rw [multi_inside_eq_stages ops b f N gpio now hN hnc]
    -- the record after the update of max_presses_quantity
    have e0 : ∀ b' : button_ctx τ,
        b' = (if N > b.max_presses_quantity then { b with max_presses_quantity := N } else b) →
        b'.presses_counter = b.presses_counter ∧ b'.mt_permission = false ∧
        b'.long_time_await_end = false ∧ b'.but_pressed = b.but_pressed := by
      intro b' hb'
      subst hb'
      split_ifs
      · exact ⟨rfl, hm, he, rfl⟩
      · exact ⟨rfl, hm, he, rfl⟩
    generalize hb' : (if N > b.max_presses_quantity then { b with max_presses_quantity := N }
      else b) = b' at *
    obtain ⟨i1, i2, i3, i4⟩ := e0 b' rfl
    obtain ⟨a1, a2⟩ := multi_stage1_counter ops b' f (fast_but_gpio_read b gpio) now
    obtain ⟨a3, a4⟩ := multi_stage1_fields ops b' f (fast_but_gpio_read b gpio) now
    refine ⟨?_, ?_, ?_⟩
    · intro hl
      rw [multi_stage2_pressed ops _ _ hl]
      rw [multi_stage3_skip ops _ N now (by
        rcases a4 with ⟨_, h2, _⟩ | ⟨h1, _⟩
        · intro hc; rw [h2] at hc; exact absurd hc.2 (by simp)
        · intro hc; rw [h1, i2] at hc; exact absurd hc.1 (by simp))]
      rw [multi_stage4_skip ops _ (by
        intro hc; rw [a3, i3] at hc; exact absurd hc.2 (by simp))]
      rw [a1, i1]
    · intro hl hp
      obtain ⟨k1, k2, k3⟩ := multi_stage2_released ops
        (multi_stage1 ops b' f (fast_but_gpio_read b gpio) now) (fast_but_gpio_read b gpio) hl
      have hbp : (multi_stage1 ops b' f (fast_but_gpio_read b gpio) now).button.but_pressed
          = false := by
        rcases a4 with ⟨_, _, h3⟩ | ⟨_, h2⟩
        · exact absurd hl h3
        · rw [h2, i4, hp]
      have hmt : (multi_stage1 ops b' f (fast_but_gpio_read b gpio) now).button.mt_permission
          = false := by
        rcases a4 with ⟨_, _, h3⟩ | ⟨h1, _⟩
        · exact absurd hl h3
        · rw [h1, i2]
      rw [multi_stage4_skip ops _ (by
        intro hc
        rw [multi_stage3_skip ops _ N now (by intro hc'; rw [k2, hmt] at hc'; simp at hc')] at hc
        rw [k3, a3, i3] at hc
        exact absurd hc.2 (by simp))]
      rw [multi_stage3_skip ops _ N now (by intro hc'; rw [k2, hmt] at hc'; simp at hc')]
      rw [k1, hbp, a1, i1]
      simp
    · intro hl hp _ _
      obtain ⟨k1, k2, k3⟩ := multi_stage2_released ops
        (multi_stage1 ops b' f (fast_but_gpio_read b gpio) now) (fast_but_gpio_read b gpio) hl
      have hbp : (multi_stage1 ops b' f (fast_but_gpio_read b gpio) now).button.but_pressed
          = true := by
        rcases a4 with ⟨_, _, h3⟩ | ⟨_, h2⟩
        · exact absurd hl h3
        · rw [h2, i4, hp]
      have hmt : (multi_stage1 ops b' f (fast_but_gpio_read b gpio) now).button.mt_permission
          = false := by
        rcases a4 with ⟨_, _, h3⟩ | ⟨h1, _⟩
        · exact absurd hl h3
        · rw [h1, i2]
      rw [multi_stage4_skip ops _ (by
        intro hc
        rw [multi_stage3_skip ops _ N now (by intro hc'; rw [k2, hmt] at hc'; simp at hc')] at hc
        rw [k3, a3, i3] at hc
        exact absurd hc.2 (by simp))]
      rw [multi_stage3_skip ops _ N now (by intro hc'; rw [k2, hmt] at hc'; simp at hc')]
      rw [k1, hbp, a1, i1]
      simp
  · have e : flag_control_by_but_multiple_press_inside ops b f N gpio now = ⟨b, f, []⟩ := by
      by_cases hN : N < 1
      · simp [flag_control_by_but_multiple_press_inside, hN]
      · have hnc : b.PIN = GPIO_NUM_NC := by
          by_contra hc
          exact hg ⟨by omega, hc⟩
        simp [flag_control_by_but_multiple_press_inside, hnc]
    rw [e]
    refine ⟨fun _ => rfl, fun _ _ => rfl, ?_⟩
    intro _ _ hN hnc
    exact absurd ⟨hN, hnc⟩ hg

/-- Instance of claim C17 as the code has it: a pressed poll during the hold keeps the
count. -/
theorem C17_hold_active_count_witness :
    (flag_control_by_but_multiple_press_inside spec_ops held_tap_button false 1 gpio_low
        6000).button.presses_counter = held_tap_button.presses_counter :=
  (C17_hold_active_count spec_ops held_tap_button false 1 gpio_low 6000
    (by decide) (by decide) (by decide)).1 (by decide)

/-! ## Claim C19: onetime flag fire step -/

/-- Claim C19: for every `NO_FIX` button state, a poll of
`flag_control_by_but_onetime_press` that reads the level (the pin is connected; a
record with the unconnected sentinel is returned before the level is read) and finds
it released: if `but_pressed = true`, `mt_permission = true` and
`one_time_block = false` it negates the flag, sets `but_pressed = false` and
`one_time_block = true`, stops the debounce and the long-press timer and leaves every
other field unchanged; if one of the three conditions is false it changes nothing. -/
theorem C19_onetime_fire_step {τ : Type} (ops : await_ops τ) (b : button_ctx τ)
    (f : Bool) (gpio : gpio_dev_t) (now : Nat)
    (hnc : b.PIN ≠ GPIO_NUM_NC) (hty : b.type = NO_FIX)
    (hl : fast_but_gpio_read b gpio = 0) :
    (b.but_pressed = true → b.mt_permission = true → b.one_time_block = false →
      flag_control_by_but_onetime_press ops b f gpio now
        = ⟨{ b with
              DEBOUNCE_AWAIT := ops.end_await b.DEBOUNCE_AWAIT
              LONG_TIME_PRESS_AWAIT := ops.end_await b.LONG_TIME_PRESS_AWAIT
              but_pressed := false
              one_time_block := true },
            !f,
            [event.end_await timer_id.DEBOUNCE, event.end_await timer_id.LONG_TIME_PRESS]⟩) ∧
    (¬ (b.but_pressed = true ∧ b.mt_permission = true ∧ b.one_time_block = false) →
      flag_control_by_but_onetime_press ops b f gpio now = ⟨b, f, []⟩) := by
  have hfix : b.type ≠ FIX := by rw [hty]; decide
  constructor
  · intro hp hm hb
    simp [flag_control_by_but_onetime_press, hnc, hfix, hl, hp, hm, hb]
  · intro h
    by_cases hp : b.but_pressed = true
    · by_cases hm : b.mt_permission = true
      · have hb : ¬ (b.one_time_block = false) := fun hb => h ⟨hp, hm, hb⟩
        simp [flag_control_by_but_onetime_press, hnc, hfix, hl, hp, hm, hb]
      · simp [flag_control_by_but_onetime_press, hnc, hfix, hl, hp, hm]
    · simp [flag_control_by_but_onetime_press, hnc, hfix, hl, hp]

/-- Instance of claim C19: a confirmed press on pin 4 is released. -/
theorem C19_onetime_fire_step_witness :
    flag_control_by_but_onetime_press spec_ops confirmed_button false gpio_high 9000
      = ⟨{ confirmed_button with
            DEBOUNCE_AWAIT := spec_ops.end_await confirmed_button.DEBOUNCE_AWAIT
            LONG_TIME_PRESS_AWAIT := spec_ops.end_await confirmed_button.LONG_TIME_PRESS_AWAIT
            but_pressed := false
            one_time_block := true },
          !false,
          [event.end_await timer_id.DEBOUNCE, event.end_await timer_id.LONG_TIME_PRESS]⟩ :=
  (C19_onetime_fire_step spec_ops confirmed_button false gpio_high 9000
    (by decide) (by decide) (by decide)).1 (by decide) (by decide) (by decide)

/-! ## Claim C20: onetime callback lockout -/

/-- Claim C20 fails on the code: `callback_control_by_but_onetime_press` has no lockout.
With a confirmed press pending on pin 4, the callback `7` bound and `repeats = 1`, a
released poll fires although `one_time_block = true` (the flag variant changes
nothing in that state); and a firing poll from `one_time_block = false` with the
long-press timer armed stops only the debounce timer, leaves the long-press timer
armed and leaves `one_time_block = false`. -/
theorem C20_callback_fires_without_lockout :
    (callback_control_by_but_onetime_press spec_ops
        { confirmed_button with one_time_block := true } 1 gpio_high 9000).trace
      = [event.call 7, event.end_await timer_id.DEBOUNCE] ∧
    flag_control_by_but_onetime_press spec_ops
        { confirmed_button with one_time_block := true } false gpio_high 9000
      = ⟨{ confirmed_button with one_time_block := true }, false, []⟩ ∧
    callback_control_by_but_onetime_press spec_ops
        { confirmed_button with LONG_TIME_PRESS_AWAIT := ⟨true, 100, false⟩ } 1 gpio_high 9000
      = ⟨{ confirmed_button with
            LONG_TIME_PRESS_AWAIT := ⟨true, 100, false⟩
            DEBOUNCE_AWAIT := ⟨false, 0, false⟩
            but_pressed := false },
          [event.call 7, event.end_await timer_id.DEBOUNCE]⟩ ∧
    ({ confirmed_button with
        LONG_TIME_PRESS_AWAIT := ⟨true, 100, false⟩
        DEBOUNCE_AWAIT := ⟨false, 0, false⟩
        but_pressed := false } : button_ctx async_await_ctx).one_time_block = false := by
  decide

/-! ## Claim C18: re-invocation -/

/-- Over the timer of the specification, a second call of the flag onetime classifier
with the same registers and clock value changes neither the record nor the flag. -/
theorem flag_onetime_idempotent (b : button_ctx async_await_ctx) (f : Bool)
    (gpio : gpio_dev_t) (now : Nat) :
    (flag_control_by_but_onetime_press spec_ops
        (flag_control_by_but_onetime_press spec_ops b f gpio now).button
        (flag_control_by_but_onetime_press spec_ops b f gpio now).flag gpio now).button
      = (flag_control_by_but_onetime_press spec_ops b f gpio now).button ∧
    (flag_control_by_but_onetime_press spec_ops
        (flag_control_by_but_onetime_press spec_ops b f gpio now).button
        (flag_control_by_but_onetime_press spec_ops b f gpio now).flag gpio now).flag
      = (flag_control_by_but_onetime_press spec_ops b f gpio now).flag := by
  by_cases hnc : b.PIN = GPIO_NUM_NC
  · simp [flag_control_by_but_onetime_press, hnc]
  · by_cases hfix : b.type = FIX
    · simp [flag_control_by_but_onetime_press, hnc, hfix]
    · by_cases hl : gpio_level b.PIN b.pull_mode gpio = 0
      · by_cases hp : b.but_pressed = true
        · by_cases hm : b.mt_permission = true
          · by_cases hb : b.one_time_block = true
            · simp [flag_control_by_but_onetime_press, fast_but_gpio_read_eq, hnc, hfix, hl, hp,
                hm, hb]
            · simp [flag_control_by_but_onetime_press, fast_but_gpio_read_eq, hnc, hfix, hl, hp,
                hm, hb]
          · simp [flag_control_by_but_onetime_press, fast_but_gpio_read_eq, hnc, hfix, hl, hp, hm]
        · simp [flag_control_by_but_onetime_press, fast_but_gpio_read_eq, hnc, hfix, hl, hp]
      · by_cases hp : b.but_pressed = true
        · simp [flag_control_by_but_onetime_press, fast_but_gpio_read_eq, hnc, hfix, hl, hp]
        · by_cases hs : b.DEBOUNCE_AWAIT.start_flag = true
          · by_cases ht : b.DEBOUNCE_AWAIT.start_time + 3000 ≤ now
            · have h1 := async_await_armed_elapsed b.DEBOUNCE_AWAIT now 3
                b.DEBOUNCE_AWAIT.start_time time_unit.TIME_UNIT_MS hs rfl ht
              simp [flag_control_by_but_onetime_press, fast_but_gpio_read_eq, hnc, hfix, hl, hp,
                spec_ops, h1]
            · have h1 := async_await_armed_early b.DEBOUNCE_AWAIT now 3
                b.DEBOUNCE_AWAIT.start_time time_unit.TIME_UNIT_MS false hs rfl ht
              have h2 := async_await_armed_early
                ⟨true, b.DEBOUNCE_AWAIT.start_time, false⟩ now 3
                b.DEBOUNCE_AWAIT.start_time time_unit.TIME_UNIT_MS false rfl rfl ht
              simp [flag_control_by_but_onetime_press, fast_but_gpio_read_eq, hnc, hfix, hl, hp,
                spec_ops, h1, h2]
          · have hs' : b.DEBOUNCE_AWAIT.start_flag = false := by simpa using hs
            have h1 := async_await_unarmed b.DEBOUNCE_AWAIT now 3 time_unit.TIME_UNIT_MS false
              hs' (by decide)
            have h2 := async_await_armed_early ⟨true, now, false⟩ now 3 now
              time_unit.TIME_UNIT_MS false rfl rfl (by simp [duration_us])
            simp [flag_control_by_but_onetime_press, fast_but_gpio_read_eq, hnc, hfix, hl, hp,
              spec_ops, h1, h2]

/-- Over the timer of the specification, a second call of the flag infinite classifier
with the same registers and clock value changes neither the record nor the flag. -/
theorem flag_infinite_idempotent (b : button_ctx async_await_ctx) (f : Bool)
    (gpio : gpio_dev_t) (now : Nat) :
    (flag_control_by_but_infinite_press spec_ops
        (flag_control_by_but_infinite_press spec_ops b f gpio now).button
        (flag_control_by_but_infinite_press spec_ops b f gpio now).flag gpio now).button
      = (flag_control_by_but_infinite_press spec_ops b f gpio now).button ∧
    (flag_control_by_but_infinite_press spec_ops
        (flag_control_by_but_infinite_press spec_ops b f gpio now).button
        (flag_control_by_but_infinite_press spec_ops b f gpio now).flag gpio now).flag
      = (flag_control_by_but_infinite_press spec_ops b f gpio now).flag := by
  by_cases hnc : b.PIN = GPIO_NUM_NC
  · simp [flag_control_by_but_infinite_press, hnc]
  · by_cases hl : gpio_level b.PIN b.pull_mode gpio = 0
    · by_cases hp : b.but_pressed = true
      · simp [flag_control_by_but_infinite_press, fast_but_gpio_read_eq, hnc, hl, hp]
      · simp [flag_control_by_but_infinite_press, fast_but_gpio_read_eq, hnc, hl, hp]
    · by_cases hp : b.but_pressed = true
      · simp [flag_control_by_but_infinite_press, fast_but_gpio_read_eq, hnc, hl, hp]
      · by_cases hs : b.DEBOUNCE_AWAIT.start_flag = true
        · by_cases ht : b.DEBOUNCE_AWAIT.start_time + 3000 ≤ now
          · have h1 := async_await_armed_elapsed b.DEBOUNCE_AWAIT now 3
              b.DEBOUNCE_AWAIT.start_time time_unit.TIME_UNIT_MS hs rfl ht
            simp [flag_control_by_but_infinite_press, fast_but_gpio_read_eq, hnc, hl, hp,
              spec_ops, h1]
          · have h1 := async_await_armed_early b.DEBOUNCE_AWAIT now 3
              b.DEBOUNCE_AWAIT.start_time time_unit.TIME_UNIT_MS false hs rfl ht
            have h2 := async_await_armed_early
              ⟨true, b.DEBOUNCE_AWAIT.start_time, false⟩ now 3
              b.DEBOUNCE_AWAIT.start_time time_unit.TIME_UNIT_MS false rfl rfl ht
            simp [flag_control_by_but_infinite_press, fast_but_gpio_read_eq, hnc, hl, hp,
              spec_ops, h1, h2]
        · have hs' : b.DEBOUNCE_AWAIT.start_flag = false := by simpa using hs
          have h1 := async_await_unarmed b.DEBOUNCE_AWAIT now 3 time_unit.TIME_UNIT_MS false
            hs' (by decide)
          have h2 := async_await_armed_early ⟨true, now, false⟩ now 3 now
            time_unit.TIME_UNIT_MS false rfl rfl (by simp [duration_us])
          simp [flag_control_by_but_infinite_press, fast_but_gpio_read_eq, hnc, hl, hp,
            spec_ops, h1, h2]

/-- Over the timer of the specification, a second call of the callback onetime
classifier with the same registers and clock value does not change the record. -/
theorem callback_onetime_idempotent (b : button_ctx async_await_ctx) (repeats : Nat)
    (gpio : gpio_dev_t) (now : Nat) :
    (callback_control_by_but_onetime_press spec_ops
        (callback_control_by_but_onetime_press spec_ops b repeats gpio now).button
        repeats gpio now).button
      = (callback_control_by_but_onetime_press spec_ops b repeats gpio now).button := by
  by_cases hnc : b.PIN = GPIO_NUM_NC
  · simp [callback_control_by_but_onetime_press, hnc]
  · by_cases hl : gpio_level b.PIN b.pull_mode gpio = 0
    · by_cases hp : b.but_pressed = true
      · by_cases hm : b.mt_permission = true
        · simp [callback_control_by_but_onetime_press, fast_but_gpio_read_eq, hnc, hl, hp, hm]
        · simp [callback_control_by_but_onetime_press, fast_but_gpio_read_eq, hnc, hl, hp, hm]
      · simp [callback_control_by_but_onetime_press, fast_but_gpio_read_eq, hnc, hl, hp]
    · by_cases hp : b.but_pressed = true
      · simp [callback_control_by_but_onetime_press, fast_but_gpio_read_eq, hnc, hl, hp]
      · by_cases hs : b.DEBOUNCE_AWAIT.start_flag = true
        · by_cases ht : b.DEBOUNCE_AWAIT.start_time + 3000 ≤ now
          · have h1 := async_await_armed_elapsed b.DEBOUNCE_AWAIT now 3
              b.DEBOUNCE_AWAIT.start_time time_unit.TIME_UNIT_MS hs rfl ht
            simp [callback_control_by_but_onetime_press, fast_but_gpio_read_eq, hnc, hl, hp,
              spec_ops, h1]
          · have h1 := async_await_armed_early b.DEBOUNCE_AWAIT now 3
              b.DEBOUNCE_AWAIT.start_time time_unit.TIME_UNIT_MS false hs rfl ht
            have h2 := async_await_armed_early
              ⟨true, b.DEBOUNCE_AWAIT.start_time, false⟩ now 3
              b.DEBOUNCE_AWAIT.start_time time_unit.TIME_UNIT_MS false rfl rfl ht
            simp [callback_control_by_but_onetime_press, fast_but_gpio_read_eq, hnc, hl, hp,
              spec_ops, h1, h2]
        · have hs' : b.DEBOUNCE_AWAIT.start_flag = false := by simpa using hs
          have h1 := async_await_unarmed b.DEBOUNCE_AWAIT now 3 time_unit.TIME_UNIT_MS false
            hs' (by decide)
          have h2 := async_await_armed_early ⟨true, now, false⟩ now 3 now
            time_unit.TIME_UNIT_MS false rfl rfl (by simp [duration_us])
          simp [callback_control_by_but_onetime_press, fast_but_gpio_read_eq, hnc, hl, hp,
            spec_ops, h1, h2]

/-- The timer of the specification, armed, not elapsed and with `end_flag` clear, is
left as it is by an invocation. -/
theorem async_await_early_fix (now duration t : Nat) (unit : time_unit) (auto : Bool)
    (ht : ¬ (t + duration_us duration unit ≤ now)) :
    async_await ⟨true, t, false⟩ now duration unit auto = (false, ⟨true, t, false⟩) :=
  async_await_armed_early ⟨true, t, false⟩ now duration t unit auto rfl rfl ht

/-- A settled state is a fixed point of the inner multiple-press classifier. -/
theorem multi_settled_fixed (x : button_ctx async_await_ctx) (f : Bool) (N : Nat)
    (gpio : gpio_dev_t) (now : Nat) (hN : 1 ≤ N) (hnc : x.PIN ≠ GPIO_NUM_NC)
    (hs : multi_settled N (fast_but_gpio_read x gpio) now x) :
    (flag_control_by_but_multiple_press_inside spec_ops x f N gpio now).button = x ∧
    (flag_control_by_but_multiple_press_inside spec_ops x f N gpio now).flag = f := by
  rw [fast_but_gpio_read_eq] at hs
  rcases x with ⟨PIN, pm, ty, bp, blp, snap, blk, mt, lae, c, mx, cb1, cb2, cb3, p3, cb4, p4,
    DEB, MP, LT⟩
  simp only [multi_settled] at hs
  simp only at hnc
  obtain ⟨hA, hB, hC, hD, hE⟩ := hs
  have hN0 : ¬ N < 1 := by omega
  have hmx : ¬ (N > mx) := by omega
  by_cases hl : gpio_level PIN pm gpio = 0
  · have hp := hC hl
    subst hp
    cases mt
    · cases lae
      · simp [flag_control_by_but_multiple_press_inside, fast_but_gpio_read_eq, hN0, hnc, hmx,
          hl]
      · obtain ⟨h1, h2⟩ := hE rfl rfl
        subst h1 h2
        simp [flag_control_by_but_multiple_press_inside, fast_but_gpio_read_eq, hN0, hnc, hmx,
          hl, spec_ops, end_await]
    · by_cases hc : 0 < c
      · obtain ⟨t, h1, h2⟩ := hD hc rfl rfl
        subst h1
        have h3 := async_await_early_fix now 1 t time_unit.TIME_UNIT_S true h2
        simp [flag_control_by_but_multiple_press_inside, fast_but_gpio_read_eq, hN0, hnc, hmx,
          hl, hc, spec_ops, h3]
      · simp [flag_control_by_but_multiple_press_inside, fast_but_gpio_read_eq, hN0, hnc, hmx,
          hl, hc]
  · cases bp
    · obtain ⟨t, h1, h2⟩ := hB hl rfl
      subst h1
      have h0 := async_await_early_fix now 3 t time_unit.TIME_UNIT_MS false h2
      cases mt
      · cases lae
        · simp [flag_control_by_but_multiple_press_inside, fast_but_gpio_read_eq, hN0, hnc, hmx,
            hl, spec_ops, h0]
        · obtain ⟨h1, h2⟩ := hE rfl rfl
          subst h1 h2
          simp [flag_control_by_but_multiple_press_inside, fast_but_gpio_read_eq, hN0, hnc, hmx,
            hl, spec_ops, h0, end_await]
      · by_cases hc : 0 < c
        · obtain ⟨t', h1, h2⟩ := hD hc rfl rfl
          subst h1
          have h3 := async_await_early_fix now 1 t' time_unit.TIME_UNIT_S true h2
          simp [flag_control_by_but_multiple_press_inside, fast_but_gpio_read_eq, hN0, hnc, hmx,
            hl, hc, spec_ops, h0, h3]
        · simp [flag_control_by_but_multiple_press_inside, fast_but_gpio_read_eq, hN0, hnc, hmx,
            hl, hc, spec_ops, h0]
    · cases mt
      · cases lae
        · simp [flag_control_by_but_multiple_press_inside, fast_but_gpio_read_eq, hN0, hnc, hmx,
            hl]
        · obtain ⟨h1, h2⟩ := hE rfl rfl
          subst h1 h2
          simp [flag_control_by_but_multiple_press_inside, fast_but_gpio_read_eq, hN0, hnc, hmx,
            hl, spec_ops, end_await]
      · simp [flag_control_by_but_multiple_press_inside, fast_but_gpio_read_eq, hN0, hnc, hmx,
          hl]

/-- Under the guard of the wrapper (a running count equals the target), a poll of the
inner multiple-press classifier leaves a settled state on the same pin. -/
theorem multi_inside_settles (b : button_ctx async_await_ctx) (f : Bool) (N : Nat)
    (gpio : gpio_dev_t) (now : Nat) (hN : 1 ≤ N) (hnc : b.PIN ≠ GPIO_NUM_NC)
    (hG : 0 < b.presses_counter → b.presses_counter = N) :
    (flag_control_by_but_multiple_press_inside spec_ops b f N gpio now).button.PIN = b.PIN ∧
    (flag_control_by_but_multiple_press_inside spec_ops b f N gpio now).button.pull_mode
      = b.pull_mode ∧
    multi_settled N (fast_but_gpio_read b gpio) now
      (flag_control_by_but_multiple_press_inside spec_ops b f N gpio now).button := by
  rw [fast_but_gpio_read_eq]
  rcases b with ⟨PIN, pm, ty, bp, blp, snap, blk, mt, lae, c, mx, cb1, cb2, cb3, p3, cb4, p4,
    DEB, MP, LT⟩
  rcases DEB with ⟨dsf, dst, def_⟩
  rcases MP with ⟨msf, mst, mef⟩
  simp only at hnc hG ⊢
  have hN0 : ¬ N < 1 := by omega
  by_cases hmx : N > mx
  · by_cases hl : gpio_level PIN pm gpio = 0
    · cases bp
      · cases mt
        · cases lae
          · simp [flag_control_by_but_multiple_press_inside, fast_but_gpio_read_eq,
              multi_settled, spec_ops, end_await, hN0, hnc, hmx, hl]
          · simp [flag_control_by_but_multiple_press_inside, fast_but_gpio_read_eq,
              multi_settled, spec_ops, end_await, hN0, hnc, hmx, hl]
        · by_cases hc : 0 < c
          · cases msf
            · have hm1 := async_await_unarmed ⟨false, mst, mef⟩ now 1 time_unit.TIME_UNIT_S
                true rfl (by decide)
              simp [flag_control_by_but_multiple_press_inside, fast_but_gpio_read_eq,
                multi_settled, spec_ops, end_await, hN0, hnc, hmx, hl, hc, hm1]
            · by_cases htm : mst + 1000000 ≤ now
              · have hm1 := async_await_armed_elapsed_auto ⟨true, mst, mef⟩ now 1 mst
                  time_unit.TIME_UNIT_S rfl rfl htm
                have hcN := hG hc
                subst hcN
                simp [flag_control_by_but_multiple_press_inside, fast_but_gpio_read_eq,
                  multi_settled, spec_ops, end_await, hN0, hnc, hmx, hl, hc, hm1]
              · have hm1 := async_await_armed_early ⟨true, mst, mef⟩ now 1 mst
                  time_unit.TIME_UNIT_S true rfl rfl htm
                simp [flag_control_by_but_multiple_press_inside, fast_but_gpio_read_eq,
                  multi_settled, spec_ops, end_await, hN0, hnc, hmx, hl, hc, hm1, htm]
                omega
          · simp [flag_control_by_but_multiple_press_inside, fast_but_gpio_read_eq,
              multi_settled, spec_ops, end_await, hN0, hnc, hmx, hl, hc]
      · cases mt
        · cases lae
          · simp [flag_control_by_but_multiple_press_inside, fast_but_gpio_read_eq,
              multi_settled, spec_ops, end_await, hN0, hnc, hmx, hl]
          · simp [flag_control_by_but_multiple_press_inside, fast_but_gpio_read_eq,
              multi_settled, spec_ops, end_await, hN0, hnc, hmx, hl]
        · by_cases hc' : 0 < (c + 1) % 4294967296
          · have hm1 := async_await_unarmed (end_await ⟨msf, mst, mef⟩) now 1
              time_unit.TIME_UNIT_S true rfl (by decide)
            simp only [end_await] at hm1
            simp [flag_control_by_but_multiple_press_inside, fast_but_gpio_read_eq,
              multi_settled, spec_ops, end_await, hN0, hnc, hmx, hl, hc', hm1]
          · simp [flag_control_by_but_multiple_press_inside, fast_but_gpio_read_eq,
              multi_settled, spec_ops, end_await, hN0, hnc, hmx, hl, hc']
    · cases bp
      · cases dsf
        · have hd1 := async_await_unarmed ⟨false, dst, def_⟩ now 3 time_unit.TIME_UNIT_MS
            false rfl (by decide)
          cases mt
          · cases lae
            · simp [flag_control_by_but_multiple_press_inside, fast_but_gpio_read_eq,
                multi_settled, spec_ops, end_await, hN0, hnc, hmx, hl, hd1]
            · simp [flag_control_by_but_multiple_press_inside, fast_but_gpio_read_eq,
                multi_settled, spec_ops, end_await, hN0, hnc, hmx, hl, hd1]
          · by_cases hc : 0 < c
            · cases msf
              · have hm1 := async_await_unarmed ⟨false, mst, mef⟩ now 1 time_unit.TIME_UNIT_S
                  true rfl (by decide)
                simp [flag_control_by_but_multiple_press_inside, fast_but_gpio_read_eq,
                  multi_settled, spec_ops, end_await, hN0, hnc, hmx, hl, hd1, hc, hm1]
              · by_cases htm : mst + 1000000 ≤ now
                · have hm1 := async_await_armed_elapsed_auto ⟨true, mst, mef⟩ now 1 mst
                    time_unit.TIME_UNIT_S rfl rfl htm
                  have hcN := hG hc
                  subst hcN
                  simp [flag_control_by_but_multiple_press_inside, fast_but_gpio_read_eq,
                    multi_settled, spec_ops, end_await, hN0, hnc, hmx, hl, hd1, hc, hm1]
                · have hm1 := async_await_armed_early ⟨true, mst, mef⟩ now 1 mst
                    time_unit.TIME_UNIT_S true rfl rfl htm
                  simp [flag_control_by_but_multiple_press_inside, fast_but_gpio_read_eq,
                    multi_settled, spec_ops, end_await, hN0, hnc, hmx, hl, hd1, hc, hm1, htm]
                  omega
            · simp [flag_control_by_but_multiple_press_inside, fast_but_gpio_read_eq,
                multi_settled, spec_ops, end_await, hN0, hnc, hmx, hl, hd1, hc]
        · by_cases htd : dst + 3000 ≤ now
          · have hd1 := async_await_armed_elapsed ⟨true, dst, def_⟩ now 3 dst
              time_unit.TIME_UNIT_MS rfl rfl htd
            simp [flag_control_by_but_multiple_press_inside, fast_but_gpio_read_eq,
              multi_settled, spec_ops, end_await, hN0, hnc, hmx, hl, hd1]
          · have hd1 := async_await_armed_early ⟨true, dst, def_⟩ now 3 dst
              time_unit.TIME_UNIT_MS false rfl rfl htd
            cases mt
            · cases lae
              · simp [flag_control_by_but_multiple_press_inside, fast_but_gpio_read_eq,
                  multi_settled, spec_ops, end_await, hN0, hnc, hmx, hl, hd1, htd]
                omega
              · simp [flag_control_by_but_multiple_press_inside, fast_but_gpio_read_eq,
                  multi_settled, spec_ops, end_await, hN0, hnc, hmx, hl, hd1, htd]
                omega
            · by_cases hc : 0 < c
              · cases msf
                · have hm1 := async_await_unarmed ⟨false, mst, mef⟩ now 1 time_unit.TIME_UNIT_S
                    true rfl (by decide)
                  simp [flag_control_by_but_multiple_press_inside, fast_but_gpio_read_eq,
                    multi_settled, spec_ops, end_await, hN0, hnc, hmx, hl, hd1, htd, hc, hm1]
                  omega
                · by_cases htm : mst + 1000000 ≤ now
                  · have hm1 := async_await_armed_elapsed_auto ⟨true, mst, mef⟩ now 1 mst
                      time_unit.TIME_UNIT_S rfl rfl htm
                    have hcN := hG hc
                    subst hcN
                    simp [flag_control_by_but_multiple_press_inside, fast_but_gpio_read_eq,
                      multi_settled, spec_ops, end_await, hN0, hnc, hmx, hl, hd1, htd, hc, hm1]
                    omega
                  · have hm1 := async_await_armed_early ⟨true, mst, mef⟩ now 1 mst
                      time_unit.TIME_UNIT_S true rfl rfl htm
                    simp [flag_control_by_but_multiple_press_inside, fast_but_gpio_read_eq,
                      multi_settled, spec_ops, end_await, hN0, hnc, hmx, hl, hd1, htd, hc, hm1,
                      htm]
                    omega
              · simp [flag_control_by_but_multiple_press_inside, fast_but_gpio_read_eq,
                  multi_settled, spec_ops, end_await, hN0, hnc, hmx, hl, hd1, htd, hc]
                omega
      · cases mt
        · cases lae
          · simp [flag_control_by_but_multiple_press_inside, fast_but_gpio_read_eq,
              multi_settled, spec_ops, end_await, hN0, hnc, hmx, hl]
          · simp [flag_control_by_but_multiple_press_inside, fast_but_gpio_read_eq,
              multi_settled, spec_ops, end_await, hN0, hnc, hmx, hl]
        · simp [flag_control_by_but_multiple_press_inside, fast_but_gpio_read_eq, multi_settled,
            spec_ops, end_await, hN0, hnc, hmx, hl]
  · by_cases hl : gpio_level PIN pm gpio = 0
    · cases bp
      · cases mt
        · cases lae
          · simp [flag_control_by_but_multiple_press_inside, fast_but_gpio_read_eq,
              multi_settled, spec_ops, end_await, hN0, hnc, hmx, hl]
            omega
          · simp [flag_control_by_but_multiple_press_inside, fast_but_gpio_read_eq,
              multi_settled, spec_ops, end_await, hN0, hnc, hmx, hl]
            omega
        · by_cases hc : 0 < c
          · cases msf
            · have hm1 := async_await_unarmed ⟨false, mst, mef⟩ now 1 time_unit.TIME_UNIT_S
                true rfl (by decide)
              simp [flag_control_by_but_multiple_press_inside, fast_but_gpio_read_eq,
                multi_settled, spec_ops, end_await, hN0, hnc, hmx, hl, hc, hm1]
              omega
            · by_cases htm : mst + 1000000 ≤ now
              · have hm1 := async_await_armed_elapsed_auto ⟨true, mst, mef⟩ now 1 mst
                  time_unit.TIME_UNIT_S rfl rfl htm
                have hcN := hG hc
                subst hcN
                simp [flag_control_by_but_multiple_press_inside, fast_but_gpio_read_eq,
                  multi_settled, spec_ops, end_await, hN0, hnc, hmx, hl, hc, hm1]
                omega
              · have hm1 := async_await_armed_early ⟨true, mst, mef⟩ now 1 mst
                  time_unit.TIME_UNIT_S true rfl rfl htm
                simp [flag_control_by_but_multiple_press_inside, fast_but_gpio_read_eq,
                  multi_settled, spec_ops, end_await, hN0, hnc, hmx, hl, hc, hm1, htm]
                omega
          · simp [flag_control_by_but_multiple_press_inside, fast_but_gpio_read_eq,
              multi_settled, spec_ops, end_await, hN0, hnc, hmx, hl, hc]
            omega
      · cases mt
        · cases lae
          · simp [flag_control_by_but_multiple_press_inside, fast_but_gpio_read_eq,
              multi_settled, spec_ops, end_await, hN0, hnc, hmx, hl]
            omega
          · simp [flag_control_by_but_multiple_press_inside, fast_but_gpio_read_eq,
              multi_settled, spec_ops, end_await, hN0, hnc, hmx, hl]
            omega
        · by_cases hc' : 0 < (c + 1) % 4294967296
          · have hm1 := async_await_unarmed (end_await ⟨msf, mst, mef⟩) now 1
              time_unit.TIME_UNIT_S true rfl (by decide)
            simp only [end_await] at hm1
            simp [flag_control_by_but_multiple_press_inside, fast_but_gpio_read_eq,
              multi_settled, spec_ops, end_await, hN0, hnc, hmx, hl, hc', hm1]
            omega
          · simp [flag_control_by_but_multiple_press_inside, fast_but_gpio_read_eq,
              multi_settled, spec_ops, end_await, hN0, hnc, hmx, hl, hc']
            omega
    · cases bp
      · cases dsf
        · have hd1 := async_await_unarmed ⟨false, dst, def_⟩ now 3 time_unit.TIME_UNIT_MS
            false rfl (by decide)
          cases mt
          · cases lae
            · simp [flag_control_by_but_multiple_press_inside, fast_but_gpio_read_eq,
                multi_settled, spec_ops, end_await, hN0, hnc, hmx, hl, hd1]
              omega
            · simp [flag_control_by_but_multiple_press_inside, fast_but_gpio_read_eq,
                multi_settled, spec_ops, end_await, hN0, hnc, hmx, hl, hd1]
              omega
          · by_cases hc : 0 < c
            · cases msf
              · have hm1 := async_await_unarmed ⟨false, mst, mef⟩ now 1 time_unit.TIME_UNIT_S
                  true rfl (by decide)
                simp [flag_control_by_but_multiple_press_inside, fast_but_gpio_read_eq,
                  multi_settled, spec_ops, end_await, hN0, hnc, hmx, hl, hd1, hc, hm1]
                omega
              · by_cases htm : mst + 1000000 ≤ now
                · have hm1 := async_await_armed_elapsed_auto ⟨true, mst, mef⟩ now 1 mst
                    time_unit.TIME_UNIT_S rfl rfl htm
                  have hcN := hG hc
                  subst hcN
                  simp [flag_control_by_but_multiple_press_inside, fast_but_gpio_read_eq,
                    multi_settled, spec_ops, end_await, hN0, hnc, hmx, hl, hd1, hc, hm1]
                  omega
                · have hm1 := async_await_armed_early ⟨true, mst, mef⟩ now 1 mst
                    time_unit.TIME_UNIT_S true rfl rfl htm
                  simp [flag_control_by_but_multiple_press_inside, fast_but_gpio_read_eq,
                    multi_settled, spec_ops, end_await, hN0, hnc, hmx, hl, hd1, hc, hm1, htm]
                  omega
            · simp [flag_control_by_but_multiple_press_inside, fast_but_gpio_read_eq,
                multi_settled, spec_ops, end_await, hN0, hnc, hmx, hl, hd1, hc]
              omega
        · by_cases htd : dst + 3000 ≤ now
          · have hd1 := async_await_armed_elapsed ⟨true, dst, def_⟩ now 3 dst
              time_unit.TIME_UNIT_MS rfl rfl htd
            simp [flag_control_by_but_multiple_press_inside, fast_but_gpio_read_eq,
              multi_settled, spec_ops, end_await, hN0, hnc, hmx, hl, hd1]
            omega
          · have hd1 := async_await_armed_early ⟨true, dst, def_⟩ now 3 dst
              time_unit.TIME_UNIT_MS false rfl rfl htd
            cases mt
            · cases lae
              · simp [flag_control_by_but_multiple_press_inside, fast_but_gpio_read_eq,
                  multi_settled, spec_ops, end_await, hN0, hnc, hmx, hl, hd1, htd]
                omega
              · simp [flag_control_by_but_multiple_press_inside, fast_but_gpio_read_eq,
                  multi_settled, spec_ops, end_await, hN0, hnc, hmx, hl, hd1, htd]
                omega
            · by_cases hc : 0 < c
              · cases msf
                · have hm1 := async_await_unarmed ⟨false, mst, mef⟩ now 1 time_unit.TIME_UNIT_S
                    true rfl (by decide)
                  simp [flag_control_by_but_multiple_press_inside, fast_but_gpio_read_eq,
                    multi_settled, spec_ops, end_await, hN0, hnc, hmx, hl, hd1, htd, hc, hm1]
                  omega
                · by_cases htm : mst + 1000000 ≤ now
                  · have hm1 := async_await_armed_elapsed_auto ⟨true, mst, mef⟩ now 1 mst
                      time_unit.TIME_UNIT_S rfl rfl htm
                    have hcN := hG hc
                    subst hcN
                    simp [flag_control_by_but_multiple_press_inside, fast_but_gpio_read_eq,
                      multi_settled, spec_ops, end_await, hN0, hnc, hmx, hl, hd1, htd, hc, hm1]
                    omega
                  · have hm1 := async_await_armed_early ⟨true, mst, mef⟩ now 1 mst
                      time_unit.TIME_UNIT_S true rfl rfl htm
                    simp [flag_control_by_but_multiple_press_inside, fast_but_gpio_read_eq,
                      multi_settled, spec_ops, end_await, hN0, hnc, hmx, hl, hd1, htd, hc, hm1,
                      htm]
                    omega
              · simp [flag_control_by_but_multiple_press_inside, fast_but_gpio_read_eq,
                  multi_settled, spec_ops, end_await, hN0, hnc, hmx, hl, hd1, htd, hc]
                omega
      · cases mt
        · cases lae
          · simp [flag_control_by_but_multiple_press_inside, fast_but_gpio_read_eq,
              multi_settled, spec_ops, end_await, hN0, hnc, hmx, hl]
            omega
          · simp [flag_control_by_but_multiple_press_inside, fast_but_gpio_read_eq,
              multi_settled, spec_ops, end_await, hN0, hnc, hmx, hl]
            omega
        · simp [flag_control_by_but_multiple_press_inside, fast_but_gpio_read_eq, multi_settled,
            spec_ops, end_await, hN0, hnc, hmx, hl]
          omega

/-- Over the timer of the specification, a second call of the guarded multiple-press
classifier with the same registers and clock value changes neither the record nor the
flag. -/
theorem multiple_press_wrapper_idempotent (b : button_ctx async_await_ctx) (f : Bool)
    (N : Nat) (gpio : gpio_dev_t) (now : Nat) :
    (flag_control_by_but_multiple_press spec_ops
        (flag_control_by_but_multiple_press spec_ops b f N gpio now).button
        (flag_control_by_but_multiple_press spec_ops b f N gpio now).flag N gpio now).button
      = (flag_control_by_but_multiple_press spec_ops b f N gpio now).button ∧
    (flag_control_by_but_multiple_press spec_ops
        (flag_control_by_but_multiple_press spec_ops b f N gpio now).button
        (flag_control_by_but_multiple_press spec_ops b f N gpio now).flag N gpio now).flag
      = (flag_control_by_but_multiple_press spec_ops b f N gpio now).flag := by
  have hnoop : flag_control_by_but_multiple_press spec_ops b f N gpio now = ⟨b, f, []⟩ →
      (flag_control_by_but_multiple_press spec_ops
          (flag_control_by_but_multiple_press spec_ops b f N gpio now).button
          (flag_control_by_but_multiple_press spec_ops b f N gpio now).flag N gpio now).button
        = (flag_control_by_but_multiple_press spec_ops b f N gpio now).button ∧
      (flag_control_by_but_multiple_press spec_ops
          (flag_control_by_but_multiple_press spec_ops b f N gpio now).button
          (flag_control_by_but_multiple_press spec_ops b f N gpio now).flag N gpio now).flag
        = (flag_control_by_but_multiple_press spec_ops b f N gpio now).flag := by
    intro h
    rw [h]
    simp only
    rw [h]
    exact ⟨rfl, rfl⟩
  by_cases hnc : b.PIN = GPIO_NUM_NC
  · exact hnoop (by simp [flag_control_by_but_multiple_press, hnc])
  by_cases hN : N < 1
  · exact hnoop (by simp [flag_control_by_but_multiple_press, hN])
  by_cases h1 : N = 1 ∧ b.presses_counter ≤ 1
  · have hG : 0 < b.presses_counter → b.presses_counter = N := by omega
    have hw : flag_control_by_but_multiple_press spec_ops b f N gpio now
        = flag_control_by_but_multiple_press_inside spec_ops b f N gpio now := by
      simp [flag_control_by_but_multiple_press, hnc, h1]
    obtain ⟨hp, hpm, hs⟩ := multi_inside_settles b f N gpio now (by omega) hnc hG
    rw [hw]
    have hnc' : (flag_control_by_but_multiple_press_inside spec_ops b f N gpio now).button.PIN
        ≠ GPIO_NUM_NC := by rw [hp]; exact hnc
    have hs' : multi_settled N
        (fast_but_gpio_read
          (flag_control_by_but_multiple_press_inside spec_ops b f N gpio now).button gpio) now
        (flag_control_by_but_multiple_press_inside spec_ops b f N gpio now).button := by
      rw [fast_but_gpio_read_eq, hp, hpm, ← fast_but_gpio_read_eq]
      exact hs
    rcases multiple_press_wrapper_cases spec_ops
        (flag_control_by_but_multiple_press_inside spec_ops b f N gpio now).button
        (flag_control_by_but_multiple_press_inside spec_ops b f N gpio now).flag N gpio now
      with h | ⟨_, _, _, h⟩
    · rw [h]
      exact ⟨rfl, rfl⟩
    · rw [h]
      exact multi_settled_fixed _ _ N gpio now (by omega) hnc' hs'
  by_cases h2 : b.presses_counter = N
  · have hG : 0 < b.presses_counter → b.presses_counter = N := fun _ => h2
    have hw : flag_control_by_but_multiple_press spec_ops b f N gpio now
        = flag_control_by_but_multiple_press_inside spec_ops b f N gpio now := by
      simp [flag_control_by_but_multiple_press, hnc, hN, h2]
    obtain ⟨hp, hpm, hs⟩ := multi_inside_settles b f N gpio now (by omega) hnc hG
    rw [hw]
    have hnc' : (flag_control_by_but_multiple_press_inside spec_ops b f N gpio now).button.PIN
        ≠ GPIO_NUM_NC := by rw [hp]; exact hnc
    have hs' : multi_settled N
        (fast_but_gpio_read
          (flag_control_by_but_multiple_press_inside spec_ops b f N gpio now).button gpio) now
        (flag_control_by_but_multiple_press_inside spec_ops b f N gpio now).button := by
      rw [fast_but_gpio_read_eq, hp, hpm, ← fast_but_gpio_read_eq]
      exact hs
    rcases multiple_press_wrapper_cases spec_ops
        (flag_control_by_but_multiple_press_inside spec_ops b f N gpio now).button
        (flag_control_by_but_multiple_press_inside spec_ops b f N gpio now).flag N gpio now
      with h | ⟨_, _, _, h⟩
    · rw [h]
      exact ⟨rfl, rfl⟩
    · rw [h]
      exact multi_settled_fixed _ _ N gpio now (by omega) hnc' hs'
  · exact hnoop (by simp [flag_control_by_but_multiple_press, hnc, hN, h1, h2])

/-- Claim C18 fails on the code: re-invocation with the same registers and clock value is
not idempotent for every entry point.  On the freshly initialised pull-up button with a
released level, one call of `flag_control_by_but_longtime_press` leaves `mt_permission`
false and a second call sets it back to true (no timer is consulted on this path).  The
inner multiple-press classifier and the callback classifiers for multiple, long and
infinite presses likewise reach a different record on the second call. -/
theorem C18_reinvocation_advances :
    ((flag_control_by_but_longtime_press spec_ops
        (fresh_button 4 GPIO_PULLUP_ONLY NO_FIX) false gpio_high 0).button.mt_permission = false ∧
      (flag_control_by_but_longtime_press spec_ops
        (flag_control_by_but_longtime_press spec_ops
          (fresh_button 4 GPIO_PULLUP_ONLY NO_FIX) false gpio_high 0).button
        (flag_control_by_but_longtime_press spec_ops
          (fresh_button 4 GPIO_PULLUP_ONLY NO_FIX) false gpio_high 0).flag
        gpio_high 0).button.mt_permission = true) ∧
    (flag_control_by_but_multiple_press_inside spec_ops
        (flag_control_by_but_multiple_press_inside spec_ops two_taps_button false 3
          gpio_high 1058000).button
        (flag_control_by_but_multiple_press_inside spec_ops two_taps_button false 3
          gpio_high 1058000).flag 3 gpio_high 1058000).button
      ≠ (flag_control_by_but_multiple_press_inside spec_ops two_taps_button false 3
          gpio_high 1058000).button ∧
    ((callback_control_by_but_multiple_press spec_ops
        { confirmed_button with presses_counter := 1, MULTIPRESS_AWAIT := ⟨true, 0, false⟩ }
        1 1 gpio_high 3000000).button.but_pressed = true ∧
      (callback_control_by_but_multiple_press spec_ops
        (callback_control_by_but_multiple_press spec_ops
          { confirmed_button with presses_counter := 1, MULTIPRESS_AWAIT := ⟨true, 0, false⟩ }
          1 1 gpio_high 3000000).button
        1 1 gpio_high 3000000).button.but_pressed = false) ∧
    ((callback_control_by_but_longtime_press spec_ops
        { confirmed_button with
          long_time_press_permission := true, long_time_press_callback := some 8 }
        1 gpio_high 0).button.but_pressed = true ∧
      (callback_control_by_but_longtime_press spec_ops
        (callback_control_by_but_longtime_press spec_ops
          { confirmed_button with
            long_time_press_permission := true, long_time_press_callback := some 8 }
          1 gpio_high 0).button
        1 gpio_high 0).button.but_pressed = false) ∧
    ((callback_control_by_but_infinite_press spec_ops debouncing_button 1
        gpio_low 3000).button.LONG_TIME_PRESS_AWAIT = ⟨false, 0, false⟩ ∧
      (callback_control_by_but_infinite_press spec_ops
        (callback_control_by_but_infinite_press spec_ops debouncing_button 1
          gpio_low 3000).button
        1 gpio_low 3000).button.LONG_TIME_PRESS_AWAIT = ⟨true, 3000, false⟩) := by
  decide

/-- Claim C18, as the code has it: over the timer of the specification, with the same
registers and the same clock value, a second call changes neither the record nor the flag for
`flag_control_by_but_onetime_press`, `flag_control_by_but_infinite_press` and the guarded
`flag_control_by_but_multiple_press`, and does not change the record for
`callback_control_by_but_onetime_press`: step(step(s, i), i) = step(s, i). -/
theorem C18_reinvocation_idempotent (b : button_ctx async_await_ctx) (f : Bool)
    (N repeats : Nat) (gpio : gpio_dev_t) (now : Nat) :
    ((flag_control_by_but_onetime_press spec_ops
          (flag_control_by_but_onetime_press spec_ops b f gpio now).button
          (flag_control_by_but_onetime_press spec_ops b f gpio now).flag gpio now).button
        = (flag_control_by_but_onetime_press spec_ops b f gpio now).button ∧
      (flag_control_by_but_onetime_press spec_ops
          (flag_control_by_but_onetime_press spec_ops b f gpio now).button
          (flag_control_by_but_onetime_press spec_ops b f gpio now).flag gpio now).flag
        = (flag_control_by_but_onetime_press spec_ops b f gpio now).flag) ∧
    ((flag_control_by_but_infinite_press spec_ops
          (flag_control_by_but_infinite_press spec_ops b f gpio now).button
          (flag_control_by_but_infinite_press spec_ops b f gpio now).flag gpio now).button
        = (flag_control_by_but_infinite_press spec_ops b f gpio now).button ∧
      (flag_control_by_but_infinite_press spec_ops
          (flag_control_by_but_infinite_press spec_ops b f gpio now).button
          (flag_control_by_but_infinite_press spec_ops b f gpio now).flag gpio now).flag
        = (flag_control_by_but_infinite_press spec_ops b f gpio now).flag) ∧
    ((flag_control_by_but_multiple_press spec_ops
          (flag_control_by_but_multiple_press spec_ops b f N gpio now).button
          (flag_control_by_but_multiple_press spec_ops b f N gpio now).flag N gpio now).button
        = (flag_control_by_but_multiple_press spec_ops b f N gpio now).button ∧
      (flag_control_by_but_multiple_press spec_ops
          (flag_control_by_but_multiple_press spec_ops b f N gpio now).button
          (flag_control_by_but_multiple_press spec_ops b f N gpio now).flag N gpio now).flag
        = (flag_control_by_but_multiple_press spec_ops b f N gpio now).flag) ∧
    (callback_control_by_but_onetime_press spec_ops
        (callback_control_by_but_onetime_press spec_ops b repeats gpio now).button
        repeats gpio now).button
      = (callback_control_by_but_onetime_press spec_ops b repeats gpio now).button :=
  ⟨flag_onetime_idempotent b f gpio now, flag_infinite_idempotent b f gpio now,
    multiple_press_wrapper_idempotent b f N gpio now,
    callback_onetime_idempotent b repeats gpio now⟩

/-! ## Claim C22: multi-press abandonment -/

/-- The first stage never writes the flag. -/
theorem multi_stage1_flag {τ : Type} (ops : await_ops τ) (b : button_ctx τ) (f : Bool)
    (l : Int) (now : Nat) : (multi_stage1 ops b f l now).flag = f := by
  unfold multi_stage1
  dsimp only
  split_ifs <;> rfl

/-- The second stage writes neither the flag nor `mt_permission`. -/
theorem multi_stage2_flag {τ : Type} (ops : await_ops τ) (s : flag_result τ) (l : Int) :
    (multi_stage2 ops s l).flag = s.flag ∧
    (multi_stage2 ops s l).button.mt_permission = s.button.mt_permission := by
  unfold multi_stage2
  split_ifs
  · exact ⟨rfl, rfl⟩
  · exact ⟨rfl, rfl⟩

/-- The third stage writes neither `mt_permission` nor `long_time_await_end`. -/
theorem multi_stage3_permission {τ : Type} (ops : await_ops τ) (s : flag_result τ)
    (N now : Nat) :
    (multi_stage3 ops s N now).button.mt_permission = s.button.mt_permission ∧
    (multi_stage3 ops s N now).button.long_time_await_end = s.button.long_time_await_end := by
  unfold multi_stage3
  dsimp only
  split_ifs <;> exact ⟨rfl, rfl⟩

/-- The fourth stage writes none of `mt_permission`, `long_time_await_end` and the
flag, and resets the count when permission is revoked and the long-press window has
closed. -/
theorem multi_stage4_fields {τ : Type} (ops : await_ops τ) (s : flag_result τ) :
    (multi_stage4 ops s).button.mt_permission = s.button.mt_permission ∧
    (multi_stage4 ops s).button.long_time_await_end = s.button.long_time_await_end ∧
    (multi_stage4 ops s).flag = s.flag ∧
    (s.button.mt_permission = false → s.button.long_time_await_end = true →
      (multi_stage4 ops s).button.presses_counter = 0) := by
  unfold multi_stage4
  split_ifs with h
  · exact ⟨rfl, rfl, rfl, fun _ _ => rfl⟩
  · exact ⟨rfl, rfl, rfl, fun h1 h2 => absurd ⟨h1, h2⟩ h⟩

/-- Claim C22: for every button state on a connected pin, every level, every timer
implementation and clock value and every `presses_quantity ≥ 1`, if after a poll of
`flag_control_by_but_multiple_press_inside` `mt_permission` is false and
`long_time_await_end` is true, then `presses_counter = 0` after that poll, and the
poll leaves the flag as it was given. -/
theorem C22_multipress_abandonment {τ : Type} (ops : await_ops τ) (b : button_ctx τ)
    (f : Bool) (N : Nat) (gpio : gpio_dev_t) (now : Nat)
    (hN : 1 ≤ N) (hnc : b.PIN ≠ GPIO_NUM_NC)
    (hm : (flag_control_by_but_multiple_press_inside ops b f N gpio now).button.mt_permission
      = false)
    (he : (flag_control_by_but_multiple_press_inside ops b f N gpio now).button.long_time_await_end
      = true) :
    (flag_control_by_but_multiple_press_inside ops b f N gpio now).button.presses_counter = 0 ∧
    (flag_control_by_but_multiple_press_inside ops b f N gpio now).flag = f := by
  rw [multi_inside_eq_stages ops b f N gpio now hN hnc] at hm he ⊢
  generalize hs1 : multi_stage1 ops
    (if N > b.max_presses_quantity then { b with max_presses_quantity := N } else b)
    f (fast_but_gpio_read b gpio) now = s1 at hm he ⊢
  have f1 : s1.flag = f := by rw [← hs1]; exact multi_stage1_flag ops _ f _ now
  obtain ⟨f2, m2⟩ := multi_stage2_flag ops s1 (fast_but_gpio_read b gpio)
  generalize multi_stage2 ops s1 (fast_but_gpio_read b gpio) = s2 at hm he f2 m2 ⊢
  obtain ⟨m3, e3⟩ := multi_stage3_permission ops s2 N now
  obtain ⟨m4, e4, f4, c4⟩ := multi_stage4_fields ops (multi_stage3 ops s2 N now)
  rw [m4] at hm
  rw [e4] at he
  have hskip : multi_stage3 ops s2 N now = s2 := by
    apply multi_stage3_skip
    rw [m3] at hm
    simp [hm]
  refine ⟨c4 hm he, ?_⟩
  rw [f4, hskip, f2, f1]

/-- Instance of claim C22: a pull-up button on pin 4 with two presses counted, whose
permission a long press has revoked and whose long-press window has closed, is polled
released with target 3: the count is reset and the flag is kept. -/
theorem C22_multipress_abandonment_witness :
    (flag_control_by_but_multiple_press_inside spec_ops
      { two_taps_button with mt_permission := false } true 3 gpio_high
      70000).button.presses_counter = 0 ∧
    (flag_control_by_but_multiple_press_inside spec_ops
      { two_taps_button with mt_permission := false } true 3 gpio_high 70000).flag = true :=
  C22_multipress_abandonment spec_ops { two_taps_button with mt_permission := false } true 3
    gpio_high 70000 (by decide) (by decide) (by decide) (by decide)

/-! ## Claim C21: multiple fire step -/

/-- Claim C21: for every `N ≥ 1` and every button state with `but_pressed = false`,
`mt_permission = true` and `presses_counter = N`, a poll of
`flag_control_by_but_multiple_press(button, flag, N)` with the level released: if the
window timer reports elapsed in the poll (the poll reaches the timer, that is the pin
is connected, and `MULTIPRESS_AWAIT.end_flag` is set by the invocation) the flag is
negated, by the single flag write of the poll, and `presses_counter` is set to `0`; if
it does not, the flag and `presses_counter` are unchanged. -/
theorem C21_multiple_fire_step {τ : Type} (ops : await_ops τ) (b : button_ctx τ)
    (f : Bool) (N : Nat) (gpio : gpio_dev_t) (now : Nat)
    (hN : 1 ≤ N) (hp : b.but_pressed = false) (hm : b.mt_permission = true)
    (hc : b.presses_counter = N) (hl : fast_but_gpio_read b gpio = 0) :
    (b.PIN ≠ GPIO_NUM_NC ∧
        ops.end_flag
          (ops.async_await b.MULTIPRESS_AWAIT now 1 time_unit.TIME_UNIT_S true).2 = true →
      (flag_control_by_but_multiple_press ops b f N gpio now).flag = (!f) ∧
      (flag_control_by_but_multiple_press ops b f N gpio now).button.presses_counter = 0) ∧
    (¬ (b.PIN ≠ GPIO_NUM_NC ∧
        ops.end_flag
          (ops.async_await b.MULTIPRESS_AWAIT now 1 time_unit.TIME_UNIT_S true).2 = true) →
      (flag_control_by_but_multiple_press ops b f N gpio now).flag = f ∧
      (flag_control_by_but_multiple_press ops b f N gpio now).button.presses_counter
        = b.presses_counter) := by
  rw [fast_but_gpio_read_eq] at hl
  have hN0 : ¬ N < 1 := by omega
  have hN1 : 0 < N := by omega
  have hN2 : ¬ (N = 0) := by omega
  constructor
  · rintro ⟨hnc, hend⟩
    by_cases hmx : N > b.max_presses_quantity
    · simp [flag_control_by_but_multiple_press, flag_control_by_but_multiple_press_inside,
        fast_but_gpio_read_eq, hnc, hN0, hN1, hN2, hc, hp, hm, hl, hend, hmx]
    · simp [flag_control_by_but_multiple_press, flag_control_by_but_multiple_press_inside,
        fast_but_gpio_read_eq, hnc, hN0, hN1, hN2, hc, hp, hm, hl, hend, hmx]
  · intro h
    by_cases hnc : b.PIN = GPIO_NUM_NC
    · simp [flag_control_by_but_multiple_press, hnc]
    · have hend : ¬ (ops.end_flag
          (ops.async_await b.MULTIPRESS_AWAIT now 1 time_unit.TIME_UNIT_S true).2 = true) :=
        fun he => h ⟨hnc, he⟩
      by_cases hmx : N > b.max_presses_quantity
      · simp [flag_control_by_but_multiple_press, flag_control_by_but_multiple_press_inside,
          fast_but_gpio_read_eq, hnc, hN0, hN1, hN2, hc, hp, hm, hl, hend, hmx]
      · simp [flag_control_by_but_multiple_press, flag_control_by_but_multiple_press_inside,
          fast_but_gpio_read_eq, hnc, hN0, hN1, hN2, hc, hp, hm, hl, hend, hmx]

/-- Instance of claim C21: a pull-up button on pin 4 with two presses counted and the
window timer armed at `58000` microseconds is polled released with target 2 one second
later: the flag is negated and the count reset. -/
theorem C21_multiple_fire_step_witness :
    (flag_control_by_but_multiple_press spec_ops two_taps_button false 2 gpio_high
      1058000).flag = (!false) ∧
    (flag_control_by_but_multiple_press spec_ops two_taps_button false 2 gpio_high
      1058000).button.presses_counter = 0 :=
  (C21_multiple_fire_step spec_ops two_taps_button false 2 gpio_high 1058000
    (by decide) (by decide) (by decide) (by decide) (by decide)).1 ⟨by decide, by decide⟩

/-! ## Claim C23: longtime hold step -/

/-- Claim C23: for every `NO_FIX` button state with `but_long_pressed = true`, a poll
of `flag_control_by_but_longtime_press` that reads the level (the pin is connected; a
record with the unconnected sentinel is returned before the level is read) and finds
it pressed leaves `mt_permission = false`; if the `3 s` hold timer reports elapsed in
that poll the flag is negated and `long_time_await_end = true` and
`one_time_block = true` afterwards; if it does not report elapsed the flag is
unchanged and `one_time_block = false` afterwards. -/
theorem C23_longtime_hold_step {τ : Type} (ops : await_ops τ) (b : button_ctx τ)
    (f : Bool) (gpio : gpio_dev_t) (now : Nat)
    (hnc : b.PIN ≠ GPIO_NUM_NC) (hty : b.type = NO_FIX)
    (hb : b.but_long_pressed = true) (hl : fast_but_gpio_read b gpio ≠ 0) :
    (flag_control_by_but_longtime_press ops b f gpio now).button.mt_permission = false ∧
    ((ops.async_await b.LONG_TIME_PRESS_AWAIT now 3 time_unit.TIME_UNIT_S false).1 = true →
      (flag_control_by_but_longtime_press ops b f gpio now).flag = (!f) ∧
      (flag_control_by_but_longtime_press ops b f gpio now).button.long_time_await_end = true ∧
      (flag_control_by_but_longtime_press ops b f gpio now).button.one_time_block = true) ∧
    ((ops.async_await b.LONG_TIME_PRESS_AWAIT now 3 time_unit.TIME_UNIT_S false).1 = false →
      (flag_control_by_but_longtime_press ops b f gpio now).flag = f ∧
      (flag_control_by_but_longtime_press ops b f gpio now).button.one_time_block = false) := by
  have hfix : b.type ≠ FIX := by rw [hty]; decide
  rw [fast_but_gpio_read_eq] at hl
  by_cases hr : (ops.async_await b.LONG_TIME_PRESS_AWAIT now 3 time_unit.TIME_UNIT_S false).1
      = true
  · simp [flag_control_by_but_longtime_press, fast_but_gpio_read_eq, hnc, hfix, hb, hl, hr]
  · by_cases he : b.long_time_await_end = true
    · simp [flag_control_by_but_longtime_press, fast_but_gpio_read_eq, hnc, hfix, hb, hl, hr, he]
    · simp [flag_control_by_but_longtime_press, fast_but_gpio_read_eq, hnc, hfix, hb, hl, hr, he]

/-- Instance of claim C23: the hold timer of `holding_button`, armed
at `5000` microseconds, reports elapsed in the pressed poll at `3005000`. -/
theorem C23_longtime_hold_step_witness :
    (flag_control_by_but_longtime_press spec_ops holding_button false gpio_low
      3005000).flag = (!false) ∧
    (flag_control_by_but_longtime_press spec_ops holding_button false gpio_low
      3005000).button.long_time_await_end = true ∧
    (flag_control_by_but_longtime_press spec_ops holding_button false gpio_low
      3005000).button.one_time_block = true :=
  (C23_longtime_hold_step spec_ops holding_button false gpio_low 3005000
    (by decide) (by decide) (by decide) (by decide)).2.1 (by decide)

/-! ## Claim C24: longtime release permission -/

/-- Claim C24 fails on the code: the release branch of
`flag_control_by_but_longtime_press` does the opposite.  A fresh pull-up button on pin
4 polled released at `0` and `1000` microseconds, pressed at `2000`, `5000` (debounce
confirmed) and `6000` (hold timer armed), released at `7000` and `8000`: the first
poll finds `long_time_await_end = true` and leaves `mt_permission = false`; the
release at `7000`, before the `3 s`, finds `long_time_await_end = false` and leaves
`mt_permission = true`.  When the hold lasts until `3006000` (the flag is toggled) the
release at `3008000` finds `long_time_await_end = true` and leaves
`mt_permission = false`. -/
theorem C24_release_permission_inverted :
    (fresh_button 4 GPIO_PULLUP_ONLY NO_FIX).long_time_await_end = true ∧
    (button_history (flag_control_by_but_longtime_press spec_ops)
        (fresh_button 4 GPIO_PULLUP_ONLY NO_FIX) false
        [⟨gpio_high, 0⟩, ⟨gpio_high, 1000⟩, ⟨gpio_low, 2000⟩, ⟨gpio_low, 5000⟩,
          ⟨gpio_low, 6000⟩, ⟨gpio_high, 7000⟩, ⟨gpio_high, 8000⟩]).map
        (fun b => (b.long_time_await_end, b.mt_permission))
      = [(false, false), (false, true), (false, true), (false, true), (false, false),
          (false, true), (false, true)] ∧
    (button_history (flag_control_by_but_longtime_press spec_ops)
        (fresh_button 4 GPIO_PULLUP_ONLY NO_FIX) false
        [⟨gpio_high, 0⟩, ⟨gpio_high, 1000⟩, ⟨gpio_low, 2000⟩, ⟨gpio_low, 5000⟩,
          ⟨gpio_low, 6000⟩, ⟨gpio_low, 3006000⟩, ⟨gpio_low, 3007000⟩,
          ⟨gpio_high, 3008000⟩, ⟨gpio_high, 3009000⟩]).map
        (fun b => (b.long_time_await_end, b.mt_permission))
      = [(false, false), (false, true), (false, true), (false, true), (false, false),
          (true, false), (true, false), (false, false), (false, true)] ∧
    flag_history (flag_control_by_but_longtime_press spec_ops)
        (fresh_button 4 GPIO_PULLUP_ONLY NO_FIX) false
        [⟨gpio_high, 0⟩, ⟨gpio_high, 1000⟩, ⟨gpio_low, 2000⟩, ⟨gpio_low, 5000⟩,
          ⟨gpio_low, 6000⟩, ⟨gpio_low, 3006000⟩, ⟨gpio_low, 3007000⟩,
          ⟨gpio_high, 3008000⟩, ⟨gpio_high, 3009000⟩]
      = [false, false, false, false, false, true, true, true, true] := by
  decide

/-- Claim C24, as the code has it: a poll of `flag_control_by_but_longtime_press` with
the level released, on a connected pin of a button whose type is not `FIX`, consults no
timer and writes `mt_permission` and `long_time_await_end` only: if
`long_time_await_end = true` on entry then `mt_permission = false` after the poll, if
`long_time_await_end = false` on entry then `mt_permission = true` after the poll, and
`long_time_await_end = false` after the poll in both cases. -/
theorem C24_longtime_release_step {τ : Type} (ops : await_ops τ) (b : button_ctx τ)
    (f : Bool) (gpio : gpio_dev_t) (now : Nat)
    (hnc : b.PIN ≠ GPIO_NUM_NC) (hty : b.type ≠ FIX)
    (hl : fast_but_gpio_read b gpio = 0) :
    flag_control_by_but_longtime_press ops b f gpio now
      = ⟨{ b with mt_permission := !b.long_time_await_end, long_time_await_end := false },
          f, []⟩ := by
  rw [fast_but_gpio_read_eq] at hl
  by_cases he : b.long_time_await_end = true
  · simp [flag_control_by_but_longtime_press, fast_but_gpio_read_eq, hnc, hty, hl, he]
  · simp [flag_control_by_but_longtime_press, fast_but_gpio_read_eq, hnc, hty, hl, he]

/-- Instance of claim C24 as the code has it: the first released poll of a fresh button
(`long_time_await_end = true` on entry) withholds permission. -/
theorem C24_longtime_release_step_witness :
    flag_control_by_but_longtime_press spec_ops (fresh_button 4 GPIO_PULLUP_ONLY NO_FIX)
        false gpio_high 0
      = ⟨{ fresh_button 4 GPIO_PULLUP_ONLY NO_FIX with
            mt_permission := !(fresh_button 4 GPIO_PULLUP_ONLY NO_FIX).long_time_await_end
            long_time_await_end := false },
          false, []⟩ :=
  C24_longtime_release_step spec_ops (fresh_button 4 GPIO_PULLUP_ONLY NO_FIX) false
    gpio_high 0 (by decide) (by decide) (by decide)

/-! ## Claim C25: longtime callback latch -/

/-- Claim C25 fails on the code when no callback is bound: the latch is cleared inside
the test of `long_time_press_callback`.  A fresh pull-up button on pin 4 with no
callback bound, polled through `callback_control_by_but_longtime_press` with
`repeats = 2`: pressed at `0`, `3000` (debounce confirmed), `4000` (hold timer armed)
and `3004000` (hold timer elapsed, latch set), then released at `3005000`, `3006000`
and `3007000`.  The released polls change nothing: `long_time_press_permission` stays
true, and `but_pressed` stays true because the release branch comes after the latch
branch. -/
theorem C25_unbound_latch_stays :
    (fresh_button 4 GPIO_PULLUP_ONLY NO_FIX).long_time_press_callback = none ∧
    (calls_history spec_ops (fresh_button 4 GPIO_PULLUP_ONLY NO_FIX)
        [(classifier_call.callback_longtime 2, ⟨gpio_low, 0⟩),
          (classifier_call.callback_longtime 2, ⟨gpio_low, 3000⟩),
          (classifier_call.callback_longtime 2, ⟨gpio_low, 4000⟩),
          (classifier_call.callback_longtime 2, ⟨gpio_low, 3004000⟩),
          (classifier_call.callback_longtime 2, ⟨gpio_high, 3005000⟩),
          (classifier_call.callback_longtime 2, ⟨gpio_high, 3006000⟩),
          (classifier_call.callback_longtime 2, ⟨gpio_high, 3007000⟩)]).map
        (fun b => (b.long_time_press_permission, b.but_pressed))
      = [(false, false), (false, true), (false, true), (true, true), (true, true),
          (true, true), (true, true)] ∧
    fast_but_gpio_read
        ({ fresh_button 4 GPIO_PULLUP_ONLY NO_FIX with
            but_pressed := true, long_time_press_permission := true } :
          button_ctx async_await_ctx) gpio_high = 0 ∧
    callback_control_by_but_longtime_press spec_ops
        { fresh_button 4 GPIO_PULLUP_ONLY NO_FIX with
          but_pressed := true, long_time_press_permission := true } 2 gpio_high 3005000
      = ⟨{ fresh_button 4 GPIO_PULLUP_ONLY NO_FIX with
            but_pressed := true, long_time_press_permission := true }, []⟩ := by
  decide

/-- Claim C25, as the code has it: for every button state on a connected pin with
`long_time_press_permission = true`, a poll of
`callback_control_by_but_longtime_press` with the level released: with a bound
callback and a finite `repeats` (`≠ LOOP_PERFORMANCE`) it invokes the callback exactly
`repeats` times and clears `long_time_press_permission`; with a bound callback and
`repeats = LOOP_PERFORMANCE` it invokes the callback exactly once and the latch stays
set; with no callback bound it changes nothing, so the latch stays set.  No other
field is written. -/
theorem C25_longtime_callback_latch {τ : Type} (ops : await_ops τ) (b : button_ctx τ)
    (repeats : Nat) (gpio : gpio_dev_t) (now : Nat)
    (hnc : b.PIN ≠ GPIO_NUM_NC) (hperm : b.long_time_press_permission = true)
    (hl : fast_but_gpio_read b gpio = 0) :
    (∀ f, b.long_time_press_callback = some f → repeats ≠ LOOP_PERFORMANCE →
      callback_control_by_but_longtime_press ops b repeats gpio now
        = ⟨{ b with long_time_press_permission := false },
            List.replicate repeats (event.call f)⟩) ∧
    (∀ f, b.long_time_press_callback = some f → repeats = LOOP_PERFORMANCE →
      callback_control_by_but_longtime_press ops b repeats gpio now
        = ⟨b, [event.call f]⟩) ∧
    (b.long_time_press_callback = none →
      callback_control_by_but_longtime_press ops b repeats gpio now = ⟨b, []⟩) := by
  rw [fast_but_gpio_read_eq] at hl
  refine ⟨?_, ?_, ?_⟩
  · intro f hf hr
    simp [callback_control_by_but_longtime_press, fast_but_gpio_read_eq, hnc, hperm, hl, hf, hr]
  · intro f hf hr
    simp [callback_control_by_but_longtime_press, fast_but_gpio_read_eq, hnc, hperm, hl, hf, hr]
  · intro hf
    simp [callback_control_by_but_longtime_press, fast_but_gpio_read_eq, hnc, hperm, hl, hf]

/-- Instance of claim C25 as the code has it: the callback `8` is bound, the latch is
set and `repeats = 2`. -/
theorem C25_longtime_callback_latch_witness :
    callback_control_by_but_longtime_press spec_ops
        { confirmed_button with
          long_time_press_permission := true, long_time_press_callback := some 8 }
        2 gpio_high 3005000
      = ⟨{ ({ confirmed_button with
              long_time_press_permission := true, long_time_press_callback := some 8 } :
            button_ctx async_await_ctx) with long_time_press_permission := false },
          List.replicate 2 (event.call 8)⟩ :=
  (C25_longtime_callback_latch spec_ops
    { confirmed_button with
      long_time_press_permission := true, long_time_press_callback := some 8 }
    2 gpio_high 3005000 (by decide) (by decide) (by decide)).1 8 (by decide) (by decide)

/-! ## Claim C26: the callback multiple-press classifier polled alone -/

/-- One call of `callback_control_by_but_multiple_press` keeps `callback_multiple_inv`,
and with a target of two or more it invokes no callback. -/
theorem callback_multiple_step {τ : Type} (ops : await_ops τ) (b : button_ctx τ)
    (N repeats : Nat) (gpio : gpio_dev_t) (now : Nat) (h : callback_multiple_inv b) :
    callback_multiple_inv
      (callback_control_by_but_multiple_press ops b N repeats gpio now).button ∧
    (2 ≤ N → ∀ f,
      event.call f ∉ (callback_control_by_but_multiple_press ops b N repeats gpio now).trace) := by
  obtain ⟨h1, h2⟩ := h
  by_cases hN : N < 1
  · refine ⟨?_, fun h => absurd h (by omega)⟩
    simp [callback_control_by_but_multiple_press, hN, callback_multiple_inv, h1, h2]
    exact h1
  by_cases hnc : b.PIN = GPIO_NUM_NC
  · refine ⟨?_, ?_⟩
    · simp [callback_control_by_but_multiple_press, hN, hnc, callback_multiple_inv, h2]
      exact h1
    · intro _ f
      simp [callback_control_by_but_multiple_press, hN, hnc]
  by_cases hp : b.but_pressed = true
  · by_cases hc : 0 < b.presses_counter
    · have hc1 : b.presses_counter = 1 := by omega
      by_cases hr : (ops.async_await b.MULTIPRESS_AWAIT now 3 time_unit.TIME_UNIT_S true).1
          = true
      · refine ⟨?_, ?_⟩
        · simp [callback_control_by_but_multiple_press, hN, hnc, hp, hc1, hr,
            callback_multiple_inv]
        · intro h2N f
          have hne : ¬ (1 = N) := by omega
          simp [callback_control_by_but_multiple_press, hN, hnc, hp, hc1, hr, hne]
      · refine ⟨?_, ?_⟩
        · simp [callback_control_by_but_multiple_press, hN, hnc, hp, hc1, hr,
            callback_multiple_inv]
        · intro _ f
          simp [callback_control_by_but_multiple_press, hN, hnc, hp, hc1, hr]
    · have hc0 : b.presses_counter = 0 := by omega
      by_cases hm : b.mt_permission = true
      · by_cases hl : gpio_level b.PIN b.pull_mode gpio = 0
        · refine ⟨?_, ?_⟩
          · simp [callback_control_by_but_multiple_press, fast_but_gpio_read_eq, hN, hnc, hp,
              hc0, hm, hl, callback_multiple_inv]
          · intro _ f
            simp [callback_control_by_but_multiple_press, fast_but_gpio_read_eq, hN, hnc, hp,
              hc0, hm, hl]
        · refine ⟨?_, ?_⟩
          · simp [callback_control_by_but_multiple_press, fast_but_gpio_read_eq, hN, hnc, hp,
              hc0, hm, hl, callback_multiple_inv]
          · intro _ f
            simp [callback_control_by_but_multiple_press, fast_but_gpio_read_eq, hN, hnc, hp,
              hc0, hm, hl]
      · refine ⟨?_, ?_⟩
        · simp [callback_control_by_but_multiple_press, hN, hnc, hp, hc0, hm,
            callback_multiple_inv]
        · intro _ f
          simp [callback_control_by_but_multiple_press, hN, hnc, hp, hc0, hm]
  · have hc0 : b.presses_counter = 0 := by
      by_contra hne
      exact hp (h1 (by omega))
    by_cases hl : gpio_level b.PIN b.pull_mode gpio = 0
    · refine ⟨?_, ?_⟩
      · simp [callback_control_by_but_multiple_press, fast_but_gpio_read_eq, hN, hnc, hp,
          hc0, hl, callback_multiple_inv]
      · intro _ f
        simp [callback_control_by_but_multiple_press, fast_but_gpio_read_eq, hN, hnc, hp,
          hc0, hl]
    · by_cases hr : (ops.async_await b.DEBOUNCE_AWAIT now 3 time_unit.TIME_UNIT_MS false).1
          = true
      · refine ⟨?_, ?_⟩
        · simp [callback_control_by_but_multiple_press, fast_but_gpio_read_eq, hN, hnc, hp,
            hc0, hl, hr, callback_multiple_inv]
        · intro _ f
          simp [callback_control_by_but_multiple_press, fast_but_gpio_read_eq, hN, hnc, hp,
            hc0, hl, hr]
      · refine ⟨?_, ?_⟩
        · simp [callback_control_by_but_multiple_press, fast_but_gpio_read_eq, hN, hnc, hp,
            hc0, hl, hr, callback_multiple_inv]
        · intro _ f
          simp [callback_control_by_but_multiple_press, fast_but_gpio_read_eq, hN, hnc, hp,
            hc0, hl, hr]

/-- Polling only `callback_control_by_but_multiple_press` from a state satisfying
`callback_multiple_inv`: the invariant holds after every call, and no call with a
target of two or more invokes a callback. -/
theorem callback_multiple_run {τ : Type} (ops : await_ops τ) (b : button_ctx τ)
    (calls : List (Nat × Nat × poll)) (h : callback_multiple_inv b) :
    ∀ x ∈ List.zip calls (callback_multiple_results ops b calls),
      callback_multiple_inv x.2.button ∧ (2 ≤ x.1.1 → ∀ f, event.call f ∉ x.2.trace) := by
  induction calls generalizing b with
  | nil => intro x hx; simp [callback_multiple_results] at hx
  | cons c cs ih =>
    obtain ⟨N, repeats, p⟩ := c
    obtain ⟨s1, s2⟩ := callback_multiple_step ops b N repeats p.gpio p.now h
    intro x hx
    simp only [callback_multiple_results, List.zip_cons_cons, List.mem_cons] at hx
    rcases hx with rfl | hx
    · exact ⟨s1, s2⟩
    · exact ih _ s1 x hx

/-- Claim C26: when only `callback_control_by_but_multiple_press` is polled on a freshly
initialised button (with any callback bound to it afterwards), for every sequence of
levels, timer reports, `presses_quantity` and `repeats`, after every call
`presses_counter > 0` implies `but_pressed = true` and `presses_counter ≤ 1`;
consequently no call with `presses_quantity ≥ 2` invokes the callback. -/
theorem C26_callback_multiple_alone {τ : Type} (ops : await_ops τ)
    (PIN pull_mode type : Int) (b0 : button_ctx τ) (cb : Option Nat)
    (calls : List (Nat × Nat × poll))
    (hinit : button_initialization ops PIN pull_mode type = some b0) :
    ∀ x ∈ List.zip calls
        (callback_multiple_results ops { b0 with multiple_press_callback := cb } calls),
      (0 < x.2.button.presses_counter → x.2.button.but_pressed = true) ∧
      x.2.button.presses_counter ≤ 1 ∧
      (2 ≤ x.1.1 → ∀ f, event.call f ∉ x.2.trace) := by
  have h0 : callback_multiple_inv ({ b0 with multiple_press_callback := cb } : button_ctx τ) := by
    unfold button_initialization at hinit
    split_ifs at hinit
    simp only [Option.some.injEq] at hinit
    subst hinit
    simp [callback_multiple_inv]
  intro x hx
  obtain ⟨⟨i1, i2⟩, i3⟩ := callback_multiple_run ops _ calls h0 x hx
  exact ⟨i1, i2, i3⟩

/-- Instance of claim C26: a pull-up button on pin 4 with the callback `7` bound, polled
with target 2: two debounced presses `50 ms` apart and a released poll three seconds
later.  The count never exceeds one and the callback `7` is not invoked. -/
theorem C26_callback_multiple_alone_witness :
    (List.zip
        [(2, 1, (⟨gpio_low, 0⟩ : poll)), (2, 1, ⟨gpio_low, 3000⟩), (2, 1, ⟨gpio_high, 4000⟩),
          (2, 1, ⟨gpio_low, 50000⟩), (2, 1, ⟨gpio_low, 53000⟩), (2, 1, ⟨gpio_high, 54000⟩),
          (2, 1, ⟨gpio_high, 3100000⟩)]
        (callback_multiple_results spec_ops
          { fresh_button 4 GPIO_PULLUP_ONLY NO_FIX with multiple_press_callback := some 7 }
          [(2, 1, ⟨gpio_low, 0⟩), (2, 1, ⟨gpio_low, 3000⟩), (2, 1, ⟨gpio_high, 4000⟩),
            (2, 1, ⟨gpio_low, 50000⟩), (2, 1, ⟨gpio_low, 53000⟩), (2, 1, ⟨gpio_high, 54000⟩),
            (2, 1, ⟨gpio_high, 3100000⟩)])).all
      (fun x => decide ((0 < x.2.button.presses_counter → x.2.button.but_pressed = true) ∧
        x.2.button.presses_counter ≤ 1 ∧ (2 ≤ x.1.1 → event.call 7 ∉ x.2.trace))) = true :=
  List.all_eq_true.mpr (fun x hx => decide_eq_true
    ⟨(C26_callback_multiple_alone spec_ops 4 GPIO_PULLUP_ONLY NO_FIX
        (fresh_button 4 GPIO_PULLUP_ONLY NO_FIX) (some 7) _ (by decide) x hx).1,
      (C26_callback_multiple_alone spec_ops 4 GPIO_PULLUP_ONLY NO_FIX
        (fresh_button 4 GPIO_PULLUP_ONLY NO_FIX) (some 7) _ (by decide) x hx).2.1,
      fun h => (C26_callback_multiple_alone spec_ops 4 GPIO_PULLUP_ONLY NO_FIX
        (fresh_button 4 GPIO_PULLUP_ONLY NO_FIX) (some 7) _ (by decide) x hx).2.2 h 7⟩)

/-! ## Claim C27: the guard wrapper with a target of two or more -/

/-- With no press counted, a sequence of calls of the guard wrapper, each with its own
flag value and a target of two or more, leaves the record as it was after every
call. -/
theorem multiple_press_wrapper_idle_calls {τ : Type} (ops : await_ops τ)
    (b : button_ctx τ) (calls : List (classifier_call × poll))
    (hc : b.presses_counter = 0)
    (hcalls : ∀ c ∈ calls, ∃ fl N, c.1 = classifier_call.flag_multiple fl N ∧ 2 ≤ N) :
    calls_history ops b calls = List.replicate calls.length b := by
  induction calls with
  | nil => rfl
  | cons c cs ih =>
    obtain ⟨k, p⟩ := c
    obtain ⟨fl, N, hk, hN⟩ := hcalls (k, p) (by simp)
    simp only at hk
    subst hk
    have h0 := multiple_press_wrapper_idle ops b fl N p.gpio p.now hc hN
    have ih1 := ih (fun c hc1 => hcalls c (by simp [hc1]))
    simp [calls_history, call_classifier, h0, ih1, List.replicate_succ]

/-- Claim C27: for every button state with `presses_counter = 0` (a freshly initialised
button is one) and every `presses_quantity ≥ 2`, `flag_control_by_but_multiple_press`
leaves the record and the flag unchanged and has no effect, for every level and timer
implementation; hence polling only this classifier, with a fixed target or with a
target of two or more chosen at each call, never changes `presses_counter` and never
toggles the flag, for any input sequence. -/
theorem C27_wrapper_never_counts {τ : Type} (ops : await_ops τ) (b : button_ctx τ)
    (f : Bool) (N : Nat) (gpio : gpio_dev_t) (now : Nat) (ps : List poll)
    (calls : List (classifier_call × poll))
    (hc : b.presses_counter = 0) (hN : 2 ≤ N)
    (hcalls : ∀ c ∈ calls, ∃ fl M, c.1 = classifier_call.flag_multiple fl M ∧ 2 ≤ M) :
    flag_control_by_but_multiple_press ops b f N gpio now = ⟨b, f, []⟩ ∧
    run_flag (fun b f => flag_control_by_but_multiple_press ops b f N) b f ps = (b, f) ∧
    flag_history (fun b f => flag_control_by_but_multiple_press ops b f N) b f ps
      = List.replicate ps.length f ∧
    calls_history ops b calls = List.replicate calls.length b ∧
    (∀ PIN pull_mode type b0, button_initialization ops PIN pull_mode type = some b0 →
      b0.presses_counter = 0) := by
  refine ⟨multiple_press_wrapper_idle ops b f N gpio now hc hN,
    (multiple_press_wrapper_idle_run ops b f N ps hc hN).1,
    (multiple_press_wrapper_idle_run ops b f N ps hc hN).2,
    multiple_press_wrapper_idle_calls ops b calls hc hcalls, ?_⟩
  intro PIN pull_mode type b0 hinit
  unfold button_initialization at hinit
  split_ifs at hinit
  simp only [Option.some.injEq] at hinit
  subst hinit
  rfl

/-- Instance of claim C27: a fresh pull-up button on pin 4 polled with target 3 through
a clean tap, and called with targets 2 and 3 in turn. -/
theorem C27_wrapper_never_counts_witness :
    flag_control_by_but_multiple_press spec_ops (fresh_button 4 GPIO_PULLUP_ONLY NO_FIX)
        false 3 gpio_low 3000
      = ⟨fresh_button 4 GPIO_PULLUP_ONLY NO_FIX, false, []⟩ ∧
    run_flag (fun b f => flag_control_by_but_multiple_press spec_ops b f 3)
        (fresh_button 4 GPIO_PULLUP_ONLY NO_FIX) false (tap_at 0).polls
      = (fresh_button 4 GPIO_PULLUP_ONLY NO_FIX, false) ∧
    flag_history (fun b f => flag_control_by_but_multiple_press spec_ops b f 3)
        (fresh_button 4 GPIO_PULLUP_ONLY NO_FIX) false (tap_at 0).polls
      = List.replicate (tap_at 0).polls.length false ∧
    calls_history spec_ops (fresh_button 4 GPIO_PULLUP_ONLY NO_FIX)
        [(classifier_call.flag_multiple false 2, ⟨gpio_low, 0⟩),
          (classifier_call.flag_multiple true 3, ⟨gpio_low, 3000⟩),
          (classifier_call.flag_multiple false 2, ⟨gpio_high, 4000⟩)]
      = List.replicate
          [(classifier_call.flag_multiple false 2, (⟨gpio_low, 0⟩ : poll)),
            (classifier_call.flag_multiple true 3, ⟨gpio_low, 3000⟩),
            (classifier_call.flag_multiple false 2, ⟨gpio_high, 4000⟩)].length
          (fresh_button 4 GPIO_PULLUP_ONLY NO_FIX) :=
  (fun h => ⟨h.1, h.2.1, h.2.2.1, h.2.2.2.1⟩)
    (C27_wrapper_never_counts spec_ops (fresh_button 4 GPIO_PULLUP_ONLY NO_FIX) false 3
      gpio_low 3000 (tap_at 0).polls
      [(classifier_call.flag_multiple false 2, ⟨gpio_low, 0⟩),
        (classifier_call.flag_multiple true 3, ⟨gpio_low, 3000⟩),
        (classifier_call.flag_multiple false 2, ⟨gpio_high, 4000⟩)]
      (by decide) (by decide) (by simp))

/-! ## Claim C28: the register read by `fast_but_gpio_read` -/

/-- For a pin below `TOTAL_PINS` the level read does not depend on `GPIO.in1`, whatever
the platform delivers for an undefined shift. -/
theorem fast_but_gpio_read_low_register {τ : Type} (b : button_ctx τ) (gpio : gpio_dev_t)
    (x : Nat) (hp : b.PIN < TOTAL_PINS) :
    fast_but_gpio_read b { gpio with in1_val := x } = fast_but_gpio_read b gpio := by
  simp [fast_but_gpio_read, shift_right_32, hp]

/-- For the pins `0..31` and for pin `35` the level read is the one the specification
words: bit `p` of the 40-bit input word, normalised by pull mode. -/
theorem fast_but_gpio_read_spec {τ : Type} (b : button_ctx τ) (gpio : gpio_dev_t)
    (hp : (0 ≤ b.PIN ∧ b.PIN < 32) ∨ b.PIN = 35) :
    fast_but_gpio_read b gpio = spec_gpio_read b.PIN b.pull_mode gpio := by
  have hraw : (if b.PIN < TOTAL_PINS then
        (((shift_right_32 gpio (gpio.in_val % 2 ^ 32) b.PIN) % 2 : Nat) : Int)
      else (((shift_right_32 gpio (gpio.in1_val % 2 ^ 32) (b.PIN - 32)) % 2 : Nat) : Int))
      = spec_raw_level gpio b.PIN := by
    rcases hp with ⟨h0, h1⟩ | h35
    · have hlt : b.PIN < TOTAL_PINS := by unfold TOTAL_PINS; omega
      rw [if_pos hlt]
      unfold spec_raw_level shift_right_32
      rw [if_pos ⟨h0, h1⟩]
      obtain ⟨n, hn⟩ := Int.eq_ofNat_of_zero_le h0
      rw [hn] at h1 ⊢
      have hn32 : n < 32 := by omega
      simp only [Int.toNat_ofNat, Nat.shiftRight_eq_div_pow]
      congr 1
      interval_cases n <;> omega
    · have hge : ¬ (b.PIN < TOTAL_PINS) := by unfold TOTAL_PINS; omega
      rw [if_neg hge, h35]
      unfold spec_raw_level shift_right_32
      have e0 : (0 : Int) ≤ 35 - 32 ∧ (35 : Int) - 32 < 32 := by decide
      rw [if_pos e0]
      have e1 : ((35 : Int) - 32).toNat = 3 := by decide
      have e2 : (35 : Int).toNat = 35 := by decide
      rw [e1, e2]
      simp only [Nat.shiftRight_eq_div_pow]
      congr 1
      omega
  unfold fast_but_gpio_read spec_gpio_read
  simp only [hraw]

/-- The level the specification words for a pull-down button on pin 33 follows line 33
of `GPIO.in1`: released with `GPIO.in1 = 0`, pressed with `GPIO.in1 = 0x2`, whatever
`GPIO.in` holds. -/
theorem spec_gpio_read_pin_33 (gpio : gpio_dev_t) :
    spec_gpio_read 33 GPIO_PULLDOWN_ONLY { gpio with in1_val := 0 } = 0 ∧
    spec_gpio_read 33 GPIO_PULLDOWN_ONLY { gpio with in1_val := 2 } = 1 := by
  have e : (33 : Int).toNat = 33 := by decide
  have r0 : spec_raw_level { gpio with in1_val := 0 } 33 = 0 := by
    unfold spec_raw_level
    rw [e]
    simp only [Nat.shiftRight_eq_div_pow]
    have h : (gpio.in_val % 2 ^ 32 + 2 ^ 32 * (0 % 2 ^ 8)) / 2 ^ 33 % 2 = 0 := by omega
    exact_mod_cast h
  have r2 : spec_raw_level { gpio with in1_val := 2 } 33 = 1 := by
    unfold spec_raw_level
    rw [e]
    simp only [Nat.shiftRight_eq_div_pow]
    have h : (gpio.in_val % 2 ^ 32 + 2 ^ 32 * (2 % 2 ^ 8)) / 2 ^ 33 % 2 = 1 := by omega
    exact_mod_cast h
  constructor
  · simp [spec_gpio_read, r0, GPIO_PULLDOWN_ONLY, GPIO_PULLUP_ONLY]
  · simp [spec_gpio_read, r2, GPIO_PULLDOWN_ONLY, GPIO_PULLUP_ONLY]

/-- Claim C28 fails on the code for the pins `32`, `33` and `34`: `fast_but_gpio_read`
compares the pin with `TOTAL_PINS` (`35`), not with `32`, so for these pins, which
`button_initialization` accepts, it shifts `GPIO.in` and never reads `GPIO.in1`.
Whatever the platform delivers for that undefined shift, the level read for such a pin
does not change with `GPIO.in1`; so a pull-down button on pin 33 reads the same level
with `GPIO.in1 = 0` and with `GPIO.in1 = 0x2` (line 33 high), where the level the
specification words is released for the first and pressed for the second, and the two
disagree on one of them.  On a platform that masks the shift count to five bits, the
button reads released with `GPIO.in = 0`, `GPIO.in1 = 0x2`, and reads pressed with
`GPIO.in = 0x2`, `GPIO.in1 = 0` (line 1 taken for line 33).  For the pins `0..31` and
for pin `35` the level read is the level the specification words. -/
theorem C28_high_pins_read_low_register :
    button_initialization spec_ops 33 GPIO_PULLDOWN_ONLY NO_FIX
      = some (fresh_button 33 GPIO_PULLDOWN_ONLY NO_FIX) ∧
    (∀ (b : button_ctx async_await_ctx) (gpio : gpio_dev_t) (x : Nat),
      32 ≤ b.PIN → b.PIN ≤ 34 →
      fast_but_gpio_read b { gpio with in1_val := x } = fast_but_gpio_read b gpio) ∧
    (∀ gpio : gpio_dev_t,
      fast_but_gpio_read (fresh_button 33 GPIO_PULLDOWN_ONLY NO_FIX) { gpio with in1_val := 0 }
        = fast_but_gpio_read (fresh_button 33 GPIO_PULLDOWN_ONLY NO_FIX)
            { gpio with in1_val := 2 } ∧
      spec_gpio_read 33 GPIO_PULLDOWN_ONLY { gpio with in1_val := 0 } = 0 ∧
      spec_gpio_read 33 GPIO_PULLDOWN_ONLY { gpio with in1_val := 2 } = 1 ∧
      (fast_but_gpio_read (fresh_button 33 GPIO_PULLDOWN_ONLY NO_FIX)
            { gpio with in1_val := 0 }
          ≠ spec_gpio_read 33 GPIO_PULLDOWN_ONLY { gpio with in1_val := 0 } ∨
        fast_but_gpio_read (fresh_button 33 GPIO_PULLDOWN_ONLY NO_FIX)
            { gpio with in1_val := 2 }
          ≠ spec_gpio_read 33 GPIO_PULLDOWN_ONLY { gpio with in1_val := 2 })) ∧
    fast_but_gpio_read (fresh_button 33 GPIO_PULLDOWN_ONLY NO_FIX) ⟨0, 2, shift_masked⟩ = 0 ∧
    spec_gpio_read 33 GPIO_PULLDOWN_ONLY ⟨0, 2, shift_masked⟩ = 1 ∧
    fast_but_gpio_read (fresh_button 33 GPIO_PULLDOWN_ONLY NO_FIX) ⟨2, 0, shift_masked⟩ = 1 ∧
    spec_gpio_read 33 GPIO_PULLDOWN_ONLY ⟨2, 0, shift_masked⟩ = 0 ∧
    (∀ (b : button_ctx async_await_ctx) (gpio : gpio_dev_t),
      (0 ≤ b.PIN ∧ b.PIN < 32) ∨ b.PIN = 35 →
      fast_but_gpio_read b gpio = spec_gpio_read b.PIN b.pull_mode gpio) := by
  refine ⟨by decide, ?_, ?_, by decide, by decide, by decide, by decide,
    fun b gpio hp => fast_but_gpio_read_spec b gpio hp⟩
  · intro b gpio x _ h34
    exact fast_but_gpio_read_low_register b gpio x (by unfold TOTAL_PINS; omega)
  · intro gpio
    have hsame : fast_but_gpio_read (fresh_button 33 GPIO_PULLDOWN_ONLY NO_FIX)
          { gpio with in1_val := 0 }
        = fast_but_gpio_read (fresh_button 33 GPIO_PULLDOWN_ONLY NO_FIX)
            { gpio with in1_val := 2 } := by
      rw [fast_but_gpio_read_low_register _ gpio 0 (by decide),
        fast_but_gpio_read_low_register _ gpio 2 (by decide)]
    obtain ⟨s0, s2⟩ := spec_gpio_read_pin_33 gpio
    refine ⟨hsame, s0, s2, ?_⟩
    rw [s0, s2, hsame]
    by_cases h : fast_but_gpio_read (fresh_button 33 GPIO_PULLDOWN_ONLY NO_FIX)
        { gpio with in1_val := 2 } = 0
    · right
      rw [h]
      decide
    · left
      exact h

/-! ## Claim C7: the debounce window for every classifier -/

/-- Polling a flag classifier through polls that all meet the window condition `W t0`,
from a state `J (some t0)` that every such poll keeps: the state stays of that kind
and the flag is kept. -/
theorem unconfirmed_flag_armed_run {τ : Type}
    (step : button_ctx τ → Bool → gpio_dev_t → Nat → flag_result τ)
    (J : Option Nat → button_ctx τ → Prop) (W : Nat → poll → Prop) (t0 : Nat)
    (harm : ∀ (b : button_ctx τ) (f : Bool) (p : poll), J (some t0) b → W t0 p →
      (step b f p.gpio p.now).flag = f ∧ J (some t0) (step b f p.gpio p.now).button)
    (ps : List poll) (hW : ∀ p ∈ ps, W t0 p) :
    ∀ (b : button_ctx τ) (f : Bool), J (some t0) b →
      (∀ b' ∈ button_history step b f ps, ∃ o, J o b') ∧
      flag_history step b f ps = List.replicate ps.length f := by
  induction ps with
  | nil =>
    intro b f _
    exact ⟨by simp [button_history], rfl⟩
  | cons p ps ih =>
    intro b f hJ
    obtain ⟨s1, s2⟩ := harm b f p hJ (hW p (by simp))
    obtain ⟨r1, r2⟩ := ih (fun q hq => hW q (by simp [hq])) _ f s2
    simp only [button_history, flag_history, s1, List.length_cons, List.replicate_succ,
      List.mem_cons]
    refine ⟨?_, by rw [r2]⟩
    intro b' hb'
    rcases hb' with rfl | hb'
    · exact ⟨_, s2⟩
    · exact r1 b' hb'

/-- Polling a flag classifier from a state `J none` (debounce timer not armed): if
released polls keep `J none`, the first pressed poll at `t0` gives `J (some t0)`, and
the polls meeting the window condition `W t0` keep `J (some t0)`, each step keeping
the flag, then over a poll sequence all of whose polls meet the window condition of
its first pressed poll the state stays of these kinds and the flag is kept. -/
theorem unconfirmed_flag_run {τ : Type}
    (step : button_ctx τ → Bool → gpio_dev_t → Nat → flag_result τ)
    (b0 : button_ctx τ) (J : Option Nat → button_ctx τ → Prop) (W : Nat → poll → Prop)
    (hrel : ∀ (b : button_ctx τ) (f : Bool) (p : poll), J none b →
      fast_but_gpio_read b0 p.gpio = 0 →
      (step b f p.gpio p.now).flag = f ∧ J none (step b f p.gpio p.now).button)
    (hpress : ∀ (b : button_ctx τ) (f : Bool) (p : poll), J none b →
      fast_but_gpio_read b0 p.gpio ≠ 0 →
      (step b f p.gpio p.now).flag = f ∧ J (some p.now) (step b f p.gpio p.now).button)
    (harm : ∀ (t0 : Nat) (b : button_ctx τ) (f : Bool) (p : poll), J (some t0) b → W t0 p →
      (step b f p.gpio p.now).flag = f ∧ J (some t0) (step b f p.gpio p.now).button)
    (ps : List poll)
    (hW : ∀ t0, first_press b0 ps = some t0 → ∀ p ∈ ps, W t0 p) :
    ∀ (b : button_ctx τ) (f : Bool), J none b →
      (∀ b' ∈ button_history step b f ps, ∃ o, J o b') ∧
      flag_history step b f ps = List.replicate ps.length f := by
  induction ps with
  | nil =>
    intro b f _
    exact ⟨by simp [button_history], rfl⟩
  | cons p ps ih =>
    intro b f hJ
    by_cases hl : fast_but_gpio_read b0 p.gpio = 0
    · obtain ⟨s1, s2⟩ := hrel b f p hJ hl
      have hfp : first_press b0 (p :: ps) = first_press b0 ps := by
        simp [first_press, hl]
      obtain ⟨r1, r2⟩ := ih (fun t0 ht0 q hq =>
        hW t0 (by rw [hfp]; exact ht0) q (by simp [hq])) _ f s2
      simp only [button_history, flag_history, s1, List.length_cons, List.replicate_succ,
        List.mem_cons]
      refine ⟨?_, by rw [r2]⟩
      intro b' hb'
      rcases hb' with rfl | hb'
      · exact ⟨_, s2⟩
      · exact r1 b' hb'
    · have hfp : first_press b0 (p :: ps) = some p.now := by
        simp [first_press, hl]
      obtain ⟨s1, s2⟩ := hpress b f p hJ hl
      obtain ⟨r1, r2⟩ := unconfirmed_flag_armed_run step J W p.now (harm p.now) ps
        (fun q hq => hW p.now hfp q (by simp [hq])) _ f s2
      simp only [button_history, flag_history, s1, List.length_cons, List.replicate_succ,
        List.mem_cons]
      refine ⟨?_, by rw [r2]⟩
      intro b' hb'
      rcases hb' with rfl | hb'
      · exact ⟨_, s2⟩
      · exact r1 b' hb'

/-- Polling a callback classifier through polls that all meet the window condition
`W t0`, from a state `J (some t0)` that every such poll keeps without invoking a
callback: the state stays of that kind and no callback is invoked. -/
theorem unconfirmed_callback_armed_run {τ : Type}
    (step : button_ctx τ → gpio_dev_t → Nat → callback_result τ)
    (J : Option Nat → button_ctx τ → Prop) (W : Nat → poll → Prop) (t0 : Nat)
    (harm : ∀ (b : button_ctx τ) (p : poll), J (some t0) b → W t0 p →
      (∀ g, event.call g ∉ (step b p.gpio p.now).trace) ∧
      J (some t0) (step b p.gpio p.now).button)
    (ps : List poll) (hW : ∀ p ∈ ps, W t0 p) :
    ∀ (b : button_ctx τ), J (some t0) b →
      ∀ r ∈ callback_results step b ps,
        (∃ o, J o r.button) ∧ ∀ g, event.call g ∉ r.trace := by
  induction ps with
  | nil =>
    intro b _ r hr
    simp [callback_results] at hr
  | cons p ps ih =>
    intro b hJ r hr
    obtain ⟨s1, s2⟩ := harm b p hJ (hW p (by simp))
    simp only [callback_results, List.mem_cons] at hr
    rcases hr with rfl | hr
    · exact ⟨⟨_, s2⟩, s1⟩
    · exact ih (fun q hq => hW q (by simp [hq])) _ s2 r hr

/-- Polling a callback classifier from a state `J none`: the counterpart of
`unconfirmed_flag_run`, with "no callback is invoked" in the place of "the flag is
kept". -/
theorem unconfirmed_callback_run {τ : Type}
    (step : button_ctx τ → gpio_dev_t → Nat → callback_result τ)
    (b0 : button_ctx τ) (J : Option Nat → button_ctx τ → Prop) (W : Nat → poll → Prop)
    (hrel : ∀ (b : button_ctx τ) (p : poll), J none b →
      fast_but_gpio_read b0 p.gpio = 0 →
      (∀ g, event.call g ∉ (step b p.gpio p.now).trace) ∧
      J none (step b p.gpio p.now).button)
    (hpress : ∀ (b : button_ctx τ) (p : poll), J none b →
      fast_but_gpio_read b0 p.gpio ≠ 0 →
      (∀ g, event.call g ∉ (step b p.gpio p.now).trace) ∧
      J (some p.now) (step b p.gpio p.now).button)
    (harm : ∀ (t0 : Nat) (b : button_ctx τ) (p : poll), J (some t0) b → W t0 p →
      (∀ g, event.call g ∉ (step b p.gpio p.now).trace) ∧
      J (some t0) (step b p.gpio p.now).button)
    (ps : List poll)
    (hW : ∀ t0, first_press b0 ps = some t0 → ∀ p ∈ ps, W t0 p) :
    ∀ (b : button_ctx τ), J none b →
      ∀ r ∈ callback_results step b ps,
        (∃ o, J o r.button) ∧ ∀ g, event.call g ∉ r.trace := by
  induction ps with
  | nil =>
    intro b _ r hr
    simp [callback_results] at hr
  | cons p ps ih =>
    intro b hJ r hr
    simp only [callback_results, List.mem_cons] at hr
    by_cases hl : fast_but_gpio_read b0 p.gpio = 0
    · obtain ⟨s1, s2⟩ := hrel b p hJ hl
      have hfp : first_press b0 (p :: ps) = first_press b0 ps := by
        simp [first_press, hl]
      rcases hr with rfl | hr
      · exact ⟨⟨_, s2⟩, s1⟩
      · exact ih (fun t0 ht0 q hq =>
          hW t0 (by rw [hfp]; exact ht0) q (by simp [hq])) _ s2 r hr
    · have hfp : first_press b0 (p :: ps) = some p.now := by
        simp [first_press, hl]
      obtain ⟨s1, s2⟩ := hpress b p hJ hl
      rcases hr with rfl | hr
      · exact ⟨⟨_, s2⟩, s1⟩
      · exact unconfirmed_callback_armed_run step J W p.now (harm p.now) ps
          (fun q hq => hW p.now hfp q (by simp [hq])) _ s2 r hr

/-- Polling a flag classifier that returns at once in the state `b`: record and flag
stay as they are. -/
theorem flag_noop_run {τ : Type}
    (step : button_ctx τ → Bool → gpio_dev_t → Nat → flag_result τ) (b : button_ctx τ)
    (hnoop : ∀ (f : Bool) (gpio : gpio_dev_t) (now : Nat), step b f gpio now = ⟨b, f, []⟩)
    (f : Bool) (ps : List poll) :
    (∀ b' ∈ button_history step b f ps, b' = b) ∧
    flag_history step b f ps = List.replicate ps.length f := by
  induction ps with
  | nil => exact ⟨by simp [button_history], rfl⟩
  | cons p ps ih =>
    simp only [button_history, flag_history, hnoop, List.length_cons, List.replicate_succ,
      List.mem_cons]
    refine ⟨?_, by rw [ih.2]⟩
    intro b' hb'
    rcases hb' with rfl | hb'
    · rfl
    · exact ih.1 b' hb'

/-- A poll of the flag infinite classifier on a button with no confirmed press: a
released poll changes nothing that matters, a first pressed poll arms the debounce
timer, and a poll that is released or comes less than `3 ms` after the arming poll
confirms nothing; the flag is kept. -/
theorem flag_infinite_unconfirmed_step (b0 b : button_ctx async_await_ctx) (f : Bool)
    (gpio : gpio_dev_t) (now : Nat) (hnc : b0.PIN ≠ GPIO_NUM_NC) :
    (unconfirmed_inv b0 none b → fast_but_gpio_read b0 gpio = 0 →
      (flag_control_by_but_infinite_press spec_ops b f gpio now).flag = f ∧
      unconfirmed_inv b0 none
        (flag_control_by_but_infinite_press spec_ops b f gpio now).button) ∧
    (unconfirmed_inv b0 none b → fast_but_gpio_read b0 gpio ≠ 0 →
      (flag_control_by_but_infinite_press spec_ops b f gpio now).flag = f ∧
      unconfirmed_inv b0 (some now)
        (flag_control_by_but_infinite_press spec_ops b f gpio now).button) ∧
    (∀ t0, unconfirmed_inv b0 (some t0) b →
      (fast_but_gpio_read b0 gpio ≠ 0 → now < t0 + 3000) →
      (flag_control_by_but_infinite_press spec_ops b f gpio now).flag = f ∧
      unconfirmed_inv b0 (some t0)
        (flag_control_by_but_infinite_press spec_ops b f gpio now).button) := by
  refine ⟨?_, ?_, ?_⟩
  · rintro ⟨h1, h2, hp, hc, hlp, ha⟩ hl
    rw [fast_but_gpio_read_eq] at hl
    simp [flag_control_by_but_infinite_press, fast_but_gpio_read_eq, unconfirmed_inv, spec_ops,
      h1, h2, hnc, hl, hp, hc, hlp, ha]
  · rintro ⟨h1, h2, hp, hc, hlp, ha⟩ hl
    rw [fast_but_gpio_read_eq] at hl
    have hd := async_await_unarmed b.DEBOUNCE_AWAIT now 3 time_unit.TIME_UNIT_MS false ha
      (by decide)
    simp [flag_control_by_but_infinite_press, fast_but_gpio_read_eq, unconfirmed_inv, spec_ops,
      h1, h2, hnc, hl, hp, hc, hlp, hd]
  · rintro t0 ⟨h1, h2, hp, hc, hlp, ha, hs⟩ hw
    by_cases hl : gpio_level b0.PIN b0.pull_mode gpio = 0
    · simp [flag_control_by_but_infinite_press, fast_but_gpio_read_eq, unconfirmed_inv,
        spec_ops, h1, h2, hnc, hl, hp, hc, hlp, ha, hs]
    · have ht : ¬ (t0 + duration_us 3 time_unit.TIME_UNIT_MS ≤ now) := by
        have hlt := hw hl
        show ¬ (t0 + 3000 ≤ now)
        omega
      have hd := async_await_armed_early b.DEBOUNCE_AWAIT now 3 t0
        time_unit.TIME_UNIT_MS false ha hs ht
      simp [flag_control_by_but_infinite_press, fast_but_gpio_read_eq, unconfirmed_inv,
        spec_ops, h1, h2, hnc, hl, hp, hc, hlp, hd]

/-- A poll of the inner multiple-press function (target at least one) on a button with
no confirmed press and nothing counted: the counterpart of
`flag_infinite_unconfirmed_step`. -/
theorem flag_inside_unconfirmed_step (b0 b : button_ctx async_await_ctx) (f : Bool) (N : Nat)
    (gpio : gpio_dev_t) (now : Nat) (hnc : b0.PIN ≠ GPIO_NUM_NC) (hN : ¬ N < 1) :
    (unconfirmed_inv b0 none b → fast_but_gpio_read b0 gpio = 0 →
      (flag_control_by_but_multiple_press_inside spec_ops b f N gpio now).flag = f ∧
      unconfirmed_inv b0 none
        (flag_control_by_but_multiple_press_inside spec_ops b f N gpio now).button) ∧
    (unconfirmed_inv b0 none b → fast_but_gpio_read b0 gpio ≠ 0 →
      (flag_control_by_but_multiple_press_inside spec_ops b f N gpio now).flag = f ∧
      unconfirmed_inv b0 (some now)
        (flag_control_by_but_multiple_press_inside spec_ops b f N gpio now).button) ∧
    (∀ t0, unconfirmed_inv b0 (some t0) b →
      (fast_but_gpio_read b0 gpio ≠ 0 → now < t0 + 3000) →
      (flag_control_by_but_multiple_press_inside spec_ops b f N gpio now).flag = f ∧
      unconfirmed_inv b0 (some t0)
        (flag_control_by_but_multiple_press_inside spec_ops b f N gpio now).button) := by
  refine ⟨?_, ?_, ?_⟩
  · rintro ⟨h1, h2, hp, hc, hlp, ha⟩ hl
    rw [fast_but_gpio_read_eq] at hl
    by_cases hmx : N > b.max_presses_quantity
    · by_cases hm : b.mt_permission = true
      · by_cases he : b.long_time_await_end = true
        · simp [flag_control_by_but_multiple_press_inside, fast_but_gpio_read_eq,
            unconfirmed_inv, spec_ops, h1, h2, hnc, hl, hp, hc, hlp, hN, ha, hmx, hm, he]
        · simp [flag_control_by_but_multiple_press_inside, fast_but_gpio_read_eq,
            unconfirmed_inv, spec_ops, h1, h2, hnc, hl, hp, hc, hlp, hN, ha, hmx, hm, he]
      · by_cases he : b.long_time_await_end = true
        · simp [flag_control_by_but_multiple_press_inside, fast_but_gpio_read_eq,
            unconfirmed_inv, spec_ops, h1, h2, hnc, hl, hp, hc, hlp, hN, ha, hmx, hm, he]
        · simp [flag_control_by_but_multiple_press_inside, fast_but_gpio_read_eq,
            unconfirmed_inv, spec_ops, h1, h2, hnc, hl, hp, hc, hlp, hN, ha, hmx, hm, he]
    · by_cases hm : b.mt_permission = true
      · by_cases he : b.long_time_await_end = true
        · simp [flag_control_by_but_multiple_press_inside, fast_but_gpio_read_eq,
            unconfirmed_inv, spec_ops, h1, h2, hnc, hl, hp, hc, hlp, hN, ha, hmx, hm, he]
        · simp [flag_control_by_but_multiple_press_inside, fast_but_gpio_read_eq,
            unconfirmed_inv, spec_ops, h1, h2, hnc, hl, hp, hc, hlp, hN, ha, hmx, hm, he]
      · by_cases he : b.long_time_await_end = true
        · simp [flag_control_by_but_multiple_press_inside, fast_but_gpio_read_eq,
            unconfirmed_inv, spec_ops, h1, h2, hnc, hl, hp, hc, hlp, hN, ha, hmx, hm, he]
        · simp [flag_control_by_but_multiple_press_inside, fast_but_gpio_read_eq,
            unconfirmed_inv, spec_ops, h1, h2, hnc, hl, hp, hc, hlp, hN, ha, hmx, hm, he]
  · rintro ⟨h1, h2, hp, hc, hlp, ha⟩ hl
    rw [fast_but_gpio_read_eq] at hl
    have hd := async_await_unarmed b.DEBOUNCE_AWAIT now 3 time_unit.TIME_UNIT_MS false ha
      (by decide)
    by_cases hmx : N > b.max_presses_quantity
    · by_cases hm : b.mt_permission = true
      · by_cases he : b.long_time_await_end = true
        · simp [flag_control_by_but_multiple_press_inside, fast_but_gpio_read_eq,
            unconfirmed_inv, spec_ops, h1, h2, hnc, hl, hp, hc, hlp, hN, hd, hmx, hm, he]
        · simp [flag_control_by_but_multiple_press_inside, fast_but_gpio_read_eq,
            unconfirmed_inv, spec_ops, h1, h2, hnc, hl, hp, hc, hlp, hN, hd, hmx, hm, he]
      · by_cases he : b.long_time_await_end = true
        · simp [flag_control_by_but_multiple_press_inside, fast_but_gpio_read_eq,
            unconfirmed_inv, spec_ops, h1, h2, hnc, hl, hp, hc, hlp, hN, hd, hmx, hm, he]
        · simp [flag_control_by_but_multiple_press_inside, fast_but_gpio_read_eq,
            unconfirmed_inv, spec_ops, h1, h2, hnc, hl, hp, hc, hlp, hN, hd, hmx, hm, he]
    · by_cases hm : b.mt_permission = true
      · by_cases he : b.long_time_await_end = true
        · simp [flag_control_by_but_multiple_press_inside, fast_but_gpio_read_eq,
            unconfirmed_inv, spec_ops, h1, h2, hnc, hl, hp, hc, hlp, hN, hd, hmx, hm, he]
        · simp [flag_control_by_but_multiple_press_inside, fast_but_gpio_read_eq,
            unconfirmed_inv, spec_ops, h1, h2, hnc, hl, hp, hc, hlp, hN, hd, hmx, hm, he]
      · by_cases he : b.long_time_await_end = true
        · simp [flag_control_by_but_multiple_press_inside, fast_but_gpio_read_eq,
            unconfirmed_inv, spec_ops, h1, h2, hnc, hl, hp, hc, hlp, hN, hd, hmx, hm, he]
        · simp [flag_control_by_but_multiple_press_inside, fast_but_gpio_read_eq,
            unconfirmed_inv, spec_ops, h1, h2, hnc, hl, hp, hc, hlp, hN, hd, hmx, hm, he]
  · rintro t0 ⟨h1, h2, hp, hc, hlp, ha, hs⟩ hw
    by_cases hl : gpio_level b0.PIN b0.pull_mode gpio = 0
    · by_cases hmx : N > b.max_presses_quantity
      · by_cases hm : b.mt_permission = true
        · by_cases he : b.long_time_await_end = true
          · simp [flag_control_by_but_multiple_press_inside, fast_but_gpio_read_eq,
              unconfirmed_inv, spec_ops, h1, h2, hnc, hl, hp, hc, hlp, hN, ha, hs, hmx, hm, he]
          · simp [flag_control_by_but_multiple_press_inside, fast_but_gpio_read_eq,
              unconfirmed_inv, spec_ops, h1, h2, hnc, hl, hp, hc, hlp, hN, ha, hs, hmx, hm, he]
        · by_cases he : b.long_time_await_end = true
          · simp [flag_control_by_but_multiple_press_inside, fast_but_gpio_read_eq,
              unconfirmed_inv, spec_ops, h1, h2, hnc, hl, hp, hc, hlp, hN, ha, hs, hmx, hm, he]
          · simp [flag_control_by_but_multiple_press_inside, fast_but_gpio_read_eq,
              unconfirmed_inv, spec_ops, h1, h2, hnc, hl, hp, hc, hlp, hN, ha, hs, hmx, hm, he]
      · by_cases hm : b.mt_permission = true
        · by_cases he : b.long_time_await_end = true
          · simp [flag_control_by_but_multiple_press_inside, fast_but_gpio_read_eq,
              unconfirmed_inv, spec_ops, h1, h2, hnc, hl, hp, hc, hlp, hN, ha, hs, hmx, hm, he]
          · simp [flag_control_by_but_multiple_press_inside, fast_but_gpio_read_eq,
              unconfirmed_inv, spec_ops, h1, h2, hnc, hl, hp, hc, hlp, hN, ha, hs, hmx, hm, he]
        · by_cases he : b.long_time_await_end = true
          · simp [flag_control_by_but_multiple_press_inside, fast_but_gpio_read_eq,
              unconfirmed_inv, spec_ops, h1, h2, hnc, hl, hp, hc, hlp, hN, ha, hs, hmx, hm, he]
          · simp [flag_control_by_but_multiple_press_inside, fast_but_gpio_read_eq,
              unconfirmed_inv, spec_ops, h1, h2, hnc, hl, hp, hc, hlp, hN, ha, hs, hmx, hm, he]
    · have ht : ¬ (t0 + duration_us 3 time_unit.TIME_UNIT_MS ≤ now) := by
        have hlt := hw hl
        show ¬ (t0 + 3000 ≤ now)
        omega
      have hd := async_await_armed_early b.DEBOUNCE_AWAIT now 3 t0
        time_unit.TIME_UNIT_MS false ha hs ht
      by_cases hmx : N > b.max_presses_quantity
      · by_cases hm : b.mt_permission = true
        · by_cases he : b.long_time_await_end = true
          · simp [flag_control_by_but_multiple_press_inside, fast_but_gpio_read_eq,
              unconfirmed_inv, spec_ops, h1, h2, hnc, hl, hp, hc, hlp, hN, hd, hmx, hm, he]
          · simp [flag_control_by_but_multiple_press_inside, fast_but_gpio_read_eq,
              unconfirmed_inv, spec_ops, h1, h2, hnc, hl, hp, hc, hlp, hN, hd, hmx, hm, he]
        · by_cases he : b.long_time_await_end = true
          · simp [flag_control_by_but_multiple_press_inside, fast_but_gpio_read_eq,
              unconfirmed_inv, spec_ops, h1, h2, hnc, hl, hp, hc, hlp, hN, hd, hmx, hm, he]
          · simp [flag_control_by_but_multiple_press_inside, fast_but_gpio_read_eq,
              unconfirmed_inv, spec_ops, h1, h2, hnc, hl, hp, hc, hlp, hN, hd, hmx, hm, he]
      · by_cases hm : b.mt_permission = true
        · by_cases he : b.long_time_await_end = true
          · simp [flag_control_by_but_multiple_press_inside, fast_but_gpio_read_eq,
              unconfirmed_inv, spec_ops, h1, h2, hnc, hl, hp, hc, hlp, hN, hd, hmx, hm, he]
          · simp [flag_control_by_but_multiple_press_inside, fast_but_gpio_read_eq,
              unconfirmed_inv, spec_ops, h1, h2, hnc, hl, hp, hc, hlp, hN, hd, hmx, hm, he]
        · by_cases he : b.long_time_await_end = true
          · simp [flag_control_by_but_multiple_press_inside, fast_but_gpio_read_eq,
              unconfirmed_inv, spec_ops, h1, h2, hnc, hl, hp, hc, hlp, hN, hd, hmx, hm, he]
          · simp [flag_control_by_but_multiple_press_inside, fast_but_gpio_read_eq,
              unconfirmed_inv, spec_ops, h1, h2, hnc, hl, hp, hc, hlp, hN, hd, hmx, hm, he]

/-- A poll of the callback onetime classifier on a button with no confirmed press: the
counterpart of `flag_infinite_unconfirmed_step`, no callback being invoked. -/
theorem callback_onetime_unconfirmed_step (b0 b : button_ctx async_await_ctx) (repeats : Nat)
    (gpio : gpio_dev_t) (now : Nat) (hnc : b0.PIN ≠ GPIO_NUM_NC) :
    (unconfirmed_inv b0 none b → fast_but_gpio_read b0 gpio = 0 →
      (∀ g, event.call g ∉
          (callback_control_by_but_onetime_press spec_ops b repeats gpio now).trace) ∧
      unconfirmed_inv b0 none
        (callback_control_by_but_onetime_press spec_ops b repeats gpio now).button) ∧
    (unconfirmed_inv b0 none b → fast_but_gpio_read b0 gpio ≠ 0 →
      (∀ g, event.call g ∉
          (callback_control_by_but_onetime_press spec_ops b repeats gpio now).trace) ∧
      unconfirmed_inv b0 (some now)
        (callback_control_by_but_onetime_press spec_ops b repeats gpio now).button) ∧
    (∀ t0, unconfirmed_inv b0 (some t0) b →
      (fast_but_gpio_read b0 gpio ≠ 0 → now < t0 + 3000) →
      (∀ g, event.call g ∉
          (callback_control_by_but_onetime_press spec_ops b repeats gpio now).trace) ∧
      unconfirmed_inv b0 (some t0)
        (callback_control_by_but_onetime_press spec_ops b repeats gpio now).button) := by
  refine ⟨?_, ?_, ?_⟩
  · rintro ⟨h1, h2, hp, hc, hlp, ha⟩ hl
    rw [fast_but_gpio_read_eq] at hl
    simp [callback_control_by_but_onetime_press, fast_but_gpio_read_eq, unconfirmed_inv,
      spec_ops, h1, h2, hnc, hl, hp, hc, hlp, ha]
  · rintro ⟨h1, h2, hp, hc, hlp, ha⟩ hl
    rw [fast_but_gpio_read_eq] at hl
    have hd := async_await_unarmed b.DEBOUNCE_AWAIT now 3 time_unit.TIME_UNIT_MS false ha
      (by decide)
    simp [callback_control_by_but_onetime_press, fast_but_gpio_read_eq, unconfirmed_inv,
      spec_ops, h1, h2, hnc, hl, hp, hc, hlp, hd]
  · rintro t0 ⟨h1, h2, hp, hc, hlp, ha, hs⟩ hw
    by_cases hl : gpio_level b0.PIN b0.pull_mode gpio = 0
    · simp [callback_control_by_but_onetime_press, fast_but_gpio_read_eq, unconfirmed_inv,
        spec_ops, h1, h2, hnc, hl, hp, hc, hlp, ha, hs]
    · have ht : ¬ (t0 + duration_us 3 time_unit.TIME_UNIT_MS ≤ now) := by
        have hlt := hw hl
        show ¬ (t0 + 3000 ≤ now)
        omega
      have hd := async_await_armed_early b.DEBOUNCE_AWAIT now 3 t0
        time_unit.TIME_UNIT_MS false ha hs ht
      simp [callback_control_by_but_onetime_press, fast_but_gpio_read_eq, unconfirmed_inv,
        spec_ops, h1, h2, hnc, hl, hp, hc, hlp, hd]

/-- A poll of the callback multiple-press classifier (target at least one) on a button
with no confirmed press and nothing counted: the counterpart of
`flag_infinite_unconfirmed_step`, no callback being invoked. -/
theorem callback_multiple_unconfirmed_step (b0 b : button_ctx async_await_ctx) (N repeats : Nat)
    (gpio : gpio_dev_t) (now : Nat) (hnc : b0.PIN ≠ GPIO_NUM_NC) (hN : ¬ N < 1) :
    (unconfirmed_inv b0 none b → fast_but_gpio_read b0 gpio = 0 →
      (∀ g, event.call g ∉
          (callback_control_by_but_multiple_press spec_ops b N repeats gpio now).trace) ∧
      unconfirmed_inv b0 none
        (callback_control_by_but_multiple_press spec_ops b N repeats gpio now).button) ∧
    (unconfirmed_inv b0 none b → fast_but_gpio_read b0 gpio ≠ 0 →
      (∀ g, event.call g ∉
          (callback_control_by_but_multiple_press spec_ops b N repeats gpio now).trace) ∧
      unconfirmed_inv b0 (some now)
        (callback_control_by_but_multiple_press spec_ops b N repeats gpio now).button) ∧
    (∀ t0, unconfirmed_inv b0 (some t0) b →
      (fast_but_gpio_read b0 gpio ≠ 0 → now < t0 + 3000) →
      (∀ g, event.call g ∉
          (callback_control_by_but_multiple_press spec_ops b N repeats gpio now).trace) ∧
      unconfirmed_inv b0 (some t0)
        (callback_control_by_but_multiple_press spec_ops b N repeats gpio now).button) := by
  refine ⟨?_, ?_, ?_⟩
  · rintro ⟨h1, h2, hp, hc, hlp, ha⟩ hl
    rw [fast_but_gpio_read_eq] at hl
    simp [callback_control_by_but_multiple_press, fast_but_gpio_read_eq, unconfirmed_inv,
      spec_ops, h1, h2, hnc, hl, hp, hc, hlp, hN, ha]
  · rintro ⟨h1, h2, hp, hc, hlp, ha⟩ hl
    rw [fast_but_gpio_read_eq] at hl
    have hd := async_await_unarmed b.DEBOUNCE_AWAIT now 3 time_unit.TIME_UNIT_MS false ha
      (by decide)
    simp [callback_control_by_but_multiple_press, fast_but_gpio_read_eq, unconfirmed_inv,
      spec_ops, h1, h2, hnc, hl, hp, hc, hlp, hN, hd]
  · rintro t0 ⟨h1, h2, hp, hc, hlp, ha, hs⟩ hw
    by_cases hl : gpio_level b0.PIN b0.pull_mode gpio = 0
    · simp [callback_control_by_but_multiple_press, fast_but_gpio_read_eq, unconfirmed_inv,
        spec_ops, h1, h2, hnc, hl, hp, hc, hlp, hN, ha, hs]
    · have ht : ¬ (t0 + duration_us 3 time_unit.TIME_UNIT_MS ≤ now) := by
        have hlt := hw hl
        show ¬ (t0 + 3000 ≤ now)
        omega
      have hd := async_await_armed_early b.DEBOUNCE_AWAIT now 3 t0
        time_unit.TIME_UNIT_MS false ha hs ht
      simp [callback_control_by_but_multiple_press, fast_but_gpio_read_eq, unconfirmed_inv,
        spec_ops, h1, h2, hnc, hl, hp, hc, hlp, hN, hd]

/-- A poll of the callback longtime classifier on a button with no confirmed press and
no latched callback: the counterpart of `flag_infinite_unconfirmed_step`, no callback
being invoked. -/
theorem callback_longtime_unconfirmed_step (b0 b : button_ctx async_await_ctx) (repeats : Nat)
    (gpio : gpio_dev_t) (now : Nat) (hnc : b0.PIN ≠ GPIO_NUM_NC) :
    (unconfirmed_inv b0 none b → fast_but_gpio_read b0 gpio = 0 →
      (∀ g, event.call g ∉
          (callback_control_by_but_longtime_press spec_ops b repeats gpio now).trace) ∧
      unconfirmed_inv b0 none
        (callback_control_by_but_longtime_press spec_ops b repeats gpio now).button) ∧
    (unconfirmed_inv b0 none b → fast_but_gpio_read b0 gpio ≠ 0 →
      (∀ g, event.call g ∉
          (callback_control_by_but_longtime_press spec_ops b repeats gpio now).trace) ∧
      unconfirmed_inv b0 (some now)
        (callback_control_by_but_longtime_press spec_ops b repeats gpio now).button) ∧
    (∀ t0, unconfirmed_inv b0 (some t0) b →
      (fast_but_gpio_read b0 gpio ≠ 0 → now < t0 + 3000) →
      (∀ g, event.call g ∉
          (callback_control_by_but_longtime_press spec_ops b repeats gpio now).trace) ∧
      unconfirmed_inv b0 (some t0)
        (callback_control_by_but_longtime_press spec_ops b repeats gpio now).button) := by
  refine ⟨?_, ?_, ?_⟩
  · rintro ⟨h1, h2, hp, hc, hlp, ha⟩ hl
    rw [fast_but_gpio_read_eq] at hl
    simp [callback_control_by_but_longtime_press, fast_but_gpio_read_eq, unconfirmed_inv,
      spec_ops, h1, h2, hnc, hl, hp, hc, hlp, ha]
  · rintro ⟨h1, h2, hp, hc, hlp, ha⟩ hl
    rw [fast_but_gpio_read_eq] at hl
    have hd := async_await_unarmed b.DEBOUNCE_AWAIT now 3 time_unit.TIME_UNIT_MS false ha
      (by decide)
    simp [callback_control_by_but_longtime_press, fast_but_gpio_read_eq, unconfirmed_inv,
      spec_ops, h1, h2, hnc, hl, hp, hc, hlp, hd]
  · rintro t0 ⟨h1, h2, hp, hc, hlp, ha, hs⟩ hw
    by_cases hl : gpio_level b0.PIN b0.pull_mode gpio = 0
    · simp [callback_control_by_but_longtime_press, fast_but_gpio_read_eq, unconfirmed_inv,
        spec_ops, h1, h2, hnc, hl, hp, hc, hlp, ha, hs]
    · have ht : ¬ (t0 + duration_us 3 time_unit.TIME_UNIT_MS ≤ now) := by
        have hlt := hw hl
        show ¬ (t0 + 3000 ≤ now)
        omega
      have hd := async_await_armed_early b.DEBOUNCE_AWAIT now 3 t0
        time_unit.TIME_UNIT_MS false ha hs ht
      simp [callback_control_by_but_longtime_press, fast_but_gpio_read_eq, unconfirmed_inv,
        spec_ops, h1, h2, hnc, hl, hp, hc, hlp, hd]

/-- A poll of the callback infinite classifier on a button with no confirmed press: the
counterpart of `flag_infinite_unconfirmed_step`, no callback being invoked. -/
theorem callback_infinite_unconfirmed_step (b0 b : button_ctx async_await_ctx) (repeats : Nat)
    (gpio : gpio_dev_t) (now : Nat) (hnc : b0.PIN ≠ GPIO_NUM_NC) :
    (unconfirmed_inv b0 none b → fast_but_gpio_read b0 gpio = 0 →
      (∀ g, event.call g ∉
          (callback_control_by_but_infinite_press spec_ops b repeats gpio now).trace) ∧
      unconfirmed_inv b0 none
        (callback_control_by_but_infinite_press spec_ops b repeats gpio now).button) ∧
    (unconfirmed_inv b0 none b → fast_but_gpio_read b0 gpio ≠ 0 →
      (∀ g, event.call g ∉
          (callback_control_by_but_infinite_press spec_ops b repeats gpio now).trace) ∧
      unconfirmed_inv b0 (some now)
        (callback_control_by_but_infinite_press spec_ops b repeats gpio now).button) ∧
    (∀ t0, unconfirmed_inv b0 (some t0) b →
      (fast_but_gpio_read b0 gpio ≠ 0 → now < t0 + 3000) →
      (∀ g, event.call g ∉
          (callback_control_by_but_infinite_press spec_ops b repeats gpio now).trace) ∧
      unconfirmed_inv b0 (some t0)
        (callback_control_by_but_infinite_press spec_ops b repeats gpio now).button) := by
  refine ⟨?_, ?_, ?_⟩
  · rintro ⟨h1, h2, hp, hc, hlp, ha⟩ hl
    rw [fast_but_gpio_read_eq] at hl
    simp [callback_control_by_but_infinite_press, fast_but_gpio_read_eq, unconfirmed_inv,
      spec_ops, h1, h2, hnc, hl, hp, hc, hlp, ha]
  · rintro ⟨h1, h2, hp, hc, hlp, ha⟩ hl
    rw [fast_but_gpio_read_eq] at hl
    have hd := async_await_unarmed b.DEBOUNCE_AWAIT now 3 time_unit.TIME_UNIT_MS false ha
      (by decide)
    simp [callback_control_by_but_infinite_press, fast_but_gpio_read_eq, unconfirmed_inv,
      spec_ops, h1, h2, hnc, hl, hp, hc, hlp, hd]
  · rintro t0 ⟨h1, h2, hp, hc, hlp, ha, hs⟩ hw
    by_cases hl : gpio_level b0.PIN b0.pull_mode gpio = 0
    · simp [callback_control_by_but_infinite_press, fast_but_gpio_read_eq, unconfirmed_inv,
        spec_ops, h1, h2, hnc, hl, hp, hc, hlp, ha, hs]
    · have ht : ¬ (t0 + duration_us 3 time_unit.TIME_UNIT_MS ≤ now) := by
        have hlt := hw hl
        show ¬ (t0 + 3000 ≤ now)
        omega
      have hd := async_await_armed_early b.DEBOUNCE_AWAIT now 3 t0
        time_unit.TIME_UNIT_MS false ha hs ht
      simp [callback_control_by_but_infinite_press, fast_but_gpio_read_eq, unconfirmed_inv,
        spec_ops, h1, h2, hnc, hl, hp, hc, hlp, hd]

/-- A poll of the flag longtime classifier on a button of a type other than `FIX` on
which it has confirmed no press: a released poll before the first pressed poll leaves
the debounce timer not armed; a first pressed poll at `now` leaves it not armed or
armed at `now`; after a first pressed poll at `t0`, a poll that is released or comes
at `t0` or later and less than `3 ms` after `t0` confirms nothing; the flag is
kept. -/
theorem flag_longtime_unconfirmed_step (b0 b : button_ctx async_await_ctx) (f : Bool)
    (gpio : gpio_dev_t) (now : Nat) (hnc : b0.PIN ≠ GPIO_NUM_NC) (hfix : b0.type ≠ FIX) :
    (longtime_unconfirmed_inv b0 none b → fast_but_gpio_read b0 gpio = 0 →
      (flag_control_by_but_longtime_press spec_ops b f gpio now).flag = f ∧
      longtime_unconfirmed_inv b0 none
        (flag_control_by_but_longtime_press spec_ops b f gpio now).button) ∧
    (longtime_unconfirmed_inv b0 none b → fast_but_gpio_read b0 gpio ≠ 0 →
      (flag_control_by_but_longtime_press spec_ops b f gpio now).flag = f ∧
      longtime_unconfirmed_inv b0 (some now)
        (flag_control_by_but_longtime_press spec_ops b f gpio now).button) ∧
    (∀ t0, longtime_unconfirmed_inv b0 (some t0) b →
      (fast_but_gpio_read b0 gpio ≠ 0 → t0 ≤ now ∧ now < t0 + 3000) →
      (flag_control_by_but_longtime_press spec_ops b f gpio now).flag = f ∧
      longtime_unconfirmed_inv b0 (some t0)
        (flag_control_by_but_longtime_press spec_ops b f gpio now).button) := by
  refine ⟨?_, ?_, ?_⟩
  · rintro ⟨h1, h2, h3, hp, ha⟩ hl
    rw [fast_but_gpio_read_eq] at hl
    by_cases he : b.long_time_await_end = true
    · simp [flag_control_by_but_longtime_press, fast_but_gpio_read_eq,
        longtime_unconfirmed_inv, spec_ops, h1, h2, h3, hnc, hfix, hl, hp, ha, he]
    · simp [flag_control_by_but_longtime_press, fast_but_gpio_read_eq,
        longtime_unconfirmed_inv, spec_ops, h1, h2, h3, hnc, hfix, hl, hp, ha, he]
  · rintro ⟨h1, h2, h3, hp, ha⟩ hl
    rw [fast_but_gpio_read_eq] at hl
    have hd := async_await_unarmed b.DEBOUNCE_AWAIT now 3 time_unit.TIME_UNIT_MS false ha
      (by decide)
    by_cases he : b.long_time_await_end = true
    · simp [flag_control_by_but_longtime_press, fast_but_gpio_read_eq,
        longtime_unconfirmed_inv, spec_ops, end_await, h1, h2, h3, hnc, hfix, hl, hp, hd, he]
    · simp [flag_control_by_but_longtime_press, fast_but_gpio_read_eq,
        longtime_unconfirmed_inv, spec_ops, end_await, h1, h2, h3, hnc, hfix, hl, hp, hd, he]
  · rintro t0 ⟨h1, h2, h3, hp, ha⟩ hw
    by_cases hl : gpio_level b0.PIN b0.pull_mode gpio = 0
    · by_cases he : b.long_time_await_end = true
      · simp [flag_control_by_but_longtime_press, fast_but_gpio_read_eq,
          longtime_unconfirmed_inv, spec_ops, h1, h2, h3, hnc, hfix, hl, hp, he]
        exact ha
      · simp [flag_control_by_but_longtime_press, fast_but_gpio_read_eq,
          longtime_unconfirmed_inv, spec_ops, h1, h2, h3, hnc, hfix, hl, hp, he]
        exact ha
    · obtain ⟨hw1, hw2⟩ := hw hl
      by_cases hsf : b.DEBOUNCE_AWAIT.start_flag = true
      · have hs0 := ha hsf
        have ht : ¬ (b.DEBOUNCE_AWAIT.start_time + duration_us 3 time_unit.TIME_UNIT_MS
            ≤ now) := by
          show ¬ (b.DEBOUNCE_AWAIT.start_time + 3000 ≤ now)
          omega
        have hd := async_await_armed_early b.DEBOUNCE_AWAIT now 3 b.DEBOUNCE_AWAIT.start_time
          time_unit.TIME_UNIT_MS false hsf rfl ht
        by_cases he : b.long_time_await_end = true
        · simp [flag_control_by_but_longtime_press, fast_but_gpio_read_eq,
            longtime_unconfirmed_inv, spec_ops, end_await, h1, h2, h3, hnc, hfix, hl, hp, hd,
            he]
        · simp [flag_control_by_but_longtime_press, fast_but_gpio_read_eq,
            longtime_unconfirmed_inv, spec_ops, end_await, h1, h2, h3, hnc, hfix, hl, hp, hd,
            he]
          exact hs0
      · have hsf' : b.DEBOUNCE_AWAIT.start_flag = false := by
          cases h : b.DEBOUNCE_AWAIT.start_flag
          · rfl
          · exact absurd h hsf
        have hd := async_await_unarmed b.DEBOUNCE_AWAIT now 3 time_unit.TIME_UNIT_MS false
          hsf' (by decide)
        by_cases he : b.long_time_await_end = true
        · simp [flag_control_by_but_longtime_press, fast_but_gpio_read_eq,
            longtime_unconfirmed_inv, spec_ops, end_await, h1, h2, h3, hnc, hfix, hl, hp, hd,
            he]
        · simp [flag_control_by_but_longtime_press, fast_but_gpio_read_eq,
            longtime_unconfirmed_inv, spec_ops, end_await, h1, h2, h3, hnc, hfix, hl, hp, hd,
            he]
          exact hw1

/-- In a state with no confirmed press `but_pressed` is false. -/
theorem unconfirmed_inv_pressed (b0 : button_ctx async_await_ctx) (o : Option Nat)
    (b : button_ctx async_await_ctx) (h : unconfirmed_inv b0 o b) : b.but_pressed = false := by
  cases o with
  | none => exact h.2.2.1
  | some t0 => exact h.2.2.1

/-- In a state with no press confirmed by the flag longtime classifier
`but_long_pressed` is false. -/
theorem longtime_unconfirmed_inv_pressed (b0 : button_ctx async_await_ctx) (o : Option Nat)
    (b : button_ctx async_await_ctx) (h : longtime_unconfirmed_inv b0 o b) :
    b.but_long_pressed = false := by
  cases o with
  | none => exact h.2.2.2.1
  | some t0 => exact h.2.2.2.1

/-- Polling a callback classifier that returns at once in the state `b`: the record
stays as it is and no callback is invoked. -/
theorem callback_noop_run {τ : Type}
    (step : button_ctx τ → gpio_dev_t → Nat → callback_result τ) (b : button_ctx τ)
    (hnoop : ∀ (gpio : gpio_dev_t) (now : Nat), step b gpio now = ⟨b, []⟩)
    (ps : List poll) :
    ∀ r ∈ callback_results step b ps, r = ⟨b, []⟩ := by
  induction ps with
  | nil => intro r hr; simp [callback_results] at hr
  | cons p ps ih =>
    intro r hr
    simp only [callback_results, hnoop, List.mem_cons] at hr
    rcases hr with rfl | hr
    · rfl
    · exact ih r hr

/-- The debounce window for the flag infinite classifier: from a state with no confirmed
press and the debounce timer not armed, over polls whose pressed polls all come less
than `3 ms` after the first pressed poll, no press is confirmed and the flag is kept. -/
theorem flag_infinite_window (b0 bs : button_ctx async_await_ctx) (f0 : Bool)
    (ps : List poll) (hnc : b0.PIN ≠ GPIO_NUM_NC)
    (hJ : unconfirmed_inv b0 none bs)
    (hshort : ∀ t0, first_press b0 ps = some t0 →
      ∀ p ∈ ps, fast_but_gpio_read b0 p.gpio ≠ 0 → p.now < t0 + 3000) :
    (∀ b ∈ button_history (flag_control_by_but_infinite_press spec_ops) bs f0 ps,
      b.but_pressed = false) ∧
    flag_history (flag_control_by_but_infinite_press spec_ops) bs f0 ps
      = List.replicate ps.length f0 := by
  obtain ⟨r1, r2⟩ := unconfirmed_flag_run (flag_control_by_but_infinite_press spec_ops) b0
    (unconfirmed_inv b0) (fun t0 p => fast_but_gpio_read b0 p.gpio ≠ 0 → p.now < t0 + 3000)
    (fun b f p h hl => (flag_infinite_unconfirmed_step b0 b f p.gpio p.now hnc).1 h hl)
    (fun b f p h hl => (flag_infinite_unconfirmed_step b0 b f p.gpio p.now hnc).2.1 h hl)
    (fun t0 b f p h hw =>
      (flag_infinite_unconfirmed_step b0 b f p.gpio p.now hnc).2.2 t0 h hw)
    ps hshort bs f0 hJ
  exact ⟨fun b hb => (r1 b hb).elim (fun o ho => unconfirmed_inv_pressed b0 o b ho), r2⟩

/-- The debounce window for the inner multiple-press function with a target of at least
one: the counterpart of `flag_infinite_window`. -/
theorem flag_inside_window (b0 bs : button_ctx async_await_ctx) (f0 : Bool) (N : Nat)
    (ps : List poll) (hnc : b0.PIN ≠ GPIO_NUM_NC) (hN : ¬ N < 1)
    (hJ : unconfirmed_inv b0 none bs)
    (hshort : ∀ t0, first_press b0 ps = some t0 →
      ∀ p ∈ ps, fast_but_gpio_read b0 p.gpio ≠ 0 → p.now < t0 + 3000) :
    (∀ b ∈ button_history
        (fun b f => flag_control_by_but_multiple_press_inside spec_ops b f N) bs f0 ps,
      b.but_pressed = false) ∧
    flag_history (fun b f => flag_control_by_but_multiple_press_inside spec_ops b f N) bs f0 ps
      = List.replicate ps.length f0 := by
  obtain ⟨r1, r2⟩ := unconfirmed_flag_run
    (fun b f => flag_control_by_but_multiple_press_inside spec_ops b f N) b0
    (unconfirmed_inv b0) (fun t0 p => fast_but_gpio_read b0 p.gpio ≠ 0 → p.now < t0 + 3000)
    (fun b f p h hl => (flag_inside_unconfirmed_step b0 b f N p.gpio p.now hnc hN).1 h hl)
    (fun b f p h hl => (flag_inside_unconfirmed_step b0 b f N p.gpio p.now hnc hN).2.1 h hl)
    (fun t0 b f p h hw =>
      (flag_inside_unconfirmed_step b0 b f N p.gpio p.now hnc hN).2.2 t0 h hw)
    ps hshort bs f0 hJ
  exact ⟨fun b hb => (r1 b hb).elim (fun o ho => unconfirmed_inv_pressed b0 o b ho), r2⟩

/-- The debounce window for the callback onetime classifier: from a state with no
confirmed press and the debounce timer not armed, over polls whose pressed polls all
come less than `3 ms` after the first pressed poll, no press is confirmed and no
callback is invoked. -/
theorem callback_onetime_window (b0 bs : button_ctx async_await_ctx) (repeats : Nat)
    (ps : List poll) (hnc : b0.PIN ≠ GPIO_NUM_NC)
    (hJ : unconfirmed_inv b0 none bs)
    (hshort : ∀ t0, first_press b0 ps = some t0 →
      ∀ p ∈ ps, fast_but_gpio_read b0 p.gpio ≠ 0 → p.now < t0 + 3000) :
    ∀ r ∈ callback_results
        (fun b => callback_control_by_but_onetime_press spec_ops b repeats) bs ps,
      r.button.but_pressed = false ∧ ∀ g, event.call g ∉ r.trace := by
  intro r hr
  obtain ⟨r1, r2⟩ := unconfirmed_callback_run
    (fun b => callback_control_by_but_onetime_press spec_ops b repeats) b0
    (unconfirmed_inv b0) (fun t0 p => fast_but_gpio_read b0 p.gpio ≠ 0 → p.now < t0 + 3000)
    (fun b p h hl => (callback_onetime_unconfirmed_step b0 b repeats p.gpio p.now hnc).1 h hl)
    (fun b p h hl => (callback_onetime_unconfirmed_step b0 b repeats p.gpio p.now hnc).2.1 h hl)
    (fun t0 b p h hw =>
      (callback_onetime_unconfirmed_step b0 b repeats p.gpio p.now hnc).2.2 t0 h hw)
    ps hshort bs hJ r hr
  exact ⟨r1.elim (fun o ho => unconfirmed_inv_pressed b0 o _ ho), r2⟩

/-- The debounce window for the callback multiple-press classifier with a target of at
least one: the counterpart of `callback_onetime_window`. -/
theorem callback_multiple_window (b0 bs : button_ctx async_await_ctx) (N repeats : Nat)
    (ps : List poll) (hnc : b0.PIN ≠ GPIO_NUM_NC) (hN : ¬ N < 1)
    (hJ : unconfirmed_inv b0 none bs)
    (hshort : ∀ t0, first_press b0 ps = some t0 →
      ∀ p ∈ ps, fast_but_gpio_read b0 p.gpio ≠ 0 → p.now < t0 + 3000) :
    ∀ r ∈ callback_results
        (fun b => callback_control_by_but_multiple_press spec_ops b N repeats) bs ps,
      r.button.but_pressed = false ∧ ∀ g, event.call g ∉ r.trace := by
  intro r hr
  obtain ⟨r1, r2⟩ := unconfirmed_callback_run
    (fun b => callback_control_by_but_multiple_press spec_ops b N repeats) b0
    (unconfirmed_inv b0) (fun t0 p => fast_but_gpio_read b0 p.gpio ≠ 0 → p.now < t0 + 3000)
    (fun b p h hl => (callback_multiple_unconfirmed_step b0 b N repeats p.gpio p.now hnc hN).1 h hl)
    (fun b p h hl =>
      (callback_multiple_unconfirmed_step b0 b N repeats p.gpio p.now hnc hN).2.1 h hl)
    (fun t0 b p h hw =>
      (callback_multiple_unconfirmed_step b0 b N repeats p.gpio p.now hnc hN).2.2 t0 h hw)
    ps hshort bs hJ r hr
  exact ⟨r1.elim (fun o ho => unconfirmed_inv_pressed b0 o _ ho), r2⟩

/-- The debounce window for the callback longtime classifier: the counterpart of
`callback_onetime_window`. -/
theorem callback_longtime_window (b0 bs : button_ctx async_await_ctx) (repeats : Nat)
    (ps : List poll) (hnc : b0.PIN ≠ GPIO_NUM_NC)
    (hJ : unconfirmed_inv b0 none bs)
    (hshort : ∀ t0, first_press b0 ps = some t0 →
      ∀ p ∈ ps, fast_but_gpio_read b0 p.gpio ≠ 0 → p.now < t0 + 3000) :
    ∀ r ∈ callback_results
        (fun b => callback_control_by_but_longtime_press spec_ops b repeats) bs ps,
      r.button.but_pressed = false ∧ ∀ g, event.call g ∉ r.trace := by
  intro r hr
  obtain ⟨r1, r2⟩ := unconfirmed_callback_run
    (fun b => callback_control_by_but_longtime_press spec_ops b repeats) b0
    (unconfirmed_inv b0) (fun t0 p => fast_but_gpio_read b0 p.gpio ≠ 0 → p.now < t0 + 3000)
    (fun b p h hl => (callback_longtime_unconfirmed_step b0 b repeats p.gpio p.now hnc).1 h hl)
    (fun b p h hl => (callback_longtime_unconfirmed_step b0 b repeats p.gpio p.now hnc).2.1 h hl)
    (fun t0 b p h hw =>
      (callback_longtime_unconfirmed_step b0 b repeats p.gpio p.now hnc).2.2 t0 h hw)
    ps hshort bs hJ r hr
  exact ⟨r1.elim (fun o ho => unconfirmed_inv_pressed b0 o _ ho), r2⟩

/-- The debounce window for the callback infinite classifier: the counterpart of
`callback_onetime_window`. -/
theorem callback_infinite_window (b0 bs : button_ctx async_await_ctx) (repeats : Nat)
    (ps : List poll) (hnc : b0.PIN ≠ GPIO_NUM_NC)
    (hJ : unconfirmed_inv b0 none bs)
    (hshort : ∀ t0, first_press b0 ps = some t0 →
      ∀ p ∈ ps, fast_but_gpio_read b0 p.gpio ≠ 0 → p.now < t0 + 3000) :
    ∀ r ∈ callback_results
        (fun b => callback_control_by_but_infinite_press spec_ops b repeats) bs ps,
      r.button.but_pressed = false ∧ ∀ g, event.call g ∉ r.trace := by
  intro r hr
  obtain ⟨r1, r2⟩ := unconfirmed_callback_run
    (fun b => callback_control_by_but_infinite_press spec_ops b repeats) b0
    (unconfirmed_inv b0) (fun t0 p => fast_but_gpio_read b0 p.gpio ≠ 0 → p.now < t0 + 3000)
    (fun b p h hl => (callback_infinite_unconfirmed_step b0 b repeats p.gpio p.now hnc).1 h hl)
    (fun b p h hl => (callback_infinite_unconfirmed_step b0 b repeats p.gpio p.now hnc).2.1 h hl)
    (fun t0 b p h hw =>
      (callback_infinite_unconfirmed_step b0 b repeats p.gpio p.now hnc).2.2 t0 h hw)
    ps hshort bs hJ r hr
  exact ⟨r1.elim (fun o ho => unconfirmed_inv_pressed b0 o _ ho), r2⟩

/-- The debounce window for the flag longtime classifier on a button of a type other
than `FIX`: from a state with no confirmed press and the debounce timer not armed, over
polls whose pressed polls all come at or after the first pressed poll and less than
`3 ms` after it, `but_long_pressed` is never set and the flag is kept. -/
theorem flag_longtime_window (b0 bs : button_ctx async_await_ctx) (f0 : Bool)
    (ps : List poll) (hnc : b0.PIN ≠ GPIO_NUM_NC) (hfix : b0.type ≠ FIX)
    (hJ : longtime_unconfirmed_inv b0 none bs)
    (hshort : ∀ t0, first_press b0 ps = some t0 →
      ∀ p ∈ ps, fast_but_gpio_read b0 p.gpio ≠ 0 → t0 ≤ p.now ∧ p.now < t0 + 3000) :
    (∀ b ∈ button_history (flag_control_by_but_longtime_press spec_ops) bs f0 ps,
      b.but_long_pressed = false) ∧
    flag_history (flag_control_by_but_longtime_press spec_ops) bs f0 ps
      = List.replicate ps.length f0 := by
  obtain ⟨r1, r2⟩ := unconfirmed_flag_run (flag_control_by_but_longtime_press spec_ops) b0
    (longtime_unconfirmed_inv b0)
    (fun t0 p => fast_but_gpio_read b0 p.gpio ≠ 0 → t0 ≤ p.now ∧ p.now < t0 + 3000)
    (fun b f p h hl => (flag_longtime_unconfirmed_step b0 b f p.gpio p.now hnc hfix).1 h hl)
    (fun b f p h hl => (flag_longtime_unconfirmed_step b0 b f p.gpio p.now hnc hfix).2.1 h hl)
    (fun t0 b f p h hw =>
      (flag_longtime_unconfirmed_step b0 b f p.gpio p.now hnc hfix).2.2 t0 h hw)
    ps hshort bs f0 hJ
  exact ⟨fun b hb => (r1 b hb).elim (fun o ho => longtime_unconfirmed_inv_pressed b0 o b ho),
    r2⟩

/-- In a state with no confirmed press nothing is counted. -/
theorem unconfirmed_inv_counter (b0 : button_ctx async_await_ctx) (o : Option Nat)
    (b : button_ctx async_await_ctx) (h : unconfirmed_inv b0 o b) :
    b.presses_counter = 0 := by
  cases o with
  | none => exact h.2.2.2.1
  | some t0 => exact h.2.2.2.1

/-- The debounce window for the guard wrapper of the multiple-press classifier, for
every target: with target 1 the wrapper runs the inner function, with any other target
it returns at once while nothing is counted. -/
theorem flag_wrapper_window (b0 bs : button_ctx async_await_ctx) (f0 : Bool) (N : Nat)
    (ps : List poll) (hnc : b0.PIN ≠ GPIO_NUM_NC)
    (hJ : unconfirmed_inv b0 none bs)
    (hshort : ∀ t0, first_press b0 ps = some t0 →
      ∀ p ∈ ps, fast_but_gpio_read b0 p.gpio ≠ 0 → p.now < t0 + 3000) :
    (∀ b ∈ button_history (fun b f => flag_control_by_but_multiple_press spec_ops b f N)
        bs f0 ps, b.but_pressed = false) ∧
    flag_history (fun b f => flag_control_by_but_multiple_press spec_ops b f N) bs f0 ps
      = List.replicate ps.length f0 := by
  by_cases h1 : N = 1
  · subst h1
    have key : ∀ (o : Option Nat) (b : button_ctx async_await_ctx), unconfirmed_inv b0 o b →
        ∀ (f : Bool) (g : gpio_dev_t) (t : Nat),
          flag_control_by_but_multiple_press spec_ops b f 1 g t
            = flag_control_by_but_multiple_press_inside spec_ops b f 1 g t :=
      fun o b h f g t => multiple_press_wrapper_target_one spec_ops b f g t
        (by rw [unconfirmed_inv_counter b0 o b h]; omega)
    obtain ⟨r1, r2⟩ := unconfirmed_flag_run
      (fun b f => flag_control_by_but_multiple_press spec_ops b f 1) b0
      (unconfirmed_inv b0) (fun t0 p => fast_but_gpio_read b0 p.gpio ≠ 0 → p.now < t0 + 3000)
      (fun b f p h hl => by
        simp only [key none b h]
        exact (flag_inside_unconfirmed_step b0 b f 1 p.gpio p.now hnc (by decide)).1 h hl)
      (fun b f p h hl => by
        simp only [key none b h]
        exact (flag_inside_unconfirmed_step b0 b f 1 p.gpio p.now hnc (by decide)).2.1 h hl)
      (fun t0 b f p h hw => by
        simp only [key (some t0) b h]
        exact (flag_inside_unconfirmed_step b0 b f 1 p.gpio p.now hnc (by decide)).2.2 t0 h hw)
      ps hshort bs f0 hJ
    exact ⟨fun b hb => (r1 b hb).elim (fun o ho => unconfirmed_inv_pressed b0 o b ho), r2⟩
  · have hc := unconfirmed_inv_counter b0 none bs hJ
    have hnoop : ∀ (f : Bool) (gpio : gpio_dev_t) (now : Nat),
        flag_control_by_but_multiple_press spec_ops bs f N gpio now = ⟨bs, f, []⟩ := by
      intro f gpio now
      by_cases hN0 : N < 1
      · simp [flag_control_by_but_multiple_press, hN0]
      · exact multiple_press_wrapper_idle spec_ops bs f N gpio now hc (by omega)
    obtain ⟨r1, r2⟩ := flag_noop_run
      (fun b f => flag_control_by_but_multiple_press spec_ops b f N) bs hnoop f0 ps
    refine ⟨fun b hb => ?_, r2⟩
    rw [r1 b hb]
    exact unconfirmed_inv_pressed b0 none bs hJ

/-- The flag longtime classifier never writes `but_pressed`. -/
theorem flag_longtime_but_pressed {τ : Type} (ops : await_ops τ) (b : button_ctx τ)
    (f : Bool) (gpio : gpio_dev_t) (now : Nat) :
    (flag_control_by_but_longtime_press ops b f gpio now).button.but_pressed
      = b.but_pressed := by
  by_cases hnc : b.PIN = GPIO_NUM_NC
  · simp [flag_control_by_but_longtime_press, hnc]
  · by_cases hfix : b.type = FIX
    · simp [flag_control_by_but_longtime_press, hnc, hfix]
    · by_cases hl : gpio_level b.PIN b.pull_mode gpio = 0 <;>
      by_cases hb : b.but_long_pressed = true <;>
      by_cases he : b.long_time_await_end = true <;>
      by_cases hr1 :
        (ops.async_await b.DEBOUNCE_AWAIT now 3 time_unit.TIME_UNIT_MS false).1 = true <;>
      by_cases hr2 :
        (ops.async_await b.LONG_TIME_PRESS_AWAIT now 3 time_unit.TIME_UNIT_S false).1 = true <;>
      simp [flag_control_by_but_longtime_press, fast_but_gpio_read_eq, hnc, hfix, hl, hb, he,
        hr1, hr2]

/-- Polling the flag longtime classifier never sets `but_pressed`. -/
theorem flag_longtime_but_pressed_run (ps : List poll) :
    ∀ (b : button_ctx async_await_ctx) (f : Bool), b.but_pressed = false →
      ∀ b' ∈ button_history (flag_control_by_but_longtime_press spec_ops) b f ps,
        b'.but_pressed = false := by
  induction ps with
  | nil => intro b f _ b' hb'; simp [button_history] at hb'
  | cons q qs ih =>
    intro b f hb b' hb'
    have hk := flag_longtime_but_pressed spec_ops b f q.gpio q.now
    rw [hb] at hk
    simp only [button_history, List.mem_cons] at hb'
    rcases hb' with rfl | hb'
    · exact hk
    · exact ih _ _ hk b' hb'

/-- Claim C7, as the code has it: over the timer of the specification, polling any one
classifier on a freshly initialised button, for every poll sequence in which every
pressed poll comes less than `3 ms` after the first pressed poll of the sequence (the
poll that arms the debounce timer, which a release does not stop), no press is
confirmed and nothing fires.  For `flag_control_by_but_onetime_press`,
`flag_control_by_but_multiple_press` and its inner function (any target) and
`flag_control_by_but_infinite_press`, `but_pressed` is never set and the flag is never
toggled.  For `flag_control_by_but_longtime_press`, whose press flag is
`but_long_pressed` and which stops and re-arms the debounce timer on pressed polls
while `long_time_await_end` is set, the same holds when no pressed poll has a clock
value before that of the first pressed poll.  For the four callback classifiers, with
any callbacks bound to the button, `but_pressed` is never set and no callback is
invoked. -/
theorem C7_debounce_window (PIN pull_mode type : Int) (b0 : button_ctx async_await_ctx)
    (f0 : Bool) (N repeats : Nat) (c1 c2 c3 c4 : Option Nat) (ps : List poll)
    (hinit : button_initialization spec_ops PIN pull_mode type = some b0)
    (hshort : ∀ t0, first_press b0 ps = some t0 →
      ∀ p ∈ ps, fast_but_gpio_read b0 p.gpio ≠ 0 → p.now < t0 + 3000) :
    ((∀ b ∈ button_history (flag_control_by_but_onetime_press spec_ops) b0 f0 ps,
        b.but_pressed = false) ∧
      flag_history (flag_control_by_but_onetime_press spec_ops) b0 f0 ps
        = List.replicate ps.length f0) ∧
    ((∀ b ∈ button_history (fun b f => flag_control_by_but_multiple_press spec_ops b f N)
          b0 f0 ps, b.but_pressed = false) ∧
      flag_history (fun b f => flag_control_by_but_multiple_press spec_ops b f N) b0 f0 ps
        = List.replicate ps.length f0) ∧
    ((∀ b ∈ button_history
          (fun b f => flag_control_by_but_multiple_press_inside spec_ops b f N) b0 f0 ps,
        b.but_pressed = false) ∧
      flag_history (fun b f => flag_control_by_but_multiple_press_inside spec_ops b f N)
          b0 f0 ps
        = List.replicate ps.length f0) ∧
    ((∀ b ∈ button_history (flag_control_by_but_infinite_press spec_ops) b0 f0 ps,
        b.but_pressed = false) ∧
      flag_history (flag_control_by_but_infinite_press spec_ops) b0 f0 ps
        = List.replicate ps.length f0) ∧
    ((∀ t0, first_press b0 ps = some t0 →
        ∀ p ∈ ps, fast_but_gpio_read b0 p.gpio ≠ 0 → t0 ≤ p.now) →
      (∀ b ∈ button_history (flag_control_by_but_longtime_press spec_ops) b0 f0 ps,
        b.but_long_pressed = false ∧ b.but_pressed = false) ∧
      flag_history (flag_control_by_but_longtime_press spec_ops) b0 f0 ps
        = List.replicate ps.length f0) ∧
    (∀ r ∈ callback_results
        (fun b => callback_control_by_but_onetime_press spec_ops b repeats)
        { b0 with
          onetime_press_callback := c1, multiple_press_callback := c2
          long_time_press_callback := c3, infinite_press_callback := c4 } ps,
      r.button.but_pressed = false ∧ ∀ g, event.call g ∉ r.trace) ∧
    (∀ r ∈ callback_results
        (fun b => callback_control_by_but_multiple_press spec_ops b N repeats)
        { b0 with
          onetime_press_callback := c1, multiple_press_callback := c2
          long_time_press_callback := c3, infinite_press_callback := c4 } ps,
      r.button.but_pressed = false ∧ ∀ g, event.call g ∉ r.trace) ∧
    (∀ r ∈ callback_results
        (fun b => callback_control_by_but_longtime_press spec_ops b repeats)
        { b0 with
          onetime_press_callback := c1, multiple_press_callback := c2
          long_time_press_callback := c3, infinite_press_callback := c4 } ps,
      r.button.but_pressed = false ∧ ∀ g, event.call g ∉ r.trace) ∧
    (∀ r ∈ callback_results
        (fun b => callback_control_by_but_infinite_press spec_ops b repeats)
        { b0 with
          onetime_press_callback := c1, multiple_press_callback := c2
          long_time_press_callback := c3, infinite_press_callback := c4 } ps,
      r.button.but_pressed = false ∧ ∀ g, event.call g ∉ r.trace) := by
  obtain ⟨hb0, hpin0, _⟩ := button_initialization_spec_ops PIN pull_mode type b0 hinit
  have htype : type = NO_FIX ∨ type = FIX := by
    unfold button_initialization at hinit
    split_ifs at hinit with k1 k2 k3
    by_cases k : type = NO_FIX
    · exact Or.inl k
    · by_cases k' : type = FIX
      · exact Or.inr k'
      · exact absurd ⟨k, k'⟩ k3
  have hnc : b0.PIN ≠ GPIO_NUM_NC := by
    rw [hb0]; simp only [fresh_button, GPIO_NUM_NC]; omega
  have hty : b0.type = type := by rw [hb0]; rfl
  have hbp : b0.but_pressed = false := by rw [hb0]; rfl
  have hJ0 : unconfirmed_inv b0 none b0 := by
    rw [hb0]; exact ⟨rfl, rfl, rfl, rfl, rfl, rfl⟩
  have hJc : unconfirmed_inv b0 none
      { b0 with
        onetime_press_callback := c1, multiple_press_callback := c2
        long_time_press_callback := c3, infinite_press_callback := c4 } := by
    rw [hb0]; exact ⟨rfl, rfl, rfl, rfl, rfl, rfl⟩
  have hJL : longtime_unconfirmed_inv b0 none b0 := by
    rw [hb0]; exact ⟨rfl, rfl, rfl, rfl, rfl⟩
  refine ⟨?_, flag_wrapper_window b0 b0 f0 N ps hnc hJ0 hshort, ?_,
    flag_infinite_window b0 b0 f0 ps hnc hJ0 hshort, ?_,
    callback_onetime_window b0 _ repeats ps hnc hJc hshort, ?_,
    callback_longtime_window b0 _ repeats ps hnc hJc hshort,
    callback_infinite_window b0 _ repeats ps hnc hJc hshort⟩
  · rcases htype with k | k
    · subst k
      exact onetime_debounce_window PIN pull_mode b0 f0 ps hinit hshort
    · have hnoop : ∀ (f : Bool) (gpio : gpio_dev_t) (now : Nat),
          flag_control_by_but_onetime_press spec_ops b0 f gpio now = ⟨b0, f, []⟩ := by
        intro f gpio now
        simp [flag_control_by_but_onetime_press, hty, k]
      obtain ⟨r1, r2⟩ := flag_noop_run (flag_control_by_but_onetime_press spec_ops) b0 hnoop
        f0 ps
      exact ⟨fun b hb => by rw [r1 b hb]; exact hbp, r2⟩
  · by_cases hN : N < 1
    · have hnoop : ∀ (f : Bool) (gpio : gpio_dev_t) (now : Nat),
          flag_control_by_but_multiple_press_inside spec_ops b0 f N gpio now
            = ⟨b0, f, []⟩ := by
        intro f gpio now
        simp [flag_control_by_but_multiple_press_inside, hN]
      obtain ⟨r1, r2⟩ := flag_noop_run
        (fun b f => flag_control_by_but_multiple_press_inside spec_ops b f N) b0 hnoop f0 ps
      exact ⟨fun b hb => by rw [r1 b hb]; exact hbp, r2⟩
    · exact flag_inside_window b0 b0 f0 N ps hnc hN hJ0 hshort
  · intro hafter
    have hlp : ∀ b ∈ button_history (flag_control_by_but_longtime_press spec_ops) b0 f0 ps,
        b.but_pressed = false :=
      flag_longtime_but_pressed_run ps b0 f0 hbp
    rcases htype with k | k
    · have hfix : b0.type ≠ FIX := by rw [hty, k]; decide
      obtain ⟨r1, r2⟩ := flag_longtime_window b0 b0 f0 ps hnc hfix hJL
        (fun t0 ht0 p hp hl => ⟨hafter t0 ht0 p hp hl, hshort t0 ht0 p hp hl⟩)
      exact ⟨fun b hb => ⟨r1 b hb, hlp b hb⟩, r2⟩
    · have hnoop : ∀ (f : Bool) (gpio : gpio_dev_t) (now : Nat),
          flag_control_by_but_longtime_press spec_ops b0 f gpio now = ⟨b0, f, []⟩ := by
        intro f gpio now
        simp [flag_control_by_but_longtime_press, hty, k]
      obtain ⟨r1, r2⟩ := flag_noop_run (flag_control_by_but_longtime_press spec_ops) b0 hnoop
        f0 ps
      refine ⟨fun b hb => ⟨?_, hlp b hb⟩, r2⟩
      rw [r1 b hb, hb0]
      rfl
  · by_cases hN : N < 1
    · intro r hr
      have hnoop : ∀ (gpio : gpio_dev_t) (now : Nat),
          callback_control_by_but_multiple_press spec_ops
              { b0 with
                onetime_press_callback := c1, multiple_press_callback := c2
                long_time_press_callback := c3, infinite_press_callback := c4 }
              N repeats gpio now
            = ⟨{ b0 with
                onetime_press_callback := c1, multiple_press_callback := c2
                long_time_press_callback := c3, infinite_press_callback := c4 }, []⟩ := by
        intro gpio now
        simp [callback_control_by_but_multiple_press, hN]
      have e := callback_noop_run
        (fun b => callback_control_by_but_multiple_press spec_ops b N repeats) _ hnoop ps r hr
      rw [e]
      exact ⟨hbp, fun g => by simp⟩
    · exact callback_multiple_window b0 _ N repeats ps hnc hN hJc hshort

/-- Instance of claim C7 as the code has it: a pull-up button on pin 4 with the
callbacks `5` to `8` bound, whose level bounces for `2 ms` (pressed at `0`, released at
`1000`, pressed at `2000`, released at `2500` microseconds): the flag onetime and
longtime classifiers keep the flag and confirm nothing, and the callback longtime
classifier invokes nothing. -/
theorem C7_debounce_window_witness :
    ((∀ b ∈ button_history (flag_control_by_but_onetime_press spec_ops)
          (fresh_button 4 GPIO_PULLUP_ONLY NO_FIX) false
          [⟨gpio_low, 0⟩, ⟨gpio_high, 1000⟩, ⟨gpio_low, 2000⟩, ⟨gpio_high, 2500⟩],
        b.but_pressed = false) ∧
      flag_history (flag_control_by_but_onetime_press spec_ops)
          (fresh_button 4 GPIO_PULLUP_ONLY NO_FIX) false
          [⟨gpio_low, 0⟩, ⟨gpio_high, 1000⟩, ⟨gpio_low, 2000⟩, ⟨gpio_high, 2500⟩]
        = List.replicate
            [(⟨gpio_low, 0⟩ : poll), ⟨gpio_high, 1000⟩, ⟨gpio_low, 2000⟩,
              ⟨gpio_high, 2500⟩].length false) ∧
    ((∀ b ∈ button_history (flag_control_by_but_longtime_press spec_ops)
          (fresh_button 4 GPIO_PULLUP_ONLY NO_FIX) false
          [⟨gpio_low, 0⟩, ⟨gpio_high, 1000⟩, ⟨gpio_low, 2000⟩, ⟨gpio_high, 2500⟩],
        b.but_long_pressed = false ∧ b.but_pressed = false) ∧
      flag_history (flag_control_by_but_longtime_press spec_ops)
          (fresh_button 4 GPIO_PULLUP_ONLY NO_FIX) false
          [⟨gpio_low, 0⟩, ⟨gpio_high, 1000⟩, ⟨gpio_low, 2000⟩, ⟨gpio_high, 2500⟩]
        = List.replicate
            [(⟨gpio_low, 0⟩ : poll), ⟨gpio_high, 1000⟩, ⟨gpio_low, 2000⟩,
              ⟨gpio_high, 2500⟩].length false) ∧
    (∀ r ∈ callback_results
        (fun b => callback_control_by_but_longtime_press spec_ops b 2)
        { fresh_button 4 GPIO_PULLUP_ONLY NO_FIX with
          onetime_press_callback := some 5, multiple_press_callback := some 6
          long_time_press_callback := some 7, infinite_press_callback := some 8 }
        [⟨gpio_low, 0⟩, ⟨gpio_high, 1000⟩, ⟨gpio_low, 2000⟩, ⟨gpio_high, 2500⟩],
      r.button.but_pressed = false ∧ ∀ g, event.call g ∉ r.trace) :=
  (fun h => ⟨h.1,
      h.2.2.2.2.1 (by
        intro t0 ht0
        have h0 : t0 = 0 := by
          have h' : first_press (fresh_button 4 GPIO_PULLUP_ONLY NO_FIX)
              [⟨gpio_low, 0⟩, ⟨gpio_high, 1000⟩, ⟨gpio_low, 2000⟩, ⟨gpio_high, 2500⟩]
              = some 0 := by decide
          rw [h'] at ht0
          exact (Option.some.inj ht0).symm
        subst h0
        decide),
      h.2.2.2.2.2.2.2.1⟩)
    (C7_debounce_window 4 GPIO_PULLUP_ONLY NO_FIX (fresh_button 4 GPIO_PULLUP_ONLY NO_FIX)
      false 1 2 (some 5) (some 6) (some 7) (some 8)
      [⟨gpio_low, 0⟩, ⟨gpio_high, 1000⟩, ⟨gpio_low, 2000⟩, ⟨gpio_high, 2500⟩]
      (by decide)
      (by
        intro t0 ht0
        have h : t0 = 0 := by
          have h' : first_press (fresh_button 4 GPIO_PULLUP_ONLY NO_FIX)
              [⟨gpio_low, 0⟩, ⟨gpio_high, 1000⟩, ⟨gpio_low, 2000⟩, ⟨gpio_high, 2500⟩]
              = some 0 := by decide
          rw [h'] at ht0
          exact (Option.some.inj ht0).symm
        subst h
        decide))

end ButtonControl
